import Mathlib

/-!
# Cinema seat booking backend: booking, availability and payment workflows

A shallow embedding of the Go services (`internal/services`) and repositories
(`internal/repositories`) of the cinema booking backend, followed by theorems
about the booking, payment and listing workflows.

Modelling conventions

* Go `int` identifiers are `Int`; where the code does arithmetic on an `int`
  (pagination) the 64-bit wrap-around is explicit (`wrapInt`).  `float64`
  prices are `Rat` (prices are only copied and compared, never computed with);
  `time.Time` timestamps are `Nat` ticks, and the show date (a `time.Time` at
  midnight UTC) is a calendar `Date`.
* The PostgreSQL tables are lists of rows in insertion order inside `Database`.
* Every repository call is one SQL statement (two in the paginated listings:
  a count and a page query).  A statement may fail with a driver error;
  `Env.fails` says which calls fail and `Env.dbError` is the driver's message.
  A failed statement leaves the tables unchanged.
* Every service operation returns an `Outcome`: the database afterwards, the
  repository calls it made (in order), and the Go result `(value, error)` as an
  `Except String`.
-/

namespace Bioskop

/-! ## Data model (`internal/models`) -/

/-- Calendar date carried by a `time.Time` produced by `time.Parse("2006-01-02", _)`. -/
structure Date where
  year : Nat
  month : Nat
  day : Nat
deriving DecidableEq, Repr

/-- Go struct `models.Seat`. -/
structure Seat where
  ID : Int
  CinemaID : Int
  SeatNumber : String
  RowNumber : Int
  SeatType : String
  Price : Rat
  CreatedAt : Nat
  UpdatedAt : Nat
deriving DecidableEq, Repr

/-- Go struct `models.Cinema`. -/
structure Cinema where
  ID : Int
  Name : String
  Location : String
  City : String
  Address : String
  TotalSeats : Int
  ImageURL : String
  CreatedAt : Nat
  UpdatedAt : Nat
deriving DecidableEq, Repr

/-- Go struct `models.SeatAvailability` (a row of `seat_availability`). -/
structure SeatAvailability where
  ID : Int
  CinemaID : Int
  SeatID : Int
  ShowDate : Date
  ShowTime : String
  IsAvailable : Bool
  CreatedAt : Nat
  UpdatedAt : Nat
  Seat : Option Seat
deriving DecidableEq, Repr

/-- Go struct `models.Booking` (a row of `bookings`; `Cinema` and `Seat` are only
filled in by `GetBookingWithDetails`). -/
structure Booking where
  ID : Int
  UserID : Int
  CinemaID : Int
  SeatID : Int
  ShowDate : Date
  ShowTime : String
  BookingDate : Nat
  Status : String
  TotalPrice : Rat
  PaymentMethod : String
  PaymentStatus : String
  CreatedAt : Nat
  UpdatedAt : Nat
  Cinema : Option Cinema
  Seat : Option Seat
deriving DecidableEq, Repr

/-- Go struct `models.BookingRequest`. -/
structure BookingRequest where
  CinemaID : Int
  SeatID : Int
  Date : String
  Time : String
  PaymentMethod : String
deriving DecidableEq, Repr

/-- Go struct `models.BookingResponse`. -/
structure BookingResponse where
  ID : Int
  CinemaID : Int
  SeatID : Int
  ShowDate : Date
  ShowTime : String
  TotalPrice : Rat
  PaymentMethod : String
  Status : String
  PaymentStatus : String
  CreatedAt : Nat
deriving DecidableEq, Repr

/-- Go struct `models.PaymentMethod` (`MethodType` is the Go field `Type`). -/
structure PaymentMethod where
  ID : Int
  Name : String
  MethodType : String
  IsActive : Bool
  CreatedAt : Nat
  UpdatedAt : Nat
deriving DecidableEq, Repr

/-- Go struct `models.Payment`. -/
structure Payment where
  ID : Int
  BookingID : Int
  UserID : Int
  Amount : Rat
  PaymentMethod : String
  Status : String
  TransactionID : String
  CreatedAt : Nat
  UpdatedAt : Nat
deriving DecidableEq, Repr

/-- Go struct `models.PaymentRequest`. -/
structure PaymentRequest where
  BookingID : Int
  PaymentMethod : String
  Amount : Rat
deriving DecidableEq, Repr

/-- Go struct `models.PaymentResponse`. -/
structure PaymentResponse where
  ID : Int
  BookingID : Int
  Amount : Rat
  PaymentMethod : String
  Status : String
  TransactionID : String
  CreatedAt : Nat
deriving DecidableEq, Repr

/-- Go struct `models.CinemaFilters`. -/
structure CinemaFilters where
  Page : Int
  Limit : Int
  City : String
  Name : String
deriving DecidableEq, Repr

/-- Go struct `models.PaginatedResponse`; `Data` is a slice of bookings or of
cinemas. -/
structure PaginatedResponse (α : Type) where
  Data : List α
  Page : Int
  Limit : Int
  Total : Int
  TotalPages : Int
deriving DecidableEq, Repr

/-- Go struct `models.SeatAvailabilityResponse`. -/
structure SeatAvailabilityResponse where
  CinemaID : Int
  Date : String
  Time : String
  AvailableSeats : List SeatAvailability
  UnavailableSeats : List SeatAvailability
  TotalAvailable : Int
  TotalUnavailable : Int
deriving DecidableEq, Repr

/-! ## Storage -/

/-- The tables behind the repositories, with the next serial ids of the two
tables the workflows insert into. -/
structure Database where
  seats : List Seat
  cinemas : List Cinema
  bookings : List Booking
  seatAvailability : List SeatAvailability
  payments : List Payment
  paymentMethods : List PaymentMethod
  nextBookingID : Int
  nextPaymentID : Int
deriving DecidableEq, Repr

/-- One repository call, with its arguments.  `countUserBookings` and
`countCinemas` stand for the `SELECT COUNT(*)` statements inside
`GetUserBookings` and `GetAllCinemas`, which can fail on their own. -/
inductive RepoCall where
  | getSeatByID (id : Int)
  | getCinemaByID (id : Int)
  | checkSeatBooked (seatID : Int) (showDate : Date) (showTime : String)
  | createBooking (booking : Booking)
  | updateSeatAvailability (seatID : Int) (date : Date) (timeStr : String) (isAvailable : Bool)
  | getBookingByID (id : Int)
  | getPaymentMethodByName (name : String)
  | createPayment (payment : Payment)
  | updateBookingPaymentStatus (id : Int) (paymentStatus : String)
  | updateBookingStatus (id : Int) (status : String)
  | getUserBookings (userID : Int) (page : Int) (limit : Int)
  | countUserBookings (userID : Int)
  | getBookingWithDetails (id : Int)
  | getAllCinemas (page : Int) (limit : Int) (filters : CinemaFilters)
  | countCinemas (filters : CinemaFilters)
  | getSeatAvailability (cinemaID : Int) (date : Date) (timeStr : String)
deriving DecidableEq, Repr

/-- What the surroundings decide for one service call: the database clock,
which statements fail, the driver's error text, the database's `ILIKE`
(pattern first) and the text of the error `time.Parse` returns for a string. -/
structure Env where
  now : Nat
  fails : RepoCall → Bool
  dbError : String
  ilike : String → String → Bool := fun _ _ => true
  timeParseError : String → String := fun _ => "cannot parse"

/-- Result of a service operation. -/
structure Outcome (α : Type) where
  db : Database
  trace : List RepoCall
  result : Except String α

/-! ## Date parsing (`time.Parse` with layout `2006-01-02`) -/

/-- Go `time.isDigit` on one character. -/
def isDigit (c : Char) : Bool :=
  decide ('0'.toNat ≤ c.toNat) && decide (c.toNat ≤ '9'.toNat)

/-- Value of a decimal digit. -/
def digitVal (c : Char) : Nat :=
  c.toNat - '0'.toNat

/-- Go `time.isLeap`. -/
def isLeap (year : Nat) : Bool :=
  year % 4 == 0 && (year % 100 != 0 || year % 400 == 0)

/-- Go `time.daysIn`. -/
def daysIn (month year : Nat) : Nat :=
  if month == 2 then (if isLeap year then 29 else 28)
  else if month == 4 || month == 6 || month == 9 || month == 11 then 30
  else 31

/-- `time.Parse("2006-01-02", s)`: four year digits, `-`, two month digits,
`-`, two day digits and nothing else; the month lies in 1..12 and the day in
1..`daysIn month year`.  `none` stands for a parse error. -/
def parseDate (s : String) : Option Date :=
  match s.toList with
  | [y1, y2, y3, y4, h1, m1, m2, h2, d1, d2] =>
    if isDigit y1 && isDigit y2 && isDigit y3 && isDigit y4 && h1 == '-'
        && isDigit m1 && isDigit m2 && h2 == '-' && isDigit d1 && isDigit d2 then
      let year := digitVal y1 * 1000 + digitVal y2 * 100 + digitVal y3 * 10 + digitVal y4
      let month := digitVal m1 * 10 + digitVal m2
      let day := digitVal d1 * 10 + digitVal d2
      if month == 0 || decide (12 < month) then none
      else if day == 0 || decide (daysIn month year < day) then none
      else some ⟨year, month, day⟩
    else none
  | _ => none

/-! ## Repositories (`internal/repositories`) -/

/-- `SeatRepository.GetSeatByID`: `SELECT ... FROM seats WHERE id = $1`; no row
gives `(nil, nil)`. -/
def SeatRepository.GetSeatByID (env : Env) (db : Database) (id : Int) :
    Except String (Option Seat) :=
  if env.fails (.getSeatByID id) then
    .error ("failed to get seat: " ++ env.dbError)
  else
    .ok (db.seats.find? (fun s => s.ID == id))

/-- `CinemaRepository.GetCinemaByID`: `SELECT ... FROM cinemas WHERE id = $1`;
no row gives `(nil, nil)`. -/
def CinemaRepository.GetCinemaByID (env : Env) (db : Database) (id : Int) :
    Except String (Option Cinema) :=
  if env.fails (.getCinemaByID id) then
    .error ("failed to get cinema: " ++ env.dbError)
  else
    .ok (db.cinemas.find? (fun c => c.ID == id))

/-- The `WHERE` clause of `CheckSeatBooked`:
`seat_id = $1 AND show_date = $2 AND show_time = $3 AND status != 'cancelled'`.
The date parameter is the show date rendered as `YYYY-MM-DD`, which the
database reads back as the same calendar date. -/
def seatBookedRow (seatID : Int) (showDate : Date) (showTime : String) (b : Booking) : Bool :=
  b.SeatID == seatID && b.ShowDate == showDate && b.ShowTime == showTime
    && b.Status != "cancelled"

/-- `BookingRepository.CheckSeatBooked`: `SELECT COUNT(*) ...` and `count > 0`. -/
def BookingRepository.CheckSeatBooked (env : Env) (db : Database) (seatID : Int)
    (showDate : Date) (showTime : String) : Except String Bool :=
  if env.fails (.checkSeatBooked seatID showDate showTime) then
    .error ("failed to check seat booking: " ++ env.dbError)
  else
    let count := (db.bookings.filter (seatBookedRow seatID showDate showTime)).length
    .ok (decide (count > 0))

/-- `BookingRepository.CreateBooking`: `INSERT INTO bookings (...) VALUES (...)
RETURNING id, booking_date, created_at, updated_at`.  The row gets the next
serial id and the database clock; the Go struct is updated with them. -/
def BookingRepository.CreateBooking (env : Env) (db : Database) (booking : Booking) :
    Except String (Booking × Database) :=
  if env.fails (.createBooking booking) then
    .error ("failed to create booking: " ++ env.dbError)
  else
    let row : Booking :=
      { booking with
        ID := db.nextBookingID
        BookingDate := env.now
        CreatedAt := env.now
        UpdatedAt := env.now }
    .ok (row, { db with
                bookings := db.bookings ++ [row]
                nextBookingID := db.nextBookingID + 1 })

/-- The `WHERE` clause of `UpdateSeatAvailability`:
`seat_id = $2 AND show_date = $3 AND show_time = $4`. -/
def availabilityRow (seatID : Int) (date : Date) (timeStr : String)
    (r : SeatAvailability) : Bool :=
  r.SeatID == seatID && r.ShowDate == date && r.ShowTime == timeStr

/-- `SeatRepository.UpdateSeatAvailability`: `UPDATE seat_availability SET
is_available = $1, updated_at = CURRENT_TIMESTAMP WHERE ...`.  The number of
rows affected is not looked at. -/
def SeatRepository.UpdateSeatAvailability (env : Env) (db : Database) (seatID : Int)
    (date : Date) (timeStr : String) (isAvailable : Bool) : Except String Database :=
  if env.fails (.updateSeatAvailability seatID date timeStr isAvailable) then
    .error ("failed to update seat availability: " ++ env.dbError)
  else
    .ok { db with
          seatAvailability := db.seatAvailability.map (fun r =>
            if availabilityRow seatID date timeStr r then
              { r with IsAvailable := isAvailable, UpdatedAt := env.now }
            else r) }

/-- `BookingRepository.GetBookingByID`: `SELECT ... FROM bookings WHERE id = $1`;
no row gives `(nil, nil)`. -/
def BookingRepository.GetBookingByID (env : Env) (db : Database) (id : Int) :
    Except String (Option Booking) :=
  if env.fails (.getBookingByID id) then
    .error ("failed to get booking: " ++ env.dbError)
  else
    .ok (db.bookings.find? (fun b => b.ID == id))

/-- `BookingRepository.UpdateBookingStatus`: `UPDATE bookings SET status = $1,
updated_at = CURRENT_TIMESTAMP WHERE id = $2`. -/
def BookingRepository.UpdateBookingStatus (env : Env) (db : Database) (id : Int)
    (status : String) : Except String Database :=
  if env.fails (.updateBookingStatus id status) then
    .error ("failed to update booking status: " ++ env.dbError)
  else
    .ok { db with
          bookings := db.bookings.map (fun b =>
            if b.ID == id then { b with Status := status, UpdatedAt := env.now } else b) }

/-- `BookingRepository.UpdateBookingPaymentStatus`: `UPDATE bookings SET
payment_status = $1, updated_at = CURRENT_TIMESTAMP WHERE id = $2`. -/
def BookingRepository.UpdateBookingPaymentStatus (env : Env) (db : Database) (id : Int)
    (paymentStatus : String) : Except String Database :=
  if env.fails (.updateBookingPaymentStatus id paymentStatus) then
    .error ("failed to update booking payment status: " ++ env.dbError)
  else
    .ok { db with
          bookings := db.bookings.map (fun b =>
            if b.ID == id then
              { b with PaymentStatus := paymentStatus, UpdatedAt := env.now }
            else b) }

/-- `PaymentRepository.GetPaymentMethodByName`: `SELECT ... FROM payment_methods
WHERE name = $1 AND is_active = TRUE`; no row gives `(nil, nil)`. -/
def PaymentRepository.GetPaymentMethodByName (env : Env) (db : Database) (name : String) :
    Except String (Option PaymentMethod) :=
  if env.fails (.getPaymentMethodByName name) then
    .error ("failed to get payment method: " ++ env.dbError)
  else
    .ok (db.paymentMethods.find? (fun m => m.Name == name && m.IsActive == true))

/-- `PaymentRepository.CreatePayment`: `INSERT INTO payments (...) VALUES (...)
RETURNING id, created_at, updated_at`. -/
def PaymentRepository.CreatePayment (env : Env) (db : Database) (payment : Payment) :
    Except String (Payment × Database) :=
  if env.fails (.createPayment payment) then
    .error ("failed to create payment: " ++ env.dbError)
  else
    let row : Payment :=
      { payment with
        ID := db.nextPaymentID
        CreatedAt := env.now
        UpdatedAt := env.now }
    .ok (row, { db with
                payments := db.payments ++ [row]
                nextPaymentID := db.nextPaymentID + 1 })

/-! ## Formatting helpers (`fmt`) -/

/-- The verb `%d` of `fmt.Sprintf` on an `int`. -/
def fmtInt (i : Int) : String :=
  if i < 0 then "-" ++ toString i.natAbs else toString i.natAbs

/-- Two decimal digits, zero padded. -/
def pad2 (n : Nat) : String :=
  if n < 10 then "0" ++ toString n else toString n

/-- The verb `%.2f` of `fmt` on the exact value of a float: two decimals,
rounded to nearest with ties to even. -/
def fmt2f (q : Rat) : String :=
  let scaled : Rat := |q| * 100
  let fl : Nat := scaled.floor.toNat
  let frac : Rat := scaled - fl
  let n : Nat :=
    if frac < 1 / 2 then fl
    else if 1 / 2 < frac then fl + 1
    else if fl % 2 == 0 then fl else fl + 1
  (if q < 0 then "-" else "") ++ toString (n / 100) ++ "." ++ pad2 (n % 100)

/-! ## Services (`internal/services`) -/

/-- The struct literal `&models.Booking{...}` that `CreateBooking` builds after
the conflict check; the fields it does not set hold Go zero values. -/
def newBooking (userID : Int) (req : BookingRequest) (showDate : Date) (seat : Seat) :
    Booking :=
  { ID := 0
    UserID := userID
    CinemaID := req.CinemaID
    SeatID := req.SeatID
    ShowDate := showDate
    ShowTime := req.Time
    BookingDate := 0
    Status := "pending"
    TotalPrice := seat.Price
    PaymentMethod := req.PaymentMethod
    PaymentStatus := "pending"
    CreatedAt := 0
    UpdatedAt := 0
    Cinema := none
    Seat := none }

/-- `BookingService.CreateBooking`. -/
def BookingService.CreateBooking (env : Env) (db : Database) (userID : Int)
    (req : BookingRequest) : Outcome BookingResponse :=
  -- Parse date
  match parseDate req.Date with
  | none => ⟨db, [], .error "invalid date format"⟩
  | some showDate =>
    -- Check if seat exists and get its price
    let t1 := [RepoCall.getSeatByID req.SeatID]
    match SeatRepository.GetSeatByID env db req.SeatID with
    | .error err => ⟨db, t1, .error ("failed to get seat: " ++ err)⟩
    | .ok none => ⟨db, t1, .error "seat not found"⟩
    | .ok (some seat) =>
      -- Check if cinema exists
      let t2 := t1 ++ [RepoCall.getCinemaByID req.CinemaID]
      match CinemaRepository.GetCinemaByID env db req.CinemaID with
      | .error err => ⟨db, t2, .error ("failed to get cinema: " ++ err)⟩
      | .ok none => ⟨db, t2, .error "cinema not found"⟩
      | .ok (some _cinema) =>
        -- Check if seat belongs to the cinema
        if seat.CinemaID != req.CinemaID then
          ⟨db, t2, .error "seat does not belong to this cinema"⟩
        else
          -- Check if seat is already booked
          let t3 := t2 ++ [RepoCall.checkSeatBooked req.SeatID showDate req.Time]
          match BookingRepository.CheckSeatBooked env db req.SeatID showDate req.Time with
          | .error err => ⟨db, t3, .error ("failed to check seat booking: " ++ err)⟩
          | .ok true => ⟨db, t3, .error "seat is already booked for this date and time"⟩
          | .ok false =>
            -- Create booking
            let booking := newBooking userID req showDate seat
            let t4 := t3 ++ [RepoCall.createBooking booking]
            match BookingRepository.CreateBooking env db booking with
            | .error err => ⟨db, t4, .error ("failed to create booking: " ++ err)⟩
            | .ok (booking, db1) =>
              -- Update seat availability
              let t5 := t4 ++ [RepoCall.updateSeatAvailability req.SeatID showDate req.Time false]
              match SeatRepository.UpdateSeatAvailability env db1 req.SeatID showDate
                  req.Time false with
              | .error err =>
                ⟨db1, t5, .error ("failed to update seat availability: " ++ err)⟩
              | .ok db2 =>
                ⟨db2, t5, .ok
                  { ID := booking.ID
                    CinemaID := booking.CinemaID
                    SeatID := booking.SeatID
                    ShowDate := booking.ShowDate
                    ShowTime := booking.ShowTime
                    TotalPrice := booking.TotalPrice
                    PaymentMethod := booking.PaymentMethod
                    Status := booking.Status
                    PaymentStatus := booking.PaymentStatus
                    CreatedAt := booking.CreatedAt }⟩

/-- `BookingService.UpdateBookingStatus`. -/
def BookingService.UpdateBookingStatus (env : Env) (db : Database) (id : Int)
    (status : String) : Outcome Unit :=
  let t1 := [RepoCall.updateBookingStatus id status]
  match BookingRepository.UpdateBookingStatus env db id status with
  | .error err => ⟨db, t1, .error ("failed to update booking status: " ++ err)⟩
  | .ok db1 => ⟨db1, t1, .ok ()⟩

/-- The struct literal `&models.Payment{...}` that `ProcessPayment` builds after
its checks; `TransactionID` is `fmt.Sprintf("TXN-%d-%d", booking.ID, booking.UserID)`. -/
def newPayment (userID : Int) (req : PaymentRequest) (booking : Booking) : Payment :=
  { ID := 0
    BookingID := req.BookingID
    UserID := userID
    Amount := req.Amount
    PaymentMethod := req.PaymentMethod
    Status := "success"
    TransactionID := "TXN-" ++ fmtInt booking.ID ++ "-" ++ fmtInt booking.UserID
    CreatedAt := 0
    UpdatedAt := 0 }

/-- `PaymentService.ProcessPayment`. -/
def PaymentService.ProcessPayment (env : Env) (db : Database) (userID : Int)
    (req : PaymentRequest) : Outcome PaymentResponse :=
  -- Get booking
  let t1 := [RepoCall.getBookingByID req.BookingID]
  match BookingRepository.GetBookingByID env db req.BookingID with
  | .error err => ⟨db, t1, .error ("failed to get booking: " ++ err)⟩
  | .ok none => ⟨db, t1, .error "booking not found"⟩
  | .ok (some booking) =>
    -- Verify user owns the booking
    if booking.UserID != userID then
      ⟨db, t1, .error "unauthorized to pay for this booking"⟩
    -- Verify amount
    else if req.Amount != booking.TotalPrice then
      ⟨db, t1, .error ("amount mismatch: expected " ++ fmt2f booking.TotalPrice
        ++ ", got " ++ fmt2f req.Amount)⟩
    else
      -- Check payment method exists
      let t2 := t1 ++ [RepoCall.getPaymentMethodByName req.PaymentMethod]
      match PaymentRepository.GetPaymentMethodByName env db req.PaymentMethod with
      | .error err => ⟨db, t2, .error ("failed to get payment method: " ++ err)⟩
      | .ok none => ⟨db, t2, .error "invalid payment method"⟩
      | .ok (some _method) =>
        -- Create payment
        let payment := newPayment userID req booking
        let t3 := t2 ++ [RepoCall.createPayment payment]
        match PaymentRepository.CreatePayment env db payment with
        | .error err => ⟨db, t3, .error ("failed to create payment: " ++ err)⟩
        | .ok (payment, db1) =>
          -- Update booking payment status
          let t4 := t3 ++ [RepoCall.updateBookingPaymentStatus req.BookingID "paid"]
          match BookingRepository.UpdateBookingPaymentStatus env db1 req.BookingID "paid" with
          | .error err =>
            ⟨db1, t4, .error ("failed to update booking payment status: " ++ err)⟩
          | .ok db2 =>
            -- Update booking status to confirmed
            let t5 := t4 ++ [RepoCall.updateBookingStatus req.BookingID "confirmed"]
            match BookingRepository.UpdateBookingStatus env db2 req.BookingID "confirmed" with
            | .error err =>
              ⟨db2, t5, .error ("failed to update booking status: " ++ err)⟩
            | .ok db3 =>
              ⟨db3, t5, .ok
                { ID := payment.ID
                  BookingID := payment.BookingID
                  Amount := payment.Amount
                  PaymentMethod := payment.PaymentMethod
                  Status := payment.Status
                  TransactionID := payment.TransactionID
                  CreatedAt := payment.CreatedAt }⟩

/-! ## Go `int` arithmetic

Go's `int` is a 64-bit two's-complement integer on the platforms the service
runs on; `+`, `-` and `*` wrap around silently and `/` truncates toward zero. -/

/-- The `int` a mathematical integer wraps to. -/
def wrapInt (x : Int) : Int :=
  (x + 9223372036854775808) % 18446744073709551616 - 9223372036854775808

/-- The largest `int`. -/
def maxInt : Int := 9223372036854775807

/-- Go `a + b` on `int`. -/
def goAdd (a b : Int) : Int := wrapInt (a + b)

/-- Go `a - b` on `int`. -/
def goSub (a b : Int) : Int := wrapInt (a - b)

/-- Go `a * b` on `int`. -/
def goMul (a b : Int) : Int := wrapInt (a * b)

/-- Go `a / b` on `int`, for `b` other than zero (Go panics on zero). -/
def goDiv (a b : Int) : Int := wrapInt (Int.tdiv a b)

/-! ## Listings: repositories -/

/-- Put a row into a list that is in `ORDER BY` order, before the first row it
does not come after. -/
def insertRow {α : Type} (le : α → α → Bool) (a : α) : List α → List α
  | [] => [a]
  | b :: bs => if le a b then a :: b :: bs else b :: insertRow le a bs

/-- `ORDER BY`: the rows put in order, rows that compare equal staying in
table order. -/
def orderBy {α : Type} (le : α → α → Bool) (rows : List α) : List α :=
  rows.foldr (insertRow le) []

/-- `a <= b` on character sequences, compared code point by code point. -/
def charsLe : List Char → List Char → Bool
  | [], _ => true
  | _ :: _, [] => false
  | a :: as, b :: bs => decide (a.toNat < b.toNat) || (a.toNat == b.toNat && charsLe as bs)

/-- `a <= b` on `text` values in an `ORDER BY`, taking the collation to be
code-point order. -/
def textLe (a b : String) : Bool :=
  charsLe a.toList b.toList

/-- `offset := (page - 1) * limit`, the first line of `GetUserBookings` and of
`GetAllCinemas` in the repositories. -/
def pageOffset (page limit : Int) : Int :=
  goMul (goSub page 1) limit

/-- `LIMIT $limit OFFSET $offset` on rows that are already in order.  The
database rejects a negative limit or offset; `none` stands for that error. -/
def limitOffset {α : Type} (rows : List α) (limit offset : Int) : Option (List α) :=
  if limit < 0 || offset < 0 then none
  else some ((rows.drop offset.toNat).take limit.toNat)

/-- `BookingRepository.GetUserBookings`: `SELECT COUNT(*) FROM bookings WHERE
user_id = $1`, then `SELECT ... WHERE user_id = $1 ORDER BY booking_date DESC
LIMIT $2 OFFSET $3`. -/
def BookingRepository.GetUserBookings (env : Env) (db : Database) (userID page limit : Int) :
    Except String (List Booking × Int) :=
  let offset := pageOffset page limit
  -- Get total count
  if env.fails (.countUserBookings userID) then
    .error ("failed to count bookings: " ++ env.dbError)
  else
    let total : Int := ((db.bookings.filter (fun b => b.UserID == userID)).length : Nat)
    -- Get paginated data
    if env.fails (.getUserBookings userID page limit) then
      .error ("failed to get user bookings: " ++ env.dbError)
    else
      match limitOffset
          (orderBy (fun a b => decide (b.BookingDate ≤ a.BookingDate))
            (db.bookings.filter (fun b => b.UserID == userID))) limit offset with
      | none => .error ("failed to get user bookings: " ++ "LIMIT or OFFSET must not be negative")
      | some bookings => .ok (bookings, total)

/-- `BookingRepository.GetBookingWithDetails`: the first row of `bookings b JOIN
cinemas c ON b.cinema_id = c.id JOIN seats s ON b.seat_id = s.id WHERE b.id =
$1`; no row gives `(nil, nil)`. -/
def BookingRepository.GetBookingWithDetails (env : Env) (db : Database) (id : Int) :
    Except String (Option Booking) :=
  if env.fails (.getBookingWithDetails id) then
    .error ("failed to get booking with details: " ++ env.dbError)
  else
    .ok ((db.bookings.filter (fun b => b.ID == id)).flatMap (fun b =>
      (db.cinemas.filter (fun c => c.ID == b.CinemaID)).flatMap (fun c =>
        (db.seats.filter (fun s => s.ID == b.SeatID)).map (fun s =>
          { b with Cinema := some c, Seat := some s })))).head?

/-- The `WHERE` clause `GetAllCinemas` builds: `city ILIKE '%' || City || '%'`
when `City` is not empty, `name ILIKE '%' || Name || '%'` when `Name` is not
empty. -/
def cinemaMatches (env : Env) (filters : CinemaFilters) (c : Cinema) : Bool :=
  (filters.City == "" || env.ilike ("%" ++ filters.City ++ "%") c.City)
    && (filters.Name == "" || env.ilike ("%" ++ filters.Name ++ "%") c.Name)

/-- `CinemaRepository.GetAllCinemas`: `SELECT COUNT(*) FROM cinemas WHERE ...`,
then `SELECT ... WHERE ... ORDER BY name ASC LIMIT .. OFFSET ..`. -/
def CinemaRepository.GetAllCinemas (env : Env) (db : Database) (page limit : Int)
    (filters : CinemaFilters) : Except String (List Cinema × Int) :=
  let offset := pageOffset page limit
  -- Get total count
  if env.fails (.countCinemas filters) then
    .error ("failed to count cinemas: " ++ env.dbError)
  else
    let total : Int := ((db.cinemas.filter (cinemaMatches env filters)).length : Nat)
    -- Get paginated data
    if env.fails (.getAllCinemas page limit filters) then
      .error ("failed to get cinemas: " ++ env.dbError)
    else
      match limitOffset
          (orderBy (fun a b => textLe a.Name b.Name)
            (db.cinemas.filter (cinemaMatches env filters))) limit offset with
      | none => .error ("failed to get cinemas: " ++ "LIMIT or OFFSET must not be negative")
      | some cinemas => .ok (cinemas, total)

/-- `SeatRepository.GetSeatAvailability`: `seat_availability sa JOIN seats s ON
sa.seat_id = s.id WHERE sa.cinema_id = $1 AND sa.show_date = $2 AND
sa.show_time = $3 ORDER BY s.row_number, s.seat_number`, each row carrying its
seat. -/
def SeatRepository.GetSeatAvailability (env : Env) (db : Database) (cinemaID : Int)
    (date : Date) (timeStr : String) : Except String (List SeatAvailability) :=
  if env.fails (.getSeatAvailability cinemaID date timeStr) then
    .error ("failed to get seat availability: " ++ env.dbError)
  else
    .ok ((orderBy
        (fun (a b : SeatAvailability × Seat) => decide (a.2.RowNumber < b.2.RowNumber)
          || (a.2.RowNumber == b.2.RowNumber && textLe a.2.SeatNumber b.2.SeatNumber))
        ((db.seatAvailability.filter (fun sa =>
            sa.CinemaID == cinemaID && sa.ShowDate == date && sa.ShowTime == timeStr)).flatMap
          (fun sa => (db.seats.filter (fun s => s.ID == sa.SeatID)).map (fun s => (sa, s))))).map
      (fun p => { p.1 with Seat := some p.2 }))

/-! ## Listings: services -/

/-- `if page < 1 { page = 1 }`. -/
def effectivePage (page : Int) : Int :=
  if page < 1 then 1 else page

/-- `if limit < 1 || limit > 100 { limit = 10 }`. -/
def effectiveLimit (limit : Int) : Int :=
  if limit < 1 || limit > 100 then 10 else limit

/-- `totalPages := (total + limit - 1) / limit`. -/
def totalPages (total limit : Int) : Int :=
  goDiv (goSub (goAdd total limit) 1) limit

/-- The enrichment loop of `GetUserBookings`: `GetBookingWithDetails` for each
booking in turn, stopping at the first error and leaving out the bookings for
which nothing is found.  Returns the calls made and the result. -/
def enrichBookings (env : Env) (db : Database) :
    List Booking → List RepoCall × Except String (List Booking)
  | [] => ([], .ok [])
  | booking :: rest =>
    match BookingRepository.GetBookingWithDetails env db booking.ID with
    | .error err =>
      ([.getBookingWithDetails booking.ID], .error ("failed to get booking details: " ++ err))
    | .ok fullBooking =>
      match enrichBookings env db rest with
      | (calls, .error err) => (.getBookingWithDetails booking.ID :: calls, .error err)
      | (calls, .ok enriched) =>
        (.getBookingWithDetails booking.ID :: calls,
          .ok (match fullBooking with
            | none => enriched
            | some full => full :: enriched))

/-- `BookingService.GetUserBookings`. -/
def BookingService.GetUserBookings (env : Env) (db : Database) (userID page limit : Int) :
    Outcome (PaginatedResponse Booking) :=
  match BookingRepository.GetUserBookings env db userID (effectivePage page)
      (effectiveLimit limit) with
  | .error err =>
    ⟨db, [.getUserBookings userID (effectivePage page) (effectiveLimit limit)],
      .error ("failed to get user bookings: " ++ err)⟩
  | .ok (bookings, total) =>
    -- Enrich bookings with cinema and seat details
    match enrichBookings env db bookings with
    | (calls, .error err) =>
      ⟨db, .getUserBookings userID (effectivePage page) (effectiveLimit limit) :: calls,
        .error err⟩
    | (calls, .ok enrichedBookings) =>
      ⟨db, .getUserBookings userID (effectivePage page) (effectiveLimit limit) :: calls,
        .ok
          { Data := enrichedBookings
            Page := effectivePage page
            Limit := effectiveLimit limit
            Total := total
            TotalPages := totalPages total (effectiveLimit limit) }⟩

/-- `CinemaService.GetAllCinemas`. -/
def CinemaService.GetAllCinemas (env : Env) (db : Database) (page limit : Int)
    (filters : CinemaFilters) : Outcome (PaginatedResponse Cinema) :=
  match CinemaRepository.GetAllCinemas env db (effectivePage page) (effectiveLimit limit)
      filters with
  | .error err =>
    ⟨db, [.getAllCinemas (effectivePage page) (effectiveLimit limit) filters],
      .error ("failed to get cinemas: " ++ err)⟩
  | .ok (cinemas, total) =>
    ⟨db, [.getAllCinemas (effectivePage page) (effectiveLimit limit) filters],
      .ok
        { Data := cinemas
          Page := effectivePage page
          Limit := effectiveLimit limit
          Total := total
          TotalPages := totalPages total (effectiveLimit limit) }⟩

/-- The loop of `GetSeatAvailability` that appends each row to the available or
to the unavailable slice. -/
def separateSeats (availabilities : List SeatAvailability) :
    List SeatAvailability × List SeatAvailability :=
  availabilities.foldl
    (fun acc sa => if sa.IsAvailable then (acc.1 ++ [sa], acc.2) else (acc.1, acc.2 ++ [sa]))
    ([], [])

/-- `SeatService.GetSeatAvailability`. -/
def SeatService.GetSeatAvailability (env : Env) (db : Database) (cinemaID : Int)
    (dateStr timeStr : String) : Outcome SeatAvailabilityResponse :=
  -- Parse date
  match parseDate dateStr with
  | none => ⟨db, [], .error ("invalid date format: " ++ env.timeParseError dateStr)⟩
  | some date =>
    -- Get seat availability from repository
    match SeatRepository.GetSeatAvailability env db cinemaID date timeStr with
    | .error err =>
      ⟨db, [.getSeatAvailability cinemaID date timeStr],
        .error ("failed to get seat availability: " ++ err)⟩
    | .ok availabilities =>
      -- Separate available and unavailable seats
      ⟨db, [.getSeatAvailability cinemaID date timeStr],
        .ok
          { CinemaID := cinemaID
            Date := dateStr
            Time := timeStr
            AvailableSeats := (separateSeats availabilities).1
            UnavailableSeats := (separateSeats availabilities).2
            TotalAvailable := ((separateSeats availabilities).1.length : Nat)
            TotalUnavailable := ((separateSeats availabilities).2.length : Nat) }⟩

/-! ## Sample data -/

/-- An environment in which no statement fails. -/
def okEnv : Env :=
  { now := 100, fails := fun _ => false, dbError := "connection refused" }

/-- Seat `A1` of cinema 1, price 70000. -/
def seatA1 : Seat :=
  { ID := 1, CinemaID := 1, SeatNumber := "A1", RowNumber := 1, SeatType := "standard"
    Price := 70000, CreatedAt := 0, UpdatedAt := 0 }

/-- Cinema 1. -/
def cinemaXXI : Cinema :=
  { ID := 1, Name := "Cinema XXI", Location := "Mall", City := "Jakarta", Address := "Jl. 1"
    TotalSeats := 1, ImageURL := "", CreatedAt := 0, UpdatedAt := 0 }

/-- The date 2026-01-15. -/
def jan15 : Date := ⟨2026, 1, 15⟩

/-- A database with one cinema, one seat, one availability row for
(seat 1, 2026-01-15, 19:00), the payment method `cash`, and no bookings. -/
def sampleDb : Database :=
  { seats := [seatA1]
    cinemas := [cinemaXXI]
    bookings := []
    seatAvailability :=
      [{ ID := 1, CinemaID := 1, SeatID := 1, ShowDate := jan15, ShowTime := "19:00"
         IsAvailable := true, CreatedAt := 0, UpdatedAt := 0, Seat := none }]
    payments := []
    paymentMethods :=
      [{ ID := 1, Name := "cash", MethodType := "transfer", IsActive := true
         CreatedAt := 0, UpdatedAt := 0 }]
    nextBookingID := 1
    nextPaymentID := 1 }

/-- The request of the scenario: cinema 1, seat 1, 2026-01-15, 19:00, cash. -/
def sampleReq : BookingRequest :=
  { CinemaID := 1, SeatID := 1, Date := "2026-01-15", Time := "19:00", PaymentMethod := "cash" }

/-- Cinema 2. -/
def cinema2 : Cinema := { cinemaXXI with ID := 2, Name := "CGV" }

/-- The sample database with a second cinema (which has no seats). -/
def twoCinemaDb : Database := { sampleDb with cinemas := [cinemaXXI, cinema2] }

/-- The sample database after user 1 booked seat 1 for 2026-01-15, 19:00. -/
def bookedDb : Database :=
  (BookingService.CreateBooking okEnv sampleDb 1 sampleReq).db

/-! ## Failure before the availability update -/

/-- The six ways in which `CreateBooking` fails before it reaches the
availability update: at date parsing, at the seat lookup, at the cinema lookup,
at the seat-belongs-to-cinema check, at the conflict check, or at the ledger
insert.  Each case lists the earlier steps as having passed. -/
inductive FailsEarly (env : Env) (db : Database) (userID : Int) (req : BookingRequest) : Prop
  | dateParsing :
      parseDate req.Date = none → FailsEarly env db userID req
  | seatLookup (d : Date) :
      parseDate req.Date = some d →
      (∀ seat, SeatRepository.GetSeatByID env db req.SeatID ≠ .ok (some seat)) →
      FailsEarly env db userID req
  | cinemaLookup (d : Date) (seat : Seat) :
      parseDate req.Date = some d →
      SeatRepository.GetSeatByID env db req.SeatID = .ok (some seat) →
      (∀ cinema, CinemaRepository.GetCinemaByID env db req.CinemaID ≠ .ok (some cinema)) →
      FailsEarly env db userID req
  | seatBelongs (d : Date) (seat : Seat) (cinema : Cinema) :
      parseDate req.Date = some d →
      SeatRepository.GetSeatByID env db req.SeatID = .ok (some seat) →
      CinemaRepository.GetCinemaByID env db req.CinemaID = .ok (some cinema) →
      seat.CinemaID ≠ cinema.ID →
      FailsEarly env db userID req
  | conflictCheck (d : Date) (seat : Seat) (cinema : Cinema) :
      parseDate req.Date = some d →
      SeatRepository.GetSeatByID env db req.SeatID = .ok (some seat) →
      CinemaRepository.GetCinemaByID env db req.CinemaID = .ok (some cinema) →
      seat.CinemaID = cinema.ID →
      BookingRepository.CheckSeatBooked env db req.SeatID d req.Time ≠ .ok false →
      FailsEarly env db userID req
  | ledgerInsert (d : Date) (seat : Seat) (cinema : Cinema) (err : String) :
      parseDate req.Date = some d →
      SeatRepository.GetSeatByID env db req.SeatID = .ok (some seat) →
      CinemaRepository.GetCinemaByID env db req.CinemaID = .ok (some cinema) →
      seat.CinemaID = cinema.ID →
      BookingRepository.CheckSeatBooked env db req.SeatID d req.Time = .ok false →
      BookingRepository.CreateBooking env db (newBooking userID req d seat) = .error err →
      FailsEarly env db userID req

/-- An environment in which the ledger insert fails and nothing else does. -/
def insertFailsEnv : Env :=
  { now := 100
    fails := fun c => match c with
      | .createBooking _ => true
      | _ => false
    dbError := "connection refused" }

/-- The sample database with an empty `seat_availability` table: no showing is
offered for any seat. -/
def noAvailabilityDb : Database := { sampleDb with seatAvailability := [] }

/-! ## The ledger invariant and sequences of service operations -/

/-- At most one non-cancelled booking per (seat, show date, show time). -/
def LedgerInvariant (bookings : List Booking) : Prop :=
  ∀ (seatID : Int) (showDate : Date) (showTime : String),
    bookings.countP (fun b => b.SeatID == seatID && b.ShowDate == showDate
      && b.ShowTime == showTime && b.Status != "cancelled") ≤ 1

/-- One service operation among `CreateBooking`, `ProcessPayment` and
`UpdateBookingStatus`, with any arguments and any environment, taking the
database from one state to the next. -/
inductive ServiceStep : Database → Database → Prop
  | createBooking (env : Env) (db : Database) (userID : Int) (req : BookingRequest) :
      ServiceStep db (BookingService.CreateBooking env db userID req).db
  | processPayment (env : Env) (db : Database) (userID : Int) (req : PaymentRequest) :
      ServiceStep db (PaymentService.ProcessPayment env db userID req).db
  | updateBookingStatus (env : Env) (db : Database) (id : Int) (status : String) :
      ServiceStep db (BookingService.UpdateBookingStatus env db id status).db

/-- No booking with this id is cancelled. -/
def NotCancelled (db : Database) (id : Int) : Prop :=
  ∀ b ∈ db.bookings, b.ID = id → b.Status ≠ "cancelled"

/-- A service operation that does not take a booking out of `cancelled`:
any `CreateBooking`; a `ProcessPayment` for a booking id that is not
cancelled; an `UpdateBookingStatus` that sets `cancelled` or is for a booking
id that is not cancelled. -/
inductive GuardedStep : Database → Database → Prop
  | createBooking (env : Env) (db : Database) (userID : Int) (req : BookingRequest) :
      GuardedStep db (BookingService.CreateBooking env db userID req).db
  | processPayment (env : Env) (db : Database) (userID : Int) (req : PaymentRequest) :
      NotCancelled db req.BookingID →
      GuardedStep db (PaymentService.ProcessPayment env db userID req).db
  | updateBookingStatus (env : Env) (db : Database) (id : Int) (status : String) :
      status = "cancelled" ∨ NotCancelled db id →
      GuardedStep db (BookingService.UpdateBookingStatus env db id status).db

/-- The sample database after: user 1 books the seat, that booking is
cancelled, user 2 books the same seat for the same showing. -/
def rebookedDb : Database :=
  (BookingService.CreateBooking okEnv
    (BookingService.UpdateBookingStatus okEnv bookedDb 1 "cancelled").db 2 sampleReq).db

/-- Payment by user 1 of 70000 in cash for booking 1. -/
def samplePayment : PaymentRequest :=
  { BookingID := 1, PaymentMethod := "cash", Amount := 70000 }

/-! ## Concurrent requests

Each HTTP request runs `CreateBooking` on its own goroutine against the shared
database, with no transaction and no lock: what one call has between two of
its repository calls is only its local variables.  `BookingTask` is a call
in progress, `BookingTask.step` runs it up to and including its next
repository call (one SQL statement, executed atomically), and a schedule says
which call moves next. -/

/-- A `CreateBooking` call in progress, with the local variables it still needs. -/
inductive BookingTask where
  /-- Not started. -/
  | start (userID : Int) (req : BookingRequest)
  /-- The date parsed and `GetSeatByID` returned a seat. -/
  | seatFound (userID : Int) (req : BookingRequest) (showDate : Date) (seat : Seat)
  /-- Then `GetCinemaByID` returned a cinema and the seat belongs to it. -/
  | cinemaFound (userID : Int) (req : BookingRequest) (showDate : Date) (seat : Seat)
  /-- Then `CheckSeatBooked` answered false. -/
  | seatFree (userID : Int) (req : BookingRequest) (showDate : Date) (seat : Seat)
  /-- Then the ledger insert returned the stored booking. -/
  | inserted (req : BookingRequest) (showDate : Date) (booking : Booking)
  /-- Returned. -/
  | finished (result : Except String BookingResponse)
deriving Repr

/-- Run a call up to and including its next repository call. -/
def BookingTask.step (env : Env) (db : Database) : BookingTask → Database × BookingTask
  | .start userID req =>
    match parseDate req.Date with
    | none => (db, .finished (.error "invalid date format"))
    | some showDate =>
      match SeatRepository.GetSeatByID env db req.SeatID with
      | .error err => (db, .finished (.error ("failed to get seat: " ++ err)))
      | .ok none => (db, .finished (.error "seat not found"))
      | .ok (some seat) => (db, .seatFound userID req showDate seat)
  | .seatFound userID req showDate seat =>
    match CinemaRepository.GetCinemaByID env db req.CinemaID with
    | .error err => (db, .finished (.error ("failed to get cinema: " ++ err)))
    | .ok none => (db, .finished (.error "cinema not found"))
    | .ok (some _cinema) =>
      if seat.CinemaID != req.CinemaID then
        (db, .finished (.error "seat does not belong to this cinema"))
      else (db, .cinemaFound userID req showDate seat)
  | .cinemaFound userID req showDate seat =>
    match BookingRepository.CheckSeatBooked env db req.SeatID showDate req.Time with
    | .error err => (db, .finished (.error ("failed to check seat booking: " ++ err)))
    | .ok true => (db, .finished (.error "seat is already booked for this date and time"))
    | .ok false => (db, .seatFree userID req showDate seat)
  | .seatFree userID req showDate seat =>
    match BookingRepository.CreateBooking env db (newBooking userID req showDate seat) with
    | .error err => (db, .finished (.error ("failed to create booking: " ++ err)))
    | .ok (booking, db1) => (db1, .inserted req showDate booking)
  | .inserted req showDate booking =>
    match SeatRepository.UpdateSeatAvailability env db req.SeatID showDate req.Time false with
    | .error err => (db, .finished (.error ("failed to update seat availability: " ++ err)))
    | .ok db2 =>
      (db2, .finished (.ok
        { ID := booking.ID
          CinemaID := booking.CinemaID
          SeatID := booking.SeatID
          ShowDate := booking.ShowDate
          ShowTime := booking.ShowTime
          TotalPrice := booking.TotalPrice
          PaymentMethod := booking.PaymentMethod
          Status := booking.Status
          PaymentStatus := booking.PaymentStatus
          CreatedAt := booking.CreatedAt }))
  | .finished result => (db, .finished result)

/-- Run one call alone for `n` steps. -/
def BookingTask.run (env : Env) : Nat → Database → BookingTask → Database × BookingTask
  | 0, db, task => (db, task)
  | n + 1, db, task => BookingTask.run env n (task.step env db).1 (task.step env db).2

/-- Let the call at position `i` make its next step. -/
def stepAt (env : Env) (db : Database) (tasks : List BookingTask) (i : Nat) :
    Database × List BookingTask :=
  match tasks.get? i with
  | none => (db, tasks)
  | some task => ((task.step env db).1, tasks.set i (task.step env db).2)

/-- Run the calls in the order given by the schedule. -/
def runSchedule (env : Env) : List Nat → Database → List BookingTask →
    Database × List BookingTask
  | [], db, tasks => (db, tasks)
  | i :: rest, db, tasks =>
    runSchedule env rest (stepAt env db tasks i).1 (stepAt env db tasks i).2

/-- Whether a call has returned a response. -/
def BookingTask.succeeded : BookingTask → Bool
  | .finished (.ok _) => true
  | _ => false

/-- Two calls for the sample showing, by users 1 and 2. -/
def twoCalls : List BookingTask := [.start 1 sampleReq, .start 2 sampleReq]

/-- Both calls make their three reads before either inserts. -/
def racingSchedule : List Nat := [0, 0, 0, 1, 1, 1, 0, 0, 1, 1]

/-- `CreateBooking` by each of the callers in turn, each with their own payment
method, for the cinema, seat, date and time of `req`: every call returns
before the next one starts. -/
def createBookingsInTurn (env : Env) (req : BookingRequest) :
    List (Int × String) → Database → Database × List (Except String BookingResponse)
  | [], db => (db, [])
  | (userID, method) :: rest, db =>
    let out := BookingService.CreateBooking env db userID { req with PaymentMethod := method }
    ((createBookingsInTurn env req rest out.db).1,
      out.result :: (createBookingsInTurn env req rest out.db).2)

/-- The sample database after user 1 booked seat 1, with the booking then
cancelled. -/
def cancelledDb : Database :=
  (BookingService.UpdateBookingStatus okEnv bookedDb 1 "cancelled").db

/-- The payment method `voucher`, switched off. -/
def inactiveVoucher : PaymentMethod :=
  { ID := 2, Name := "voucher", MethodType := "e_wallet", IsActive := false
    CreatedAt := 0, UpdatedAt := 0 }

/-- The booked sample database with the inactive method `voucher` added. -/
def voucherDb : Database :=
  { bookedDb with paymentMethods := bookedDb.paymentMethods ++ [inactiveVoucher] }

/-- Payment of 70000 for booking 1 (owned by user 1) with the method `voucher`. -/
def voucherPayment : PaymentRequest :=
  { BookingID := 1, PaymentMethod := "voucher", Amount := 70000 }

/-- No filter on city or name. -/
def noFilters : CinemaFilters := { Page := 0, Limit := 0, City := "", Name := "" }

/-- The sample database with a second seat in cinema 1 whose availability row
for 2026-01-15, 19:00 says unavailable. -/
def twoSeatDb : Database :=
  { sampleDb with
    seats := [seatA1, { seatA1 with ID := 2, SeatNumber := "A2" }]
    seatAvailability := sampleDb.seatAvailability ++
      [{ ID := 2, CinemaID := 1, SeatID := 2, ShowDate := jan15, ShowTime := "19:00"
         IsAvailable := false, CreatedAt := 0, UpdatedAt := 0, Seat := none }] }

/-! ## Histories of service operations -/

/-- One call of `CreateBooking`, `ProcessPayment` or `UpdateBookingStatus`, with
its environment and its arguments. -/
inductive ServiceOp where
  | createBooking (env : Env) (userID : Int) (req : BookingRequest)
  | processPayment (env : Env) (userID : Int) (req : PaymentRequest)
  | updateBookingStatus (env : Env) (id : Int) (status : String)

/-- The database after the operation. -/
def ServiceOp.apply (db : Database) : ServiceOp → Database
  | .createBooking env userID req => (BookingService.CreateBooking env db userID req).db
  | .processPayment env userID req => (PaymentService.ProcessPayment env db userID req).db
  | .updateBookingStatus env id status =>
    (BookingService.UpdateBookingStatus env db id status).db

/-- The database after the operations, made one after another. -/
def runOps (ops : List ServiceOp) (db : Database) : Database :=
  ops.foldl ServiceOp.apply db

/-- Among the operations there is a `ProcessPayment` for booking `id` that
returned a response. -/
def PaidSuccessfully (ops : List ServiceOp) (db : Database) (id : Int) : Prop :=
  ∃ before env userID req after r,
    ops = before ++ ServiceOp.processPayment env userID req :: after ∧
    req.BookingID = id ∧
    (PaymentService.ProcessPayment env (runOps before db) userID req).result = .ok r

/-- Among the operations there is a `ProcessPayment` for booking `id` that
passed its checks, inserted its payment and marked the booking paid: it made
its last write, the status update (which may then have failed). -/
def MarkedPaid (ops : List ServiceOp) (db : Database) (id : Int) : Prop :=
  ∃ before env userID req after,
    ops = before ++ ServiceOp.processPayment env userID req :: after ∧
    req.BookingID = id ∧
    RepoCall.updateBookingStatus id "confirmed" ∈
      (PaymentService.ProcessPayment env (runOps before db) userID req).trace

/-- Among the operations there is an `UpdateBookingStatus(id, "confirmed")`. -/
def ConfirmedByUpdate (ops : List ServiceOp) (id : Int) : Prop :=
  ∃ before env after,
    ops = before ++ ServiceOp.updateBookingStatus env id "confirmed" :: after

/-- An environment in which the status update fails and nothing else does. -/
def statusFailsEnv : Env :=
  { now := 100
    fails := fun c => match c with
      | .updateBookingStatus _ _ => true
      | _ => false
    dbError := "connection refused" }

/-- User 1 books the sample showing and pays for it. -/
def paidOps : List ServiceOp :=
  [.createBooking okEnv 1 sampleReq, .processPayment okEnv 1 samplePayment]

/-! ## Partial failures -/

/-- An environment in which the availability update fails and nothing else
does. -/
def availabilityFailsEnv : Env :=
  { now := 100
    fails := fun c => match c with
      | .updateSeatAvailability _ _ _ _ => true
      | _ => false
    dbError := "connection refused" }

/-- An environment in which the payment-status update fails and nothing else
does. -/
def paymentStatusFailsEnv : Env :=
  { now := 100
    fails := fun c => match c with
      | .updateBookingPaymentStatus _ _ => true
      | _ => false
    dbError := "connection refused" }

/-! ## Frame conditions -/

/-- Booking `b'` is booking `b` up to status, payment status and update time,
and is `b` itself when the id of `b` is not `id`. -/
def SnapshotKept (id : Int) (b b' : Booking) : Prop :=
  b'.ID = b.ID ∧ b'.UserID = b.UserID ∧ b'.CinemaID = b.CinemaID ∧ b'.SeatID = b.SeatID ∧
  b'.ShowDate = b.ShowDate ∧ b'.ShowTime = b.ShowTime ∧ b'.BookingDate = b.BookingDate ∧
  b'.TotalPrice = b.TotalPrice ∧ b'.PaymentMethod = b.PaymentMethod ∧
  b'.CreatedAt = b.CreatedAt ∧ b'.Cinema = b.Cinema ∧ b'.Seat = b.Seat ∧
  (b.ID ≠ id → b' = b)

/-- Database `db'` differs from `db` at most in the status and the payment
status of the bookings whose id is `id`: the other tables and the serial
counters are equal, and the ledgers hold the same bookings in the same order
up to those two fields of the bookings with that id. -/
def DiffersOnlyInStatus (id : Int) (db db' : Database) : Prop :=
  db'.seats = db.seats ∧ db'.cinemas = db.cinemas ∧
  db'.seatAvailability = db.seatAvailability ∧ db'.payments = db.payments ∧
  db'.paymentMethods = db.paymentMethods ∧ db'.nextBookingID = db.nextBookingID ∧
  db'.nextPaymentID = db.nextPaymentID ∧
  List.Forall₂ (fun b b' => SnapshotKept id b b' ∧ b'.UpdatedAt = b.UpdatedAt)
    db.bookings db'.bookings

/-- The booked sample database with the booking already `confirmed` and
`paid`. -/
def alreadyPaidDb : Database :=
  { bookedDb with
    bookings := bookedDb.bookings.map (fun b =>
      { b with Status := "confirmed", PaymentStatus := "paid" }) }

/-- The booked sample database with the booking `cancelled`, nothing else
changed. -/
def cancelledOnlyDb : Database :=
  { bookedDb with
    bookings := bookedDb.bookings.map (fun b => { b with Status := "cancelled" }) }

/-- The booked sample database without its cinemas: the booking of user 1 has
no cinema row to join with. -/
def orphanBookingDb : Database := { bookedDb with cinemas := [] }

/-- An environment in which the detail lookup fails and nothing else does. -/
def detailsFailEnv : Env :=
  { now := 100
    fails := fun c => match c with
      | .getBookingWithDetails _ => true
      | _ => false
    dbError := "connection refused" }

/-! ## Users (`models/user.go`, `repositories/user_repository.go`,
`services/user_service.go`) -/

/-- Go struct `models.User` (a row of `users`). -/
structure User where
  ID : Int
  Username : String
  Email : String
  Password : String
  IsVerified : Bool
  CreatedAt : Nat
  UpdatedAt : Nat
deriving DecidableEq, Repr

/-- Go struct `models.UserRegisterRequest`. -/
structure UserRegisterRequest where
  Username : String
  Email : String
  Password : String
deriving DecidableEq, Repr

/-- The `users` table with its next serial id. -/
structure UserStore where
  users : List User
  nextUserID : Int
deriving DecidableEq, Repr

/-- One call the user service makes: to its repository, or `SendOTP` of its
email service. -/
inductive UserCall where
  | getUserByUsername (username : String)
  | getUserByEmail (email : String)
  | getUserByID (id : Int)
  | createUser (user : User)
  | sendOTP (userID : Int) (email : String) (username : String)
deriving DecidableEq, Repr

/-- What the surroundings decide for one call of the user service: the
database clock, which statements fail, the driver's error text, what
`bcrypt.GenerateFromPassword` returns for a password (a hash or an error), and
the email service the user service was built with (`none` for `nil`), whose
`SendOTP` returns an error or not. -/
structure UserEnv where
  now : Nat
  fails : UserCall → Bool
  dbError : String
  hashPassword : String → Except String String
  emailService : Option (Int → String → String → Option String)

/-- Result of a user service operation. -/
structure UserOutcome (α : Type) where
  store : UserStore
  trace : List UserCall
  result : Except String α

/-- `UserRepository.GetUserByUsername`: `SELECT ... FROM users WHERE username =
$1`; no row gives `(nil, nil)`. -/
def UserRepository.GetUserByUsername (env : UserEnv) (store : UserStore) (username : String) :
    Except String (Option User) :=
  if env.fails (.getUserByUsername username) then
    .error ("failed to get user by username: " ++ env.dbError)
  else
    .ok (store.users.find? (fun u => u.Username == username))

/-- `UserRepository.GetUserByEmail`: `SELECT ... FROM users WHERE email = $1`;
no row gives `(nil, nil)`. -/
def UserRepository.GetUserByEmail (env : UserEnv) (store : UserStore) (email : String) :
    Except String (Option User) :=
  if env.fails (.getUserByEmail email) then
    .error ("failed to get user by email: " ++ env.dbError)
  else
    .ok (store.users.find? (fun u => u.Email == email))

/-- `UserRepository.GetUserByID`: `SELECT ... FROM users WHERE id = $1`; no row
gives `(nil, nil)`. -/
def UserRepository.GetUserByID (env : UserEnv) (store : UserStore) (id : Int) :
    Except String (Option User) :=
  if env.fails (.getUserByID id) then
    .error ("failed to get user by id: " ++ env.dbError)
  else
    .ok (store.users.find? (fun u => u.ID == id))

/-- `UserRepository.CreateUser`: `INSERT INTO users (username, email, password,
is_verified) VALUES ($1, $2, $3, false) RETURNING id, created_at, updated_at`.
The row gets the next serial id and the database clock; the Go struct is
updated with them. -/
def UserRepository.CreateUser (env : UserEnv) (store : UserStore) (user : User) :
    Except String (User × UserStore) :=
  if env.fails (.createUser user) then
    .error ("failed to create user: " ++ env.dbError)
  else
    let row : User :=
      { user with
        ID := store.nextUserID
        IsVerified := false
        CreatedAt := env.now
        UpdatedAt := env.now }
    .ok ({ user with ID := store.nextUserID, CreatedAt := env.now, UpdatedAt := env.now },
      { store with
        users := store.users ++ [row]
        nextUserID := store.nextUserID + 1 })

/-- The struct literal `&models.User{...}` that `RegisterUser` builds after its
checks; the fields it does not set hold Go zero values. -/
def newUser (req : UserRegisterRequest) (hashedPassword : String) : User :=
  { ID := 0
    Username := req.Username
    Email := req.Email
    Password := hashedPassword
    IsVerified := false
    CreatedAt := 0
    UpdatedAt := 0 }

/-- `UserService.RegisterUser`.  `SendOTP` writes to the `email_verifications`
table and sends mail, neither of which is part of the user store; its error is
only printed. -/
def UserService.RegisterUser (env : UserEnv) (store : UserStore)
    (req : UserRegisterRequest) : UserOutcome User :=
  -- Check if username already exists
  let t1 := [UserCall.getUserByUsername req.Username]
  match UserRepository.GetUserByUsername env store req.Username with
  | .error err => ⟨store, t1, .error ("failed to check existing user: " ++ err)⟩
  | .ok (some _existingUser) => ⟨store, t1, .error "username already exists"⟩
  | .ok none =>
    -- Check if email already exists
    let t2 := t1 ++ [UserCall.getUserByEmail req.Email]
    match UserRepository.GetUserByEmail env store req.Email with
    | .error err => ⟨store, t2, .error ("failed to check existing email: " ++ err)⟩
    | .ok (some _existingUser) => ⟨store, t2, .error "email already exists"⟩
    | .ok none =>
      -- Hash password
      match env.hashPassword req.Password with
      | .error err => ⟨store, t2, .error ("failed to hash password: " ++ err)⟩
      | .ok hashedPassword =>
        let user := newUser req hashedPassword
        let t3 := t2 ++ [UserCall.createUser user]
        match UserRepository.CreateUser env store user with
        | .error err => ⟨store, t3, .error ("failed to create user: " ++ err)⟩
        | .ok (user, store1) =>
          -- Send OTP email automatically after registration
          let t4 := match env.emailService with
            | none => t3
            | some _ => t3 ++ [UserCall.sendOTP user.ID user.Email user.Username]
          -- Don't return password
          ⟨store1, t4, .ok { user with Password := "" }⟩

/-- `UserService.GetUserByID`. -/
def UserService.GetUserByID (env : UserEnv) (store : UserStore) (id : Int) :
    UserOutcome (Option User) :=
  let t1 := [UserCall.getUserByID id]
  match UserRepository.GetUserByID env store id with
  | .error err => ⟨store, t1, .error ("failed to get user: " ++ err)⟩
  | .ok none => ⟨store, t1, .ok none⟩
  | .ok (some user) => ⟨store, t1, .ok (some { user with Password := "" })⟩

/-- An environment for the user service in which no statement fails, the hash
of a password is the password after `$2a$10$`, and there is no email
service. -/
def okUserEnv : UserEnv :=
  { now := 100
    fails := fun _ => false
    dbError := "connection refused"
    hashPassword := fun p => .ok ("$2a$10$" ++ p)
    emailService := none }

/-- A user store with one user, `alice`. -/
def sampleUsers : UserStore :=
  { users := [{ ID := 1, Username := "alice", Email := "alice@example.com"
                Password := "$2a$10$secret", IsVerified := true
                CreatedAt := 0, UpdatedAt := 0 }]
    nextUserID := 2 }

/-- A registration request for `bob`. -/
def bobRequest : UserRegisterRequest :=
  { Username := "bob", Email := "bob@example.com", Password := "hunter22" }

/-! # Theorems -/

/-! ## Lemmas about the repositories -/

theorem getSeatByID_some_id {env : Env} {db : Database} {id : Int} {seat : Seat}
    (h : SeatRepository.GetSeatByID env db id = .ok (some seat)) : seat.ID = id := by
  unfold SeatRepository.GetSeatByID at h
  split at h
  · simp at h
  · simp only [Except.ok.injEq] at h
    simpa using List.find?_some h

theorem getCinemaByID_some_id {env : Env} {db : Database} {id : Int} {cinema : Cinema}
    (h : CinemaRepository.GetCinemaByID env db id = .ok (some cinema)) : cinema.ID = id := by
  unfold CinemaRepository.GetCinemaByID at h
  split at h
  · simp at h
  · simp only [Except.ok.injEq] at h
    simpa using List.find?_some h

/-- What `CreateBooking` does once the date is parsed, seat and cinema are
found, the seat belongs to the cinema and the conflict check answers false. -/
theorem createBooking_after_checks {env : Env} {db : Database} {userID : Int}
    {req : BookingRequest} {d : Date} {seat : Seat} {cinema : Cinema}
    (hd : parseDate req.Date = some d)
    (hs : SeatRepository.GetSeatByID env db req.SeatID = .ok (some seat))
    (hc : CinemaRepository.GetCinemaByID env db req.CinemaID = .ok (some cinema))
    (hb : seat.CinemaID = req.CinemaID)
    (hk : BookingRepository.CheckSeatBooked env db req.SeatID d req.Time = .ok false) :
    BookingService.CreateBooking env db userID req =
      match BookingRepository.CreateBooking env db (newBooking userID req d seat) with
      | .error err =>
        ⟨db, [.getSeatByID req.SeatID, .getCinemaByID req.CinemaID,
              .checkSeatBooked req.SeatID d req.Time,
              .createBooking (newBooking userID req d seat)],
          .error ("failed to create booking: " ++ err)⟩
      | .ok (booking, db1) =>
        match SeatRepository.UpdateSeatAvailability env db1 req.SeatID d req.Time false with
        | .error err =>
          ⟨db1, [.getSeatByID req.SeatID, .getCinemaByID req.CinemaID,
                .checkSeatBooked req.SeatID d req.Time,
                .createBooking (newBooking userID req d seat),
                .updateSeatAvailability req.SeatID d req.Time false],
            .error ("failed to update seat availability: " ++ err)⟩
        | .ok db2 =>
          ⟨db2, [.getSeatByID req.SeatID, .getCinemaByID req.CinemaID,
                .checkSeatBooked req.SeatID d req.Time,
                .createBooking (newBooking userID req d seat),
                .updateSeatAvailability req.SeatID d req.Time false],
            .ok
              { ID := booking.ID
                CinemaID := booking.CinemaID
                SeatID := booking.SeatID
                ShowDate := booking.ShowDate
                ShowTime := booking.ShowTime
                TotalPrice := booking.TotalPrice
                PaymentMethod := booking.PaymentMethod
                Status := booking.Status
                PaymentStatus := booking.PaymentStatus
                CreatedAt := booking.CreatedAt }⟩ := by
  simp only [BookingService.CreateBooking, hd, hs, hc, hb, hk]
  simp only [bne_self_eq_false, Bool.false_eq_true, ↓reduceIte, List.cons_append,
    List.nil_append]

/-- A successful `CreateBooking` passed every check. -/
theorem createBooking_ok_inv {env : Env} {db : Database} {userID : Int} {req : BookingRequest}
    {r : BookingResponse}
    (h : (BookingService.CreateBooking env db userID req).result = .ok r) :
    ∃ showDate seat cinema,
      parseDate req.Date = some showDate ∧
      SeatRepository.GetSeatByID env db req.SeatID = .ok (some seat) ∧
      CinemaRepository.GetCinemaByID env db req.CinemaID = .ok (some cinema) ∧
      seat.CinemaID = req.CinemaID ∧
      BookingRepository.CheckSeatBooked env db req.SeatID showDate req.Time = .ok false ∧
      env.fails (.createBooking (newBooking userID req showDate seat)) = false ∧
      env.fails (.updateSeatAvailability req.SeatID showDate req.Time false) = false := by
  unfold BookingService.CreateBooking at h
  split at h
  · simp at h
  · split at h
    · simp at h
    · simp at h
    · split at h
      · simp at h
      · simp at h
      · split at h
        · simp at h
        · split at h
          · simp at h
          · simp at h
          · rename_i showDate hd _ seat hs _ cinema hc hne _ hchk
            refine ⟨showDate, seat, cinema, hd, hs, hc, by simpa using hne, hchk, ?_, ?_⟩
            · by_contra hf
              simp [BookingRepository.CreateBooking, hf] at h
            · by_contra hf
              simp [BookingRepository.CreateBooking, SeatRepository.UpdateSeatAvailability, hf] at h
              split at h <;> simp at h

/-! ## The booking workflow, step by step -/

/-- C6: a request whose date `time.Parse` rejects gets the error
`invalid date format` and no response; the database is returned as it was
and no repository call is made (no seat lookup, no cinema lookup, no conflict
check, no write). -/
theorem createBooking_invalid_date (env : Env) (db : Database) (userID : Int)
    (req : BookingRequest) (hd : parseDate req.Date = none) :
    BookingService.CreateBooking env db userID req =
      ⟨db, [], .error "invalid date format"⟩ := by
  simp only [BookingService.CreateBooking, hd]

theorem createBooking_invalid_date_witness :
    parseDate "15-01-2026" = none ∧
    BookingService.CreateBooking okEnv sampleDb 1 { sampleReq with Date := "15-01-2026" } =
      ⟨sampleDb, [], .error "invalid date format"⟩ :=
  ⟨by decide,
    createBooking_invalid_date okEnv sampleDb 1 { sampleReq with Date := "15-01-2026" }
      (by decide)⟩

/-- C7: with a well-formed date, a seat lookup that finds no seat gives
`seat not found` after that single call; when the seat is found and the cinema
lookup finds no cinema, the result is `cinema not found` after those two
calls.  In both cases there is no response, the database is unchanged and the
conflict check is not among the calls made. -/
theorem createBooking_seat_or_cinema_missing (env : Env) (db : Database) (userID : Int)
    (req : BookingRequest) (d : Date) (hd : parseDate req.Date = some d) :
    (SeatRepository.GetSeatByID env db req.SeatID = .ok none →
      BookingService.CreateBooking env db userID req =
        ⟨db, [.getSeatByID req.SeatID], .error "seat not found"⟩) ∧
    (∀ seat, SeatRepository.GetSeatByID env db req.SeatID = .ok (some seat) →
      CinemaRepository.GetCinemaByID env db req.CinemaID = .ok none →
      BookingService.CreateBooking env db userID req =
        ⟨db, [.getSeatByID req.SeatID, .getCinemaByID req.CinemaID],
          .error "cinema not found"⟩) := by
  constructor
  · intro hs
    simp only [BookingService.CreateBooking, hd, hs]
  · intro seat hs hc
    simp only [BookingService.CreateBooking, hd, hs, hc, List.cons_append, List.nil_append]

theorem createBooking_seat_or_cinema_missing_witness :
    BookingService.CreateBooking okEnv sampleDb 1 { sampleReq with SeatID := 999 } =
        ⟨sampleDb, [.getSeatByID 999], .error "seat not found"⟩ ∧
    BookingService.CreateBooking okEnv { sampleDb with cinemas := [] } 1 sampleReq =
        ⟨{ sampleDb with cinemas := [] }, [.getSeatByID 1, .getCinemaByID 1],
          .error "cinema not found"⟩ :=
  ⟨(createBooking_seat_or_cinema_missing okEnv sampleDb 1 { sampleReq with SeatID := 999 }
      jan15 (by decide)).1 rfl,
   (createBooking_seat_or_cinema_missing okEnv { sampleDb with cinemas := [] } 1 sampleReq
      jan15 (by decide)).2 seatA1 rfl rfl⟩

/-- C8: with a well-formed date, a found seat and a found cinema, a seat whose
`cinema_id` differs from the id of the found cinema gives `seat does not
belong to this cinema` after the two lookups, and the conflict check is among
the calls made exactly when the two ids are equal. -/
theorem createBooking_seat_belongs_check (env : Env) (db : Database) (userID : Int)
    (req : BookingRequest) (d : Date) (seat : Seat) (cinema : Cinema)
    (hd : parseDate req.Date = some d)
    (hs : SeatRepository.GetSeatByID env db req.SeatID = .ok (some seat))
    (hc : CinemaRepository.GetCinemaByID env db req.CinemaID = .ok (some cinema)) :
    (seat.CinemaID ≠ cinema.ID →
      BookingService.CreateBooking env db userID req =
        ⟨db, [.getSeatByID req.SeatID, .getCinemaByID req.CinemaID],
          .error "seat does not belong to this cinema"⟩) ∧
    ((∃ s dd t, RepoCall.checkSeatBooked s dd t ∈
        (BookingService.CreateBooking env db userID req).trace) ↔
      seat.CinemaID = cinema.ID) := by
  have hid : cinema.ID = req.CinemaID := getCinemaByID_some_id hc
  have hne : seat.CinemaID ≠ cinema.ID →
      BookingService.CreateBooking env db userID req =
        ⟨db, [.getSeatByID req.SeatID, .getCinemaByID req.CinemaID],
          .error "seat does not belong to this cinema"⟩ := by
    intro hne
    rw [hid] at hne
    simp [BookingService.CreateBooking, hd, hs, hc, hne]
  refine ⟨hne, ?_, ?_⟩
  · rintro ⟨s, dd, t, hmem⟩
    by_contra hcontra
    rw [hne hcontra] at hmem
    simp at hmem
  · intro heq
    rw [hid] at heq
    refine ⟨req.SeatID, d, req.Time, ?_⟩
    simp only [BookingService.CreateBooking, hd, hs, hc, heq]
    simp only [bne_self_eq_false, Bool.false_eq_true, ↓reduceIte, List.cons_append,
      List.nil_append]
    split <;> [skip; skip; (repeat' split)] <;> simp

theorem createBooking_seat_belongs_check_witness :
    BookingService.CreateBooking okEnv twoCinemaDb 1 { sampleReq with CinemaID := 2 } =
        ⟨twoCinemaDb, [.getSeatByID 1, .getCinemaByID 2],
          .error "seat does not belong to this cinema"⟩ ∧
    ((∃ s dd t, RepoCall.checkSeatBooked s dd t ∈
        (BookingService.CreateBooking okEnv sampleDb 1 sampleReq).trace) ↔
      seatA1.CinemaID = cinemaXXI.ID) :=
  ⟨(createBooking_seat_belongs_check okEnv twoCinemaDb 1 { sampleReq with CinemaID := 2 }
      jan15 seatA1 cinema2 (by decide) rfl rfl).1 (by decide),
   (createBooking_seat_belongs_check okEnv sampleDb 1 sampleReq jan15 seatA1 cinemaXXI
      (by decide) rfl rfl).2⟩

/-- C9: once the date is parsed, seat and cinema are found and the seat
belongs to the cinema, the third repository call is the conflict check on
(request seat id, parsed date, request time label), and it is the only
conflict check made; when it answers true the result is the error
`seat is already booked for this date and time`, which contains
`already booked`, with no response, an unchanged database and no further call. -/
theorem createBooking_conflict_check (env : Env) (db : Database) (userID : Int)
    (req : BookingRequest) (d : Date) (seat : Seat) (cinema : Cinema)
    (hd : parseDate req.Date = some d)
    (hs : SeatRepository.GetSeatByID env db req.SeatID = .ok (some seat))
    (hc : CinemaRepository.GetCinemaByID env db req.CinemaID = .ok (some cinema))
    (hb : seat.CinemaID = cinema.ID) :
    (BookingService.CreateBooking env db userID req).trace.take 3 =
      [.getSeatByID req.SeatID, .getCinemaByID req.CinemaID,
        .checkSeatBooked req.SeatID d req.Time] ∧
    (∀ s dd t, RepoCall.checkSeatBooked s dd t ∈
        (BookingService.CreateBooking env db userID req).trace →
      s = req.SeatID ∧ dd = d ∧ t = req.Time) ∧
    (BookingRepository.CheckSeatBooked env db req.SeatID d req.Time = .ok true →
      BookingService.CreateBooking env db userID req =
        ⟨db, [.getSeatByID req.SeatID, .getCinemaByID req.CinemaID,
              .checkSeatBooked req.SeatID d req.Time],
          .error "seat is already booked for this date and time"⟩ ∧
      "seat is already booked for this date and time" =
        "seat is " ++ "already booked" ++ " for this date and time") := by
  have hb2 : seat.CinemaID = req.CinemaID := by rw [hb]; exact getCinemaByID_some_id hc
  refine ⟨?_, ?_, ?_⟩
  · simp only [BookingService.CreateBooking, hd, hs, hc, hb2]
    simp only [bne_self_eq_false, Bool.false_eq_true, ↓reduceIte, List.cons_append,
      List.nil_append]
    split <;> [skip; skip; (repeat' split)] <;> simp
  · intro s dd t
    simp only [BookingService.CreateBooking, hd, hs, hc, hb2]
    simp only [bne_self_eq_false, Bool.false_eq_true, ↓reduceIte, List.cons_append,
      List.nil_append]
    split <;> [skip; skip; (repeat' split)] <;> simp
  · intro hk
    refine ⟨?_, by decide⟩
    simp only [BookingService.CreateBooking, hd, hs, hc, hb2, hk]
    simp

theorem createBooking_conflict_check_witness :
    (BookingService.CreateBooking okEnv sampleDb 1 sampleReq).trace.take 3 =
      [.getSeatByID 1, .getCinemaByID 1, .checkSeatBooked 1 jan15 "19:00"] ∧
    BookingService.CreateBooking okEnv bookedDb 2 sampleReq =
      ⟨bookedDb, [.getSeatByID 1, .getCinemaByID 1, .checkSeatBooked 1 jan15 "19:00"],
        .error "seat is already booked for this date and time"⟩ :=
  ⟨(createBooking_conflict_check okEnv sampleDb 1 sampleReq jan15 seatA1 cinemaXXI
      (by decide) rfl rfl rfl).1,
   ((createBooking_conflict_check okEnv bookedDb 2 sampleReq jan15 seatA1 cinemaXXI
      (by decide) rfl rfl rfl).2.2 rfl).1⟩

/-- C4: when `CreateBooking` succeeds, the seat lookup found a seat, exactly one
booking was handed to the ledger insert, and that booking, the row stored in
the ledger and the response all carry the price of that seat with status
`pending` and payment status `pending`.  The request has no price field. -/
theorem createBooking_price_integrity (env : Env) (db : Database) (userID : Int)
    (req : BookingRequest) (r : BookingResponse)
    (h : (BookingService.CreateBooking env db userID req).result = .ok r) :
    ∃ seat b row,
      SeatRepository.GetSeatByID env db req.SeatID = .ok (some seat) ∧
      (∀ b1, RepoCall.createBooking b1 ∈
          (BookingService.CreateBooking env db userID req).trace ↔ b1 = b) ∧
      b.TotalPrice = seat.Price ∧ b.Status = "pending" ∧ b.PaymentStatus = "pending" ∧
      (BookingService.CreateBooking env db userID req).db.bookings = db.bookings ++ [row] ∧
      row.ID = r.ID ∧
      row.TotalPrice = seat.Price ∧ row.Status = "pending" ∧ row.PaymentStatus = "pending" ∧
      r.TotalPrice = seat.Price ∧ r.Status = "pending" ∧ r.PaymentStatus = "pending" := by
  obtain ⟨d, seat, cinema, hd, hs, hc, hb, hk, hf1, hf2⟩ := createBooking_ok_inv h
  rw [createBooking_after_checks hd hs hc hb hk] at h ⊢
  simp only [BookingRepository.CreateBooking, SeatRepository.UpdateSeatAvailability, hf1, hf2,
    Bool.false_eq_true, ↓reduceIte] at h ⊢
  simp only [Except.ok.injEq] at h
  subst h
  refine ⟨seat, newBooking userID req d seat, _, hs, ?_, rfl, rfl, rfl, rfl, rfl, rfl, rfl,
    rfl, rfl, rfl, rfl⟩
  intro b1
  simp

theorem createBooking_price_integrity_witness :
    ∃ r, (BookingService.CreateBooking okEnv sampleDb 1 sampleReq).result = .ok r ∧
      r.TotalPrice = 70000 ∧
      ∃ seat b row,
        SeatRepository.GetSeatByID okEnv sampleDb sampleReq.SeatID = .ok (some seat) ∧
        (∀ b1, RepoCall.createBooking b1 ∈
            (BookingService.CreateBooking okEnv sampleDb 1 sampleReq).trace ↔ b1 = b) ∧
        b.TotalPrice = seat.Price ∧ b.Status = "pending" ∧ b.PaymentStatus = "pending" ∧
        (BookingService.CreateBooking okEnv sampleDb 1 sampleReq).db.bookings =
          sampleDb.bookings ++ [row] ∧
        row.ID = r.ID ∧
        row.TotalPrice = seat.Price ∧ row.Status = "pending" ∧
        row.PaymentStatus = "pending" ∧
        r.TotalPrice = seat.Price ∧ r.Status = "pending" ∧ r.PaymentStatus = "pending" :=
  ⟨_, rfl, rfl, createBooking_price_integrity okEnv sampleDb 1 sampleReq _ rfl⟩

/-- C5: when `CreateBooking` fails at date parsing, at the seat lookup, at the
cinema lookup, at the seat-belongs-to-cinema check, at the conflict check or at
the ledger insert, it returns an error and no response, the whole database
(booking ledger and seat availability included) is as before, and
`UpdateSeatAvailability` is not among the repository calls made. -/
theorem createBooking_early_failure_atomic (env : Env) (db : Database) (userID : Int)
    (req : BookingRequest) (h : FailsEarly env db userID req) :
    (∃ e, (BookingService.CreateBooking env db userID req).result = .error e) ∧
    (BookingService.CreateBooking env db userID req).db = db ∧
    ∀ s d t a, RepoCall.updateSeatAvailability s d t a ∉
      (BookingService.CreateBooking env db userID req).trace := by
  cases h with
  | dateParsing hd =>
    simp [BookingService.CreateBooking, hd]
  | seatLookup d hd hs =>
    simp only [BookingService.CreateBooking, hd]
    split
    · simp
    · simp
    · rename_i seat hseat
      exact absurd hseat (hs seat)
  | cinemaLookup d seat hd hs hc =>
    simp only [BookingService.CreateBooking, hd, hs]
    split
    · simp
    · simp
    · rename_i cinema hcin
      exact absurd hcin (hc cinema)
  | seatBelongs d seat cinema hd hs hc hne =>
    have hne2 : seat.CinemaID ≠ req.CinemaID := by
      rw [← getCinemaByID_some_id hc]; exact hne
    simp [BookingService.CreateBooking, hd, hs, hc, hne2]
  | conflictCheck d seat cinema hd hs hc hb hk =>
    have hb2 : seat.CinemaID = req.CinemaID := by rw [hb]; exact getCinemaByID_some_id hc
    simp only [BookingService.CreateBooking, hd, hs, hc, hb2]
    simp only [bne_self_eq_false, Bool.false_eq_true, ↓reduceIte, List.cons_append,
      List.nil_append]
    split
    · simp
    · simp
    · rename_i hfalse
      exact absurd hfalse hk
  | ledgerInsert d seat cinema err hd hs hc hb hk hins =>
    have hb2 : seat.CinemaID = req.CinemaID := by rw [hb]; exact getCinemaByID_some_id hc
    rw [createBooking_after_checks hd hs hc hb2 hk, hins]
    simp

theorem createBooking_early_failure_atomic_witness :
    FailsEarly insertFailsEnv sampleDb 1 sampleReq ∧
    (∃ e, (BookingService.CreateBooking insertFailsEnv sampleDb 1 sampleReq).result =
      .error e) ∧
    (BookingService.CreateBooking insertFailsEnv sampleDb 1 sampleReq).db = sampleDb ∧
    ∀ s d t a, RepoCall.updateSeatAvailability s d t a ∉
      (BookingService.CreateBooking insertFailsEnv sampleDb 1 sampleReq).trace :=
  ⟨FailsEarly.ledgerInsert jan15 seatA1 cinemaXXI _ (by decide) rfl rfl rfl rfl rfl,
   createBooking_early_failure_atomic insertFailsEnv sampleDb 1 sampleReq
    (FailsEarly.ledgerInsert jan15 seatA1 cinemaXXI _ (by decide) rfl rfl rfl rfl rfl)⟩

/-- The six ways of `FailsEarly` are all the ways of stopping before the
availability update: a `CreateBooking` that is in none of them called
`UpdateSeatAvailability`. -/
theorem createBooking_failsEarly_or_update (env : Env) (db : Database) (userID : Int)
    (req : BookingRequest) :
    FailsEarly env db userID req ∨
    ∃ d, RepoCall.updateSeatAvailability req.SeatID d req.Time false ∈
      (BookingService.CreateBooking env db userID req).trace := by
  cases hd : parseDate req.Date with
  | none => exact Or.inl (.dateParsing hd)
  | some d =>
    cases hs : SeatRepository.GetSeatByID env db req.SeatID with
    | error e => exact Or.inl (.seatLookup d hd (by simp [hs]))
    | ok os =>
      cases os with
      | none => exact Or.inl (.seatLookup d hd (by simp [hs]))
      | some seat =>
        cases hc : CinemaRepository.GetCinemaByID env db req.CinemaID with
        | error e => exact Or.inl (.cinemaLookup d seat hd hs (by simp [hc]))
        | ok oc =>
          cases oc with
          | none => exact Or.inl (.cinemaLookup d seat hd hs (by simp [hc]))
          | some cinema =>
            have hid := getCinemaByID_some_id hc
            by_cases hb : seat.CinemaID = req.CinemaID
            · cases hk : BookingRepository.CheckSeatBooked env db req.SeatID d req.Time with
              | error e =>
                exact Or.inl (.conflictCheck d seat cinema hd hs hc (by rw [hid]; exact hb)
                  (by simp [hk]))
              | ok b =>
                cases b with
                | true =>
                  exact Or.inl (.conflictCheck d seat cinema hd hs hc (by rw [hid]; exact hb)
                    (by simp [hk]))
                | false =>
                  cases hins : BookingRepository.CreateBooking env db
                      (newBooking userID req d seat) with
                  | error e =>
                    exact Or.inl (.ledgerInsert d seat cinema e hd hs hc (by rw [hid]; exact hb)
                      hk hins)
                  | ok p =>
                    obtain ⟨row, db1⟩ := p
                    right
                    refine ⟨d, ?_⟩
                    rw [createBooking_after_checks hd hs hc hb hk, hins]
                    dsimp only
                    split <;> simp
            · exact Or.inl (.seatBelongs d seat cinema hd hs hc (by rw [hid]; exact hb))

/-! ## Effects of the repository writes -/

theorem bookingRepo_createBooking_ok {env : Env} {db db1 : Database} {b row : Booking}
    (h : BookingRepository.CreateBooking env db b = .ok (row, db1)) :
    row = { b with ID := db.nextBookingID, BookingDate := env.now, CreatedAt := env.now,
                   UpdatedAt := env.now } ∧
    db1 = { db with bookings := db.bookings ++ [row], nextBookingID := db.nextBookingID + 1 } := by
  unfold BookingRepository.CreateBooking at h
  split at h
  · simp at h
  · simp only [Except.ok.injEq, Prod.mk.injEq] at h
    obtain ⟨h1, h2⟩ := h
    subst h1
    exact ⟨rfl, h2.symm⟩

theorem updateSeatAvailability_ok {env : Env} {db db1 : Database} {s : Int} {d : Date}
    {t : String} {a : Bool}
    (h : SeatRepository.UpdateSeatAvailability env db s d t a = .ok db1) :
    db1 = { db with
            seatAvailability := db.seatAvailability.map (fun r =>
              if availabilityRow s d t r then
                { r with IsAvailable := a, UpdatedAt := env.now }
              else r) } := by
  unfold SeatRepository.UpdateSeatAvailability at h
  split at h
  · simp at h
  · simp only [Except.ok.injEq] at h
    exact h.symm

/-- The database after a successful `CreateBooking`: the inserted row and the
availability update. -/
theorem createBooking_ok_db {env : Env} {db : Database} {userID : Int} {req : BookingRequest}
    {r : BookingResponse}
    (h : (BookingService.CreateBooking env db userID req).result = .ok r) :
    ∃ d seat cinema row db1,
      parseDate req.Date = some d ∧
      SeatRepository.GetSeatByID env db req.SeatID = .ok (some seat) ∧
      CinemaRepository.GetCinemaByID env db req.CinemaID = .ok (some cinema) ∧
      seat.CinemaID = req.CinemaID ∧
      BookingRepository.CheckSeatBooked env db req.SeatID d req.Time = .ok false ∧
      BookingRepository.CreateBooking env db (newBooking userID req d seat) = .ok (row, db1) ∧
      SeatRepository.UpdateSeatAvailability env db1 req.SeatID d req.Time false =
        .ok (BookingService.CreateBooking env db userID req).db := by
  obtain ⟨d, seat, cinema, hd, hs, hc, hb, hk, hf1, hf2⟩ := createBooking_ok_inv h
  have hins : ∃ row db1,
      BookingRepository.CreateBooking env db (newBooking userID req d seat) = .ok (row, db1) := by
    simp only [BookingRepository.CreateBooking, hf1, Bool.false_eq_true, ↓reduceIte]
    exact ⟨_, _, rfl⟩
  obtain ⟨row, db1, hins⟩ := hins
  refine ⟨d, seat, cinema, row, db1, hd, hs, hc, hb, hk, hins, ?_⟩
  rw [createBooking_after_checks hd hs hc hb hk, hins]
  simp only [SeatRepository.UpdateSeatAvailability, hf2, Bool.false_eq_true, ↓reduceIte]

theorem checkSeatBooked_of_mem (env : Env) {db : Database} {s : Int} {d : Date} {t : String}
    {b : Booking} (hmem : b ∈ db.bookings) (hb : seatBookedRow s d t b = true) :
    BookingRepository.CheckSeatBooked env db s d t ≠ .ok false ∧
    (env.fails (.checkSeatBooked s d t) = false →
      BookingRepository.CheckSeatBooked env db s d t = .ok true) := by
  have hpos : 0 < (db.bookings.filter (seatBookedRow s d t)).length :=
    List.length_pos_of_mem (List.mem_filter.mpr ⟨hmem, hb⟩)
  unfold BookingRepository.CheckSeatBooked
  constructor
  · split
    · simp
    · simp only [gt_iff_lt, ne_eq, Except.ok.injEq, decide_eq_false_iff_not, not_not]
      exact hpos
  · intro hf
    simp only [hf, Bool.false_eq_true, ↓reduceIte, gt_iff_lt, Except.ok.injEq, decide_eq_true_eq]
    exact hpos

/-! ## No double booking, sequentially -/

/-- C1: after a successful `CreateBooking` for seat S of cinema C, date d and
time t, a following `CreateBooking` for the same cinema, seat, date and time
(any user, any payment method, any environment) returns an error and leaves
the database, hence the ledger, as the first call left it; and when none of
its three reads fails at the storage layer, the error is
`seat is already booked for this date and time`, raised right after the
conflict check. -/
theorem createBooking_twice_conflict (env1 env2 : Env) (db : Database) (u1 u2 : Int)
    (req : BookingRequest) (m2 : String) (r1 : BookingResponse)
    (h1 : (BookingService.CreateBooking env1 db u1 req).result = .ok r1) :
    (∃ e, (BookingService.CreateBooking env2 (BookingService.CreateBooking env1 db u1 req).db
        u2 { req with PaymentMethod := m2 }).result = .error e) ∧
    (BookingService.CreateBooking env2 (BookingService.CreateBooking env1 db u1 req).db
        u2 { req with PaymentMethod := m2 }).db =
      (BookingService.CreateBooking env1 db u1 req).db ∧
    (env2.fails (.getSeatByID req.SeatID) = false →
      env2.fails (.getCinemaByID req.CinemaID) = false →
      (∀ d, env2.fails (.checkSeatBooked req.SeatID d req.Time) = false) →
      (BookingService.CreateBooking env2 (BookingService.CreateBooking env1 db u1 req).db
        u2 { req with PaymentMethod := m2 }).result =
        .error "seat is already booked for this date and time") := by
  obtain ⟨d, seat, cinema, row, db1, hd, hs, hc, hb, hk, hins, hupd⟩ := createBooking_ok_db h1
  obtain ⟨hrow, hdb1⟩ := bookingRepo_createBooking_ok hins
  have hdb2 := updateSeatAvailability_ok hupd
  generalize (BookingService.CreateBooking env1 db u1 req).db = db2 at hdb2 hupd ⊢
  have hseats : db2.seats = db.seats := by rw [hdb2, hdb1]
  have hcinemas : db2.cinemas = db.cinemas := by rw [hdb2, hdb1]
  have hmem : row ∈ db2.bookings := by rw [hdb2, hdb1]; simp
  have hbooked : seatBookedRow req.SeatID d req.Time row = true := by
    rw [hrow]; simp [seatBookedRow, newBooking]
  have hfind : db.seats.find? (fun s => s.ID == req.SeatID) = some seat := by
    unfold SeatRepository.GetSeatByID at hs
    split at hs
    · simp at hs
    · simpa using hs
  have hfindc : db.cinemas.find? (fun c => c.ID == req.CinemaID) = some cinema := by
    unfold CinemaRepository.GetCinemaByID at hc
    split at hc
    · simp at hc
    · simpa using hc
  have hchk := checkSeatBooked_of_mem env2 hmem hbooked
  have hne : (seat.CinemaID != req.CinemaID) = false := by simp [hb]
  refine ⟨?_, ?_, ?_⟩
  · simp only [BookingService.CreateBooking, hd, SeatRepository.GetSeatByID,
      CinemaRepository.GetCinemaByID, hseats, hcinemas, hfind, hfindc]
    by_cases f1 : env2.fails (.getSeatByID req.SeatID) = true
    · simp [f1]
    · by_cases f2 : env2.fails (.getCinemaByID req.CinemaID) = true
      · simp [f1, f2]
      · simp only [f1, f2, hne, Bool.false_eq_true, ↓reduceIte]
        split
        · simp
        · simp
        · rename_i hfalse
          exact absurd hfalse hchk.1
  · simp only [BookingService.CreateBooking, hd, SeatRepository.GetSeatByID,
      CinemaRepository.GetCinemaByID, hseats, hcinemas, hfind, hfindc]
    by_cases f1 : env2.fails (.getSeatByID req.SeatID) = true
    · simp [f1]
    · by_cases f2 : env2.fails (.getCinemaByID req.CinemaID) = true
      · simp [f1, f2]
      · simp only [f1, f2, hne, Bool.false_eq_true, ↓reduceIte]
        split
        · simp
        · simp
        · rename_i hfalse
          exact absurd hfalse hchk.1
  · intro f1 f2 f3
    simp only [BookingService.CreateBooking, hd, SeatRepository.GetSeatByID,
      CinemaRepository.GetCinemaByID, hseats, hcinemas, hfind, hfindc, f1, f2, hne,
      hchk.2 (f3 d), Bool.false_eq_true, ↓reduceIte]

theorem createBooking_twice_conflict_witness :
    (∃ r1, (BookingService.CreateBooking okEnv sampleDb 1 sampleReq).result = .ok r1) ∧
    (BookingService.CreateBooking okEnv bookedDb 2
        { sampleReq with PaymentMethod := "credit_card" }).db = bookedDb ∧
    (BookingService.CreateBooking okEnv bookedDb 2
        { sampleReq with PaymentMethod := "credit_card" }).result =
      .error "seat is already booked for this date and time" :=
  ⟨⟨_, rfl⟩,
   (createBooking_twice_conflict okEnv okEnv sampleDb 1 2 sampleReq "credit_card" _ rfl).2.1,
   (createBooking_twice_conflict okEnv okEnv sampleDb 1 2 sampleReq "credit_card" _ rfl).2.2
      rfl rfl (fun _ => rfl)⟩

/-! ## Bookings and the availability table -/

/-- C10, as stated, fails: it is not the case that every `CreateBooking` for a
showing without a `SeatAvailability` row returns an error and inserts no
booking.  With an empty availability table the sample request is accepted and
its booking is inserted. -/
theorem createBooking_needs_no_availability_row :
    ¬ ∀ (env : Env) (db : Database) (userID : Int) (req : BookingRequest) (d : Date),
        parseDate req.Date = some d →
        (∀ r ∈ db.seatAvailability, availabilityRow req.SeatID d req.Time r = false) →
        (∃ e, (BookingService.CreateBooking env db userID req).result = .error e) ∧
        (BookingService.CreateBooking env db userID req).db.bookings = db.bookings := by
  intro hall
  have h := hall okEnv noAvailabilityDb 1 sampleReq jan15 (by decide)
    (by intro r hr; simp [noAvailabilityDb] at hr)
  have hlen := congrArg List.length h.2
  revert hlen
  decide

/-- C10, amended: `CreateBooking` never reads the availability table.  Replacing
the table by any rows whatsoever leaves the result, the repository calls and
the resulting ledger the same; and when the table holds no row for the
request's (seat, date, time), the table comes back as it was: no row is
created for the showing. -/
theorem createBooking_ignores_availability (env : Env) (db : Database) (userID : Int)
    (req : BookingRequest) (rows : List SeatAvailability) :
    (BookingService.CreateBooking env { db with seatAvailability := rows } userID req).result =
      (BookingService.CreateBooking env db userID req).result ∧
    (BookingService.CreateBooking env { db with seatAvailability := rows } userID req).trace =
      (BookingService.CreateBooking env db userID req).trace ∧
    (BookingService.CreateBooking env { db with seatAvailability := rows } userID req).db.bookings =
      (BookingService.CreateBooking env db userID req).db.bookings ∧
    ((∀ d, parseDate req.Date = some d →
        ∀ r ∈ rows, availabilityRow req.SeatID d req.Time r = false) →
      (BookingService.CreateBooking env { db with seatAvailability := rows } userID
        req).db.seatAvailability = rows) := by
  cases hd : parseDate req.Date with
  | none => simp [BookingService.CreateBooking, hd]
  | some d =>
    have e1 : SeatRepository.GetSeatByID env { db with seatAvailability := rows } req.SeatID =
        SeatRepository.GetSeatByID env db req.SeatID := rfl
    have e2 : CinemaRepository.GetCinemaByID env { db with seatAvailability := rows }
        req.CinemaID = CinemaRepository.GetCinemaByID env db req.CinemaID := rfl
    have e3 : BookingRepository.CheckSeatBooked env { db with seatAvailability := rows }
        req.SeatID d req.Time = BookingRepository.CheckSeatBooked env db req.SeatID d req.Time :=
      rfl
    cases hs : SeatRepository.GetSeatByID env db req.SeatID with
    | error e => simp [BookingService.CreateBooking, hd, hs, e1]
    | ok os =>
      cases os with
      | none => simp [BookingService.CreateBooking, hd, hs, e1]
      | some seat =>
        cases hc : CinemaRepository.GetCinemaByID env db req.CinemaID with
        | error e => simp [BookingService.CreateBooking, hd, hs, hc, e1, e2]
        | ok oc =>
          cases oc with
          | none => simp [BookingService.CreateBooking, hd, hs, hc, e1, e2]
          | some cinema =>
            by_cases hb : seat.CinemaID = req.CinemaID
            · cases hk : BookingRepository.CheckSeatBooked env db req.SeatID d req.Time with
              | error e => simp [BookingService.CreateBooking, hd, hs, hc, hb, hk, e1, e2, e3]
              | ok b =>
                cases b with
                | true => simp [BookingService.CreateBooking, hd, hs, hc, hb, hk, e1, e2, e3]
                | false =>
                  rw [createBooking_after_checks hd hs hc hb hk,
                    @createBooking_after_checks env { db with seatAvailability := rows } userID
                      req d seat cinema hd hs hc hb hk]
                  simp only [BookingRepository.CreateBooking,
                    SeatRepository.UpdateSeatAvailability]
                  by_cases f1 : env.fails (.createBooking (newBooking userID req d seat)) = true
                  · simp [f1]
                  · by_cases f2 : env.fails
                        (.updateSeatAvailability req.SeatID d req.Time false) = true
                    · simp [f1, f2]
                    · simp only [f1, f2, Bool.false_eq_true, ↓reduceIte, true_and]
                      intro hrows
                      have hrows2 := hrows d rfl
                      calc rows.map _ = rows.map id := by
                            apply List.map_congr_left
                            intro r hr
                            simp [hrows2 r hr]
                        _ = rows := List.map_id rows
            · simp [BookingService.CreateBooking, hd, hs, hc, hb, e1, e2]

theorem createBooking_ignores_availability_witness :
    (∃ r, (BookingService.CreateBooking okEnv noAvailabilityDb 1 sampleReq).result = .ok r) ∧
    (BookingService.CreateBooking okEnv noAvailabilityDb 1 sampleReq).result =
      (BookingService.CreateBooking okEnv sampleDb 1 sampleReq).result ∧
    (BookingService.CreateBooking okEnv noAvailabilityDb 1 sampleReq).db.seatAvailability = [] :=
  ⟨⟨_, rfl⟩,
   (createBooking_ignores_availability okEnv sampleDb 1 sampleReq []).1,
   (createBooking_ignores_availability okEnv sampleDb 1 sampleReq []).2.2.2
    (fun _ _ r hr => absurd hr (List.not_mem_nil r))⟩

/-! ## The ledger invariant -/

theorem ledgerInvariant_nil : LedgerInvariant [] := by
  intro s d t
  simp

/-- C2, as stated, fails.  From the sample database, whose ledger is empty,
four service operations (book, cancel, book again, set the first booking to
`confirmed`) reach a ledger with two non-cancelled bookings of seat 1 for
2026-01-15, 19:00. -/
theorem ledgerInvariant_broken_by_status_update :
    ¬ ∀ db db1 : Database, LedgerInvariant db.bookings →
        Relation.ReflTransGen ServiceStep db db1 → LedgerInvariant db1.bookings := by
  intro hall
  have hreach : Relation.ReflTransGen ServiceStep sampleDb
      (BookingService.UpdateBookingStatus okEnv rebookedDb 1 "confirmed").db :=
    (((Relation.ReflTransGen.single (ServiceStep.createBooking okEnv sampleDb 1 sampleReq)).tail
      (ServiceStep.updateBookingStatus okEnv _ 1 "cancelled")).tail
      (ServiceStep.createBooking okEnv _ 2 sampleReq)).tail
      (ServiceStep.updateBookingStatus okEnv _ 1 "confirmed")
  have h := hall sampleDb _ ledgerInvariant_nil hreach 1 jan15 "19:00"
  revert h
  decide

/-- The same ledger is broken by `ProcessPayment` on the cancelled booking. -/
theorem ledgerInvariant_broken_by_payment :
    LedgerInvariant rebookedDb.bookings ∧
    ¬ LedgerInvariant (PaymentService.ProcessPayment okEnv rebookedDb 1 samplePayment).db.bookings := by
  constructor
  · intro s d t
    by_cases h : s = 1 ∧ d = jan15 ∧ t = "19:00"
    · obtain ⟨rfl, rfl, rfl⟩ := h
      decide
    · have h0 : rebookedDb.bookings.countP (fun b => b.SeatID == s && b.ShowDate == d
          && b.ShowTime == t && b.Status != "cancelled") = 0 := by
        rw [List.countP_eq_zero]
        intro b hb
        have hb2 : b.SeatID = 1 ∧ b.ShowDate = jan15 ∧ b.ShowTime = "19:00" := by
          revert b
          decide
        obtain ⟨h1, h2, h3⟩ := hb2
        simp only [h1, h2, h3, Bool.and_eq_true, beq_iff_eq, bne_iff_ne, ne_eq, not_and]
        rintro ⟨⟨e1, e2⟩, e3⟩ _
        exact absurd ⟨e1.symm, e2.symm, e3.symm⟩ h
      omega
  · intro h
    have h2 := h 1 jan15 "19:00"
    revert h2
    decide

/-! ### Preservation by the repository writes -/

theorem countP_map_le {α : Type} (p : α → Bool) (f : α → α) (l : List α)
    (h : ∀ a ∈ l, p (f a) = true → p a = true) :
    (l.map f).countP p ≤ l.countP p := by
  induction l with
  | nil => simp
  | cons a l ih =>
    have ih2 := ih (fun b hb => h b (List.mem_cons_of_mem a hb))
    have ha := h a (List.mem_cons_self a l)
    simp only [List.map_cons, List.countP_cons]
    by_cases hp : p (f a) = true
    · simp only [hp, ha hp, ↓reduceIte]
      omega
    · simp only [hp, Bool.false_eq_true, ↓reduceIte]
      split <;> omega

theorem ledgerInvariant_map (f : Booking → Booking) (bookings : List Booking)
    (h : ∀ b ∈ bookings, ∀ s d t,
      ((f b).SeatID == s && (f b).ShowDate == d && (f b).ShowTime == t
        && (f b).Status != "cancelled") = true →
      (b.SeatID == s && b.ShowDate == d && b.ShowTime == t && b.Status != "cancelled") = true)
    (hinv : LedgerInvariant bookings) : LedgerInvariant (bookings.map f) := by
  intro s d t
  exact le_trans (countP_map_le _ f bookings (fun b hb => h b hb s d t)) (hinv s d t)

theorem ledgerInvariant_updatePaymentStatus {env : Env} {db db1 : Database} {id : Int}
    {ps : String}
    (h : BookingRepository.UpdateBookingPaymentStatus env db id ps = .ok db1)
    (hinv : LedgerInvariant db.bookings) :
    LedgerInvariant db1.bookings ∧ (∀ i, NotCancelled db i → NotCancelled db1 i) := by
  unfold BookingRepository.UpdateBookingPaymentStatus at h
  split at h
  · simp at h
  · simp only [Except.ok.injEq] at h
    subst h
    constructor
    · apply ledgerInvariant_map _ _ _ hinv
      intro b _ s d t
      split <;> simp
    · intro i hnc b hb
      simp only [List.mem_map] at hb
      obtain ⟨a, ha, rfl⟩ := hb
      have := hnc a ha
      split <;> simpa using this

theorem ledgerInvariant_updateStatus {env : Env} {db db1 : Database} {id : Int}
    {status : String}
    (h : BookingRepository.UpdateBookingStatus env db id status = .ok db1)
    (hg : status = "cancelled" ∨ NotCancelled db id)
    (hinv : LedgerInvariant db.bookings) : LedgerInvariant db1.bookings := by
  unfold BookingRepository.UpdateBookingStatus at h
  split at h
  · simp at h
  · simp only [Except.ok.injEq] at h
    subst h
    apply ledgerInvariant_map _ _ _ hinv
    intro b hb s d t
    by_cases hid : b.ID = id
    · simp only [hid, beq_self_eq_true, ↓reduceIte]
      rcases hg with hc | hnc
      · simp [hc]
      · have := hnc b hb hid
        simp only [Bool.and_eq_true, beq_iff_eq, bne_iff_ne, ne_eq]
        rintro ⟨⟨⟨h1, h2⟩, h3⟩, _⟩
        exact ⟨⟨⟨h1, h2⟩, h3⟩, this⟩
    · simp [hid]

/-- Every `CreateBooking` either leaves the database as it was and returns an
error, or passed all checks and inserted a row, after which the availability
update either failed (error, database as after the insert) or went through. -/
theorem createBooking_cases (env : Env) (db : Database) (userID : Int) (req : BookingRequest) :
    ((BookingService.CreateBooking env db userID req).db = db ∧
      ∃ e, (BookingService.CreateBooking env db userID req).result = .error e) ∨
    ∃ d seat cinema row db1,
      parseDate req.Date = some d ∧
      SeatRepository.GetSeatByID env db req.SeatID = .ok (some seat) ∧
      CinemaRepository.GetCinemaByID env db req.CinemaID = .ok (some cinema) ∧
      seat.CinemaID = req.CinemaID ∧
      BookingRepository.CheckSeatBooked env db req.SeatID d req.Time = .ok false ∧
      BookingRepository.CreateBooking env db (newBooking userID req d seat) = .ok (row, db1) ∧
      (((BookingService.CreateBooking env db userID req).db = db1 ∧
          ∃ err, SeatRepository.UpdateSeatAvailability env db1 req.SeatID d req.Time false =
              .error err ∧
            (BookingService.CreateBooking env db userID req).result =
              .error ("failed to update seat availability: " ++ err)) ∨
        (SeatRepository.UpdateSeatAvailability env db1 req.SeatID d req.Time false =
            .ok (BookingService.CreateBooking env db userID req).db ∧
          ∃ r, (BookingService.CreateBooking env db userID req).result = .ok r)) := by
  cases hd : parseDate req.Date with
  | none => simp [BookingService.CreateBooking, hd]
  | some d =>
    cases hs : SeatRepository.GetSeatByID env db req.SeatID with
    | error e => simp [BookingService.CreateBooking, hd, hs]
    | ok os =>
      cases os with
      | none => simp [BookingService.CreateBooking, hd, hs]
      | some seat =>
        cases hc : CinemaRepository.GetCinemaByID env db req.CinemaID with
        | error e => simp [BookingService.CreateBooking, hd, hs, hc]
        | ok oc =>
          cases oc with
          | none => simp [BookingService.CreateBooking, hd, hs, hc]
          | some cinema =>
            by_cases hb : seat.CinemaID = req.CinemaID
            · cases hk : BookingRepository.CheckSeatBooked env db req.SeatID d req.Time with
              | error e => simp [BookingService.CreateBooking, hd, hs, hc, hb, hk]
              | ok b =>
                cases b with
                | true => simp [BookingService.CreateBooking, hd, hs, hc, hb, hk]
                | false =>
                  rw [createBooking_after_checks hd hs hc hb hk]
                  cases hins : BookingRepository.CreateBooking env db
                      (newBooking userID req d seat) with
                  | error e => simp
                  | ok p =>
                    obtain ⟨row, db1⟩ := p
                    right
                    refine ⟨d, seat, cinema, row, db1, rfl, rfl, rfl, hb, hk, hins, ?_⟩
                    cases hupd : SeatRepository.UpdateSeatAvailability env db1 req.SeatID d
                        req.Time false with
                    | error e => simp [hupd]
                    | ok db2 => simp [hupd]
            · simp [BookingService.CreateBooking, hd, hs, hc, hb]

theorem ledgerInvariant_createBooking (env : Env) (db : Database) (userID : Int)
    (req : BookingRequest) (hinv : LedgerInvariant db.bookings) :
    LedgerInvariant (BookingService.CreateBooking env db userID req).db.bookings := by
  rcases createBooking_cases env db userID req with ⟨hdb, _⟩ |
    ⟨d, seat, cinema, row, db1, hd, hs, hc, hb, hk, hins, hrest⟩
  · rw [hdb]; exact hinv
  · obtain ⟨hrow, hdb1⟩ := bookingRepo_createBooking_ok hins
    have hbk : (BookingService.CreateBooking env db userID req).db.bookings =
        db.bookings ++ [row] := by
      rcases hrest with ⟨hdb, _⟩ | ⟨hupd, _⟩
      · rw [hdb, hdb1]
      · rw [updateSeatAvailability_ok hupd, hdb1]
    rw [hbk]
    have hzero : db.bookings.countP (seatBookedRow req.SeatID d req.Time) = 0 := by
      unfold BookingRepository.CheckSeatBooked at hk
      split at hk
      · simp at hk
      · simp only [gt_iff_lt, Except.ok.injEq, decide_eq_false_iff_not, not_lt,
          nonpos_iff_eq_zero] at hk
        rw [List.countP_eq_length_filter]
        exact hk
    intro s dd t
    rw [List.countP_append]
    by_cases hkey : s = req.SeatID ∧ dd = d ∧ t = req.Time
    · obtain ⟨rfl, rfl, rfl⟩ := hkey
      have : db.bookings.countP (fun b => b.SeatID == req.SeatID && b.ShowDate == dd
          && b.ShowTime == req.Time && b.Status != "cancelled") = 0 := hzero
      rw [this]
      simp only [List.countP_cons, List.countP_nil]
      split <;> omega
    · have hrow0 : [row].countP (fun b => b.SeatID == s && b.ShowDate == dd
          && b.ShowTime == t && b.Status != "cancelled") = 0 := by
        rw [List.countP_eq_zero]
        intro b hb2
        simp only [List.mem_singleton] at hb2
        subst hb2
        rw [hrow]
        simp only [newBooking, Bool.and_eq_true, beq_iff_eq, bne_iff_ne, ne_eq, not_and]
        rintro ⟨⟨e1, e2⟩, e3⟩ _
        exact absurd ⟨e1.symm, e2.symm, e3.symm⟩ hkey
      rw [hrow0]
      exact hinv s dd t

theorem paymentRepo_createPayment_ok {env : Env} {db db1 : Database} {p row : Payment}
    (h : PaymentRepository.CreatePayment env db p = .ok (row, db1)) :
    row = { p with ID := db.nextPaymentID, CreatedAt := env.now, UpdatedAt := env.now } ∧
    db1 = { db with payments := db.payments ++ [row], nextPaymentID := db.nextPaymentID + 1 } := by
  unfold PaymentRepository.CreatePayment at h
  split at h
  · simp at h
  · simp only [Except.ok.injEq, Prod.mk.injEq] at h
    obtain ⟨h1, h2⟩ := h
    subst h1
    exact ⟨rfl, h2.symm⟩

/-- The database after `ProcessPayment`: unchanged, or after the payment
insert, or after the payment-status update as well, or after all three writes. -/
theorem processPayment_db_cases (env : Env) (db : Database) (userID : Int)
    (req : PaymentRequest) :
    (PaymentService.ProcessPayment env db userID req).db = db ∨
    ∃ p row db1, PaymentRepository.CreatePayment env db p = .ok (row, db1) ∧
      ((PaymentService.ProcessPayment env db userID req).db = db1 ∨
        ∃ db2, BookingRepository.UpdateBookingPaymentStatus env db1 req.BookingID "paid" =
            .ok db2 ∧
          ((PaymentService.ProcessPayment env db userID req).db = db2 ∨
            BookingRepository.UpdateBookingStatus env db2 req.BookingID "confirmed" =
              .ok (PaymentService.ProcessPayment env db userID req).db)) := by
  cases hb : BookingRepository.GetBookingByID env db req.BookingID with
  | error e => simp [PaymentService.ProcessPayment, hb]
  | ok ob =>
    cases ob with
    | none => simp [PaymentService.ProcessPayment, hb]
    | some booking =>
      by_cases hu : booking.UserID = userID
      · by_cases ha : req.Amount = booking.TotalPrice
        · cases hm : PaymentRepository.GetPaymentMethodByName env db req.PaymentMethod with
          | error e => simp [PaymentService.ProcessPayment, hb, hu, ha, hm]
          | ok om =>
            cases om with
            | none => simp [PaymentService.ProcessPayment, hb, hu, ha, hm]
            | some method =>
              cases hins : PaymentRepository.CreatePayment env db
                  (newPayment userID req booking) with
              | error e => simp [PaymentService.ProcessPayment, hb, hu, ha, hm, hins]
              | ok pr =>
                obtain ⟨row, db1⟩ := pr
                right
                refine ⟨_, row, db1, hins, ?_⟩
                cases hps : BookingRepository.UpdateBookingPaymentStatus env db1
                    req.BookingID "paid" with
                | error e => simp [PaymentService.ProcessPayment, hb, hu, ha, hm, hins, hps]
                | ok db2 =>
                  right
                  refine ⟨db2, rfl, ?_⟩
                  cases hst : BookingRepository.UpdateBookingStatus env db2 req.BookingID
                      "confirmed" with
                  | error e =>
                    simp [PaymentService.ProcessPayment, hb, hu, ha, hm, hins, hps, hst]
                  | ok db3 =>
                    simp [PaymentService.ProcessPayment, hb, hu, ha, hm, hins, hps, hst]
        · simp [PaymentService.ProcessPayment, hb, hu, ha]
      · simp [PaymentService.ProcessPayment, hb, hu]

theorem ledgerInvariant_processPayment (env : Env) (db : Database) (userID : Int)
    (req : PaymentRequest) (hg : NotCancelled db req.BookingID)
    (hinv : LedgerInvariant db.bookings) :
    LedgerInvariant (PaymentService.ProcessPayment env db userID req).db.bookings := by
  rcases processPayment_db_cases env db userID req with h | ⟨p, row, db1, hins, h⟩
  · rw [h]; exact hinv
  · have hdb1 := (paymentRepo_createPayment_ok hins).2
    have hbk1 : db1.bookings = db.bookings := by rw [hdb1]
    have hinv1 : LedgerInvariant db1.bookings := by rw [hbk1]; exact hinv
    have hg1 : NotCancelled db1 req.BookingID := by
      intro b hb
      rw [hbk1] at hb
      exact hg b hb
    rcases h with h | ⟨db2, hps, h⟩
    · rw [h]; exact hinv1
    · obtain ⟨hinv2, hnc⟩ := ledgerInvariant_updatePaymentStatus hps hinv1
      rcases h with h | h
      · rw [h]; exact hinv2
      · exact ledgerInvariant_updateStatus h (Or.inr (hnc _ hg1)) hinv2

theorem ledgerInvariant_updateBookingStatus (env : Env) (db : Database) (id : Int)
    (status : String) (hg : status = "cancelled" ∨ NotCancelled db id)
    (hinv : LedgerInvariant db.bookings) :
    LedgerInvariant (BookingService.UpdateBookingStatus env db id status).db.bookings := by
  unfold BookingService.UpdateBookingStatus
  split
  · exact hinv
  · rename_i db1 h
    exact ledgerInvariant_updateStatus h hg hinv

/-- C2, amended: starting from a ledger with at most one non-cancelled booking
per (seat, show date, show time), every state reached by a sequence of
`CreateBooking` calls, of `ProcessPayment` calls for booking ids that are not
cancelled, and of `UpdateBookingStatus` calls that set `cancelled` or are for
booking ids that are not cancelled, still has at most one non-cancelled
booking per (seat, show date, show time). -/
theorem ledgerInvariant_preserved (db db1 : Database)
    (hinv : LedgerInvariant db.bookings)
    (hreach : Relation.ReflTransGen GuardedStep db db1) :
    LedgerInvariant db1.bookings := by
  induction hreach with
  | refl => exact hinv
  | tail _ hstep ih =>
    cases hstep with
    | createBooking env _ userID req => exact ledgerInvariant_createBooking env _ userID req ih
    | processPayment env _ userID req hg =>
      exact ledgerInvariant_processPayment env _ userID req hg ih
    | updateBookingStatus env _ id status hg =>
      exact ledgerInvariant_updateBookingStatus env _ id status hg ih

theorem ledgerInvariant_preserved_witness :
    LedgerInvariant sampleDb.bookings ∧
    LedgerInvariant (PaymentService.ProcessPayment okEnv bookedDb 1 samplePayment).db.bookings :=
  ⟨ledgerInvariant_nil,
   ledgerInvariant_preserved sampleDb _ ledgerInvariant_nil
    ((Relation.ReflTransGen.single (GuardedStep.createBooking okEnv sampleDb 1 sampleReq)).tail
      (GuardedStep.processPayment okEnv bookedDb 1 samplePayment (by
        intro b hb
        revert b
        decide)))⟩

/-! ## Concurrent and consecutive calls -/

/-- Run alone, a call in progress is `CreateBooking`: five steps from the start
give the database and the result of `BookingService.CreateBooking`. -/
theorem bookingTask_run_eq_createBooking (env : Env) (db : Database) (userID : Int)
    (req : BookingRequest) :
    BookingTask.run env 5 db (.start userID req) =
      ((BookingService.CreateBooking env db userID req).db,
        .finished (BookingService.CreateBooking env db userID req).result) := by
  cases hd : parseDate req.Date with
  | none => simp [BookingTask.run, BookingTask.step, BookingService.CreateBooking, hd]
  | some d =>
    cases hs : SeatRepository.GetSeatByID env db req.SeatID with
    | error e => simp [BookingTask.run, BookingTask.step, BookingService.CreateBooking, hd, hs]
    | ok os =>
      cases os with
      | none => simp [BookingTask.run, BookingTask.step, BookingService.CreateBooking, hd, hs]
      | some seat =>
        cases hc : CinemaRepository.GetCinemaByID env db req.CinemaID with
        | error e =>
          simp [BookingTask.run, BookingTask.step, BookingService.CreateBooking, hd, hs, hc]
        | ok oc =>
          cases oc with
          | none =>
            simp [BookingTask.run, BookingTask.step, BookingService.CreateBooking, hd, hs, hc]
          | some cinema =>
            by_cases hb : seat.CinemaID = req.CinemaID
            · cases hk : BookingRepository.CheckSeatBooked env db req.SeatID d req.Time with
              | error e =>
                simp [BookingTask.run, BookingTask.step, BookingService.CreateBooking, hd, hs,
                  hc, hb, hk]
              | ok b =>
                cases b with
                | true =>
                  simp [BookingTask.run, BookingTask.step, BookingService.CreateBooking, hd, hs,
                    hc, hb, hk]
                | false =>
                  rw [createBooking_after_checks hd hs hc hb hk]
                  cases hins : BookingRepository.CreateBooking env db
                      (newBooking userID req d seat) with
                  | error e =>
                    simp [BookingTask.run, BookingTask.step, hd, hs, hc, hb, hk, hins]
                  | ok p =>
                    obtain ⟨row, db1⟩ := p
                    cases hupd : SeatRepository.UpdateSeatAvailability env db1 req.SeatID d
                        req.Time false with
                    | error e =>
                      simp [BookingTask.run, BookingTask.step, hd, hs, hc, hb, hk, hins, hupd]
                    | ok db2 =>
                      simp [BookingTask.run, BookingTask.step, hd, hs, hc, hb, hk, hins, hupd]
            · simp [BookingTask.run, BookingTask.step, BookingService.CreateBooking, hd, hs,
                hc, hb]

/-- C3, as stated, fails.  Two calls for the same seat, date and time whose
reads all come before either insert both return a response, and the ledger
ends with two non-cancelled bookings of seat 1 for 2026-01-15, 19:00. -/
theorem concurrent_createBooking_double_books :
    (runSchedule okEnv racingSchedule sampleDb twoCalls).2.map BookingTask.succeeded =
      [true, true] ∧
    (runSchedule okEnv racingSchedule sampleDb twoCalls).1.bookings.countP
      (seatBookedRow 1 jan15 "19:00") = 2 := by
  decide

/-- In a database where the seat and the cinema of the request are found, the
seat belongs to the cinema and the conflict check answers true, `CreateBooking`
returns the conflict error and the database as it was. -/
theorem createBooking_conflict_of_booked {env : Env} {db : Database} {userID : Int}
    {req : BookingRequest} {d : Date} {seat : Seat} {cinema : Cinema}
    (hd : parseDate req.Date = some d)
    (hs : SeatRepository.GetSeatByID env db req.SeatID = .ok (some seat))
    (hc : CinemaRepository.GetCinemaByID env db req.CinemaID = .ok (some cinema))
    (hb : seat.CinemaID = req.CinemaID)
    (hk : BookingRepository.CheckSeatBooked env db req.SeatID d req.Time = .ok true) :
    BookingService.CreateBooking env db userID req =
      ⟨db, [.getSeatByID req.SeatID, .getCinemaByID req.CinemaID,
            .checkSeatBooked req.SeatID d req.Time],
        .error "seat is already booked for this date and time"⟩ := by
  simp [BookingService.CreateBooking, hd, hs, hc, hb, hk]

theorem createBookingsInTurn_all_conflict {env : Env} {req : BookingRequest} {d : Date}
    {seat : Seat} {cinema : Cinema} {db : Database}
    (hd : parseDate req.Date = some d)
    (hs : SeatRepository.GetSeatByID env db req.SeatID = .ok (some seat))
    (hc : CinemaRepository.GetCinemaByID env db req.CinemaID = .ok (some cinema))
    (hb : seat.CinemaID = req.CinemaID)
    (hk : BookingRepository.CheckSeatBooked env db req.SeatID d req.Time = .ok true)
    (callers : List (Int × String)) :
    createBookingsInTurn env req callers db =
      (db, List.replicate callers.length
        (.error "seat is already booked for this date and time")) := by
  induction callers with
  | nil => rfl
  | cons c rest ih =>
    obtain ⟨u, m⟩ := c
    have hcall : BookingService.CreateBooking env db u { req with PaymentMethod := m } =
        ⟨db, [.getSeatByID req.SeatID, .getCinemaByID req.CinemaID,
              .checkSeatBooked req.SeatID d req.Time],
          .error "seat is already booked for this date and time"⟩ :=
      @createBooking_conflict_of_booked env db u { req with PaymentMethod := m } d seat cinema
        hd hs hc hb hk
    simp only [createBookingsInTurn, hcall, ih, List.length_cons, List.replicate_succ]

/-- C3, amended: when N `CreateBooking` calls for the same cinema, seat, date
and time are made one after another (each returns before the next starts)
against a store in which no statement fails, and the first call is accepted,
then exactly that one call succeeds and each of the other N-1 calls gets the
error `seat is already booked for this date and time`. -/
theorem createBookingsInTurn_one_success (env : Env) (db : Database) (req : BookingRequest)
    (u : Int) (m : String) (rest : List (Int × String)) (r : BookingResponse)
    (hok : ∀ c, env.fails c = false)
    (h1 : (BookingService.CreateBooking env db u { req with PaymentMethod := m }).result =
      .ok r) :
    (createBookingsInTurn env req ((u, m) :: rest) db).2 =
      .ok r :: List.replicate rest.length
        (.error "seat is already booked for this date and time") := by
  obtain ⟨d, seat, cinema, row, db1, hd, hs, hc, hb, hk, hins, hupd⟩ := createBooking_ok_db h1
  obtain ⟨hrow, hdb1⟩ := bookingRepo_createBooking_ok hins
  have hdb2 := updateSeatAvailability_ok hupd
  simp only [createBookingsInTurn, h1]
  generalize (BookingService.CreateBooking env db u { req with PaymentMethod := m }).db = db2
    at hdb2 hupd ⊢
  have hmem : row ∈ db2.bookings := by rw [hdb2, hdb1]; simp
  have hbooked : seatBookedRow req.SeatID d req.Time row = true := by
    rw [hrow]; simp [seatBookedRow, newBooking]
  have hs2 : SeatRepository.GetSeatByID env db2 req.SeatID = .ok (some seat) := by
    rw [← hs, hdb2, hdb1]; rfl
  have hc2 : CinemaRepository.GetCinemaByID env db2 req.CinemaID = .ok (some cinema) := by
    rw [← hc, hdb2, hdb1]; rfl
  have hk2 := (checkSeatBooked_of_mem env hmem hbooked).2 (hok _)
  have hrest := @createBookingsInTurn_all_conflict env req d seat cinema db2 hd hs2 hc2 hb hk2
    rest
  rw [hrest]


theorem createBookingsInTurn_one_success_witness :
    (createBookingsInTurn okEnv sampleReq [(1, "cash"), (2, "cash"), (3, "credit_card")]
      sampleDb).2 =
      [(BookingService.CreateBooking okEnv sampleDb 1 sampleReq).result,
        .error "seat is already booked for this date and time",
        .error "seat is already booked for this date and time"] ∧
    ∃ r, (BookingService.CreateBooking okEnv sampleDb 1 sampleReq).result = .ok r :=
  ⟨createBookingsInTurn_one_success okEnv sampleDb sampleReq 1 "cash"
      [(2, "cash"), (3, "credit_card")] _ (fun _ => rfl) rfl,
    ⟨_, rfl⟩⟩

/-! ## The conflict check -/

/-- C11: when its query does not fail, `CheckSeatBooked(seat, date, time)`
returns an answer, and the answer is true exactly when the ledger holds a
booking with that seat id, that show date and that show time whose status is
not `cancelled`. -/
theorem checkSeatBooked_iff (env : Env) (db : Database) (seatID : Int) (showDate : Date)
    (showTime : String) (hf : env.fails (.checkSeatBooked seatID showDate showTime) = false) :
    ∃ answer, BookingRepository.CheckSeatBooked env db seatID showDate showTime = .ok answer ∧
      (answer = true ↔
        ∃ b ∈ db.bookings, b.SeatID = seatID ∧ b.ShowDate = showDate ∧ b.ShowTime = showTime ∧
          b.Status ≠ "cancelled") := by
  refine ⟨decide ((db.bookings.filter (seatBookedRow seatID showDate showTime)).length > 0),
    ?_, ?_⟩
  · simp only [BookingRepository.CheckSeatBooked, hf, Bool.false_eq_true, ↓reduceIte]
  simp only [gt_iff_lt, decide_eq_true_eq, List.length_pos_iff_exists_mem, List.mem_filter,
    seatBookedRow, Bool.and_eq_true, beq_iff_eq, bne_iff_ne, ne_eq]
  constructor
  · rintro ⟨b, hb, ⟨⟨h1, h2⟩, h3⟩, h4⟩
    exact ⟨b, hb, h1, h2, h3, h4⟩
  · rintro ⟨b, hb, h1, h2, h3, h4⟩
    exact ⟨b, hb, ⟨⟨h1, h2⟩, h3⟩, h4⟩

theorem checkSeatBooked_iff_witness :
    BookingRepository.CheckSeatBooked okEnv bookedDb 1 jan15 "19:00" = .ok true ∧
    BookingRepository.CheckSeatBooked okEnv cancelledDb 1 jan15 "19:00" = .ok false ∧
    BookingRepository.CheckSeatBooked okEnv bookedDb 1 jan15 "21:00" = .ok false ∧
    ∃ answer, BookingRepository.CheckSeatBooked okEnv bookedDb 1 jan15 "19:00" = .ok answer ∧
      (answer = true ↔
        ∃ b ∈ bookedDb.bookings, b.SeatID = 1 ∧ b.ShowDate = jan15 ∧ b.ShowTime = "19:00" ∧
          b.Status ≠ "cancelled") :=
  ⟨rfl, rfl, rfl, checkSeatBooked_iff okEnv bookedDb 1 jan15 "19:00" rfl⟩

/-! ## The availability update -/

/-- C12, as stated, fails: it is not the case that after every
`UpdateSeatAvailability` a row for (seat, date, time) exists with the given
flag.  On an empty availability table the call succeeds and the table stays
empty. -/
theorem updateSeatAvailability_creates_no_row :
    ¬ ∀ (env : Env) (db : Database) (seatID : Int) (date : Date) (timeStr : String)
        (isAvailable : Bool),
        env.fails (.updateSeatAvailability seatID date timeStr isAvailable) = false →
        ∃ db1, SeatRepository.UpdateSeatAvailability env db seatID date timeStr isAvailable =
            .ok db1 ∧
          ∃ r ∈ db1.seatAvailability, availabilityRow seatID date timeStr r = true ∧
            r.IsAvailable = isAvailable := by
  intro hall
  obtain ⟨db1, h1, r, hr, _⟩ := hall okEnv noAvailabilityDb 1 jan15 "19:00" false rfl
  have hdb := updateSeatAvailability_ok h1
  rw [hdb] at hr
  simp [noAvailabilityDb] at hr

/-- C12, amended: `UpdateSeatAvailability(seat, date, time, available)` is an
idempotent update.  When its statement does not fail, the call returns; no row
is created or removed and no row changes its id, cinema, seat, date or time;
every row for (seat, date, time) has `is_available = available` afterwards;
the other rows are as before; and a second call with the same arguments leaves
the availability flags exactly as after the first call (the whole database,
when the clock has not moved). -/
theorem updateSeatAvailability_idempotent (env1 env2 : Env) (db : Database) (seatID : Int)
    (date : Date) (timeStr : String) (isAvailable : Bool)
    (hf1 : env1.fails (.updateSeatAvailability seatID date timeStr isAvailable) = false)
    (hf2 : env2.fails (.updateSeatAvailability seatID date timeStr isAvailable) = false) :
    ∃ db1 db2,
      SeatRepository.UpdateSeatAvailability env1 db seatID date timeStr isAvailable = .ok db1 ∧
      SeatRepository.UpdateSeatAvailability env2 db1 seatID date timeStr isAvailable = .ok db2 ∧
      db1.seatAvailability.map (fun r => (r.ID, r.CinemaID, r.SeatID, r.ShowDate, r.ShowTime)) =
        db.seatAvailability.map (fun r => (r.ID, r.CinemaID, r.SeatID, r.ShowDate, r.ShowTime)) ∧
      (∀ r ∈ db1.seatAvailability, availabilityRow seatID date timeStr r = true →
        r.IsAvailable = isAvailable) ∧
      (∀ r, availabilityRow seatID date timeStr r = false →
        (r ∈ db1.seatAvailability ↔ r ∈ db.seatAvailability)) ∧
      db2.seatAvailability.map (fun r => r.IsAvailable) =
        db1.seatAvailability.map (fun r => r.IsAvailable) ∧
      (env2.now = env1.now → db2 = db1) := by
  refine ⟨_, _, by simp only [SeatRepository.UpdateSeatAvailability, hf1, Bool.false_eq_true,
      ↓reduceIte]; rfl,
    by simp only [SeatRepository.UpdateSeatAvailability, hf2, Bool.false_eq_true,
      ↓reduceIte]; rfl, ?_, ?_, ?_, ?_, ?_⟩
  · simp only [List.map_map]
    apply List.map_congr_left
    intro r _
    simp only [Function.comp]
    split <;> rfl
  · intro r hr hm
    simp only [List.mem_map] at hr
    obtain ⟨r0, _, rfl⟩ := hr
    split at hm
    · split <;> simp_all
    · rename_i hno
      simp [hno] at hm
  · intro r hm
    simp only [List.mem_map]
    constructor
    · rintro ⟨r0, hr0, rfl⟩
      by_cases h0 : availabilityRow seatID date timeStr r0 = true
      · simp only [h0, ↓reduceIte] at hm
        simp only [availabilityRow] at hm h0
        rw [h0] at hm
        exact absurd hm (by simp)
      · simpa [h0] using hr0
    · intro hr
      exact ⟨r, hr, by simp [hm]⟩
  · simp only [List.map_map]
    apply List.map_congr_left
    intro r _
    simp only [Function.comp]
    by_cases h0 : availabilityRow seatID date timeStr r = true
    · simp only [h0, ↓reduceIte]
      have : availabilityRow seatID date timeStr
          { r with IsAvailable := isAvailable, UpdatedAt := env1.now } = true := h0
      simp only [this, ↓reduceIte]
    · simp only [h0, Bool.false_eq_true, ↓reduceIte]
  · intro hnow
    simp only [hnow]
    congr 1
    rw [List.map_map]
    apply List.map_congr_left
    intro r _
    simp only [Function.comp]
    by_cases h0 : availabilityRow seatID date timeStr r = true
    · simp only [h0, ↓reduceIte]
      have : availabilityRow seatID date timeStr
          { r with IsAvailable := isAvailable, UpdatedAt := env1.now } = true := h0
      simp only [this, ↓reduceIte]
    · simp only [h0, Bool.false_eq_true, ↓reduceIte]

theorem updateSeatAvailability_idempotent_witness :
    ∃ db1 db2,
      SeatRepository.UpdateSeatAvailability okEnv sampleDb 1 jan15 "19:00" false = .ok db1 ∧
      SeatRepository.UpdateSeatAvailability okEnv db1 1 jan15 "19:00" false = .ok db2 ∧
      db1.seatAvailability.map (fun r => r.IsAvailable) = [false] ∧
      db2.seatAvailability.map (fun r => r.IsAvailable) = [false] ∧
      db2 = db1 := by
  obtain ⟨db1, db2, h1, h2, _, _, _, h6, h7⟩ :=
    updateSeatAvailability_idempotent okEnv okEnv sampleDb 1 jan15 "19:00" false rfl rfl
  have hdb1 := updateSeatAvailability_ok h1
  refine ⟨db1, db2, h1, h2, ?_, ?_, h7 rfl⟩
  · rw [hdb1]; decide
  · rw [h6, hdb1]; decide

/-! ## The payment workflow -/

theorem getBookingByID_some {env : Env} {db : Database} {id : Int} {b : Booking}
    (h : BookingRepository.GetBookingByID env db id = .ok (some b)) :
    b.ID = id ∧ b ∈ db.bookings := by
  unfold BookingRepository.GetBookingByID at h
  split at h
  · simp at h
  · simp only [Except.ok.injEq] at h
    exact ⟨by simpa using List.find?_some h, List.mem_of_find?_eq_some h⟩

/-- What `ProcessPayment` does once the booking is found, the caller owns it,
the amount matches and the payment method is found. -/
theorem processPayment_after_checks {env : Env} {db : Database} {userID : Int}
    {req : PaymentRequest} {b : Booking} {m : PaymentMethod}
    (hb : BookingRepository.GetBookingByID env db req.BookingID = .ok (some b))
    (hu : b.UserID = userID) (ha : req.Amount = b.TotalPrice)
    (hm : PaymentRepository.GetPaymentMethodByName env db req.PaymentMethod = .ok (some m)) :
    PaymentService.ProcessPayment env db userID req =
      match PaymentRepository.CreatePayment env db (newPayment userID req b) with
      | .error err =>
        ⟨db, [.getBookingByID req.BookingID, .getPaymentMethodByName req.PaymentMethod,
              .createPayment (newPayment userID req b)],
          .error ("failed to create payment: " ++ err)⟩
      | .ok (payment, db1) =>
        match BookingRepository.UpdateBookingPaymentStatus env db1 req.BookingID "paid" with
        | .error err =>
          ⟨db1, [.getBookingByID req.BookingID, .getPaymentMethodByName req.PaymentMethod,
                .createPayment (newPayment userID req b),
                .updateBookingPaymentStatus req.BookingID "paid"],
            .error ("failed to update booking payment status: " ++ err)⟩
        | .ok db2 =>
          match BookingRepository.UpdateBookingStatus env db2 req.BookingID "confirmed" with
          | .error err =>
            ⟨db2, [.getBookingByID req.BookingID, .getPaymentMethodByName req.PaymentMethod,
                  .createPayment (newPayment userID req b),
                  .updateBookingPaymentStatus req.BookingID "paid",
                  .updateBookingStatus req.BookingID "confirmed"],
              .error ("failed to update booking status: " ++ err)⟩
          | .ok db3 =>
            ⟨db3, [.getBookingByID req.BookingID, .getPaymentMethodByName req.PaymentMethod,
                  .createPayment (newPayment userID req b),
                  .updateBookingPaymentStatus req.BookingID "paid",
                  .updateBookingStatus req.BookingID "confirmed"],
              .ok
                { ID := payment.ID
                  BookingID := payment.BookingID
                  Amount := payment.Amount
                  PaymentMethod := payment.PaymentMethod
                  Status := payment.Status
                  TransactionID := payment.TransactionID
                  CreatedAt := payment.CreatedAt }⟩ := by
  simp only [PaymentService.ProcessPayment, hb, hu, ha, hm]
  simp only [bne_self_eq_false, Bool.false_eq_true, ↓reduceIte, List.cons_append,
    List.nil_append]

/-- C13: when the booking exists and the caller is not its owner,
`ProcessPayment` returns `unauthorized to pay for this booking` and no
response, whatever the amount and the payment method of the request; the
database is as before (no payment, same status and payment status) and the
booking lookup is the only repository call made. -/
theorem processPayment_unauthorized (env : Env) (db : Database) (userID : Int)
    (req : PaymentRequest) (b : Booking)
    (hb : BookingRepository.GetBookingByID env db req.BookingID = .ok (some b))
    (hu : b.UserID ≠ userID) :
    PaymentService.ProcessPayment env db userID req =
      ⟨db, [.getBookingByID req.BookingID], .error "unauthorized to pay for this booking"⟩ := by
  simp [PaymentService.ProcessPayment, hb, hu]

theorem processPayment_unauthorized_witness :
    PaymentService.ProcessPayment okEnv bookedDb 2 samplePayment =
      ⟨bookedDb, [.getBookingByID 1], .error "unauthorized to pay for this booking"⟩ :=
  processPayment_unauthorized okEnv bookedDb 2 samplePayment
    (bookedDb.bookings.head (by decide)) rfl (by decide)

/-- C14: when the caller owns the booking and the request amount differs from
the booking's total price, however slightly, `ProcessPayment` returns the error
`amount mismatch: expected <price>, got <amount>` and no response; the
database is as before and the booking lookup is the only repository call made
(the payment method is not looked up). -/
theorem processPayment_amount_mismatch (env : Env) (db : Database) (userID : Int)
    (req : PaymentRequest) (b : Booking)
    (hb : BookingRepository.GetBookingByID env db req.BookingID = .ok (some b))
    (hu : b.UserID = userID) (ha : req.Amount ≠ b.TotalPrice) :
    PaymentService.ProcessPayment env db userID req =
      ⟨db, [.getBookingByID req.BookingID],
        .error ("amount mismatch: expected " ++ fmt2f b.TotalPrice ++ ", got "
          ++ fmt2f req.Amount)⟩ := by
  simp [PaymentService.ProcessPayment, hb, hu, ha]

theorem processPayment_amount_mismatch_witness :
    PaymentService.ProcessPayment okEnv bookedDb 1
        { samplePayment with Amount := 70000 + 1 / 100 } =
      ⟨bookedDb, [.getBookingByID 1],
        .error ("amount mismatch: expected " ++ fmt2f 70000 ++ ", got "
          ++ fmt2f (70000 + 1 / 100))⟩ :=
  processPayment_amount_mismatch okEnv bookedDb 1
    { samplePayment with Amount := 70000 + 1 / 100 }
    (bookedDb.bookings.head (by decide)) rfl rfl (by
      show ((70000 : Rat) + 1 / 100) ≠ 70000
      norm_num)

theorem getPaymentMethodByName_some {env : Env} {db : Database} {name : String}
    {m : PaymentMethod}
    (h : PaymentRepository.GetPaymentMethodByName env db name = .ok (some m)) :
    m ∈ db.paymentMethods ∧ m.Name = name ∧ m.IsActive = true := by
  unfold PaymentRepository.GetPaymentMethodByName at h
  split at h
  · simp at h
  · simp only [Except.ok.injEq] at h
    exact ⟨List.mem_of_find?_eq_some h, by simpa using List.find?_some h⟩

/-- A successful `ProcessPayment` passed every check and made every write. -/
theorem processPayment_ok_inv {env : Env} {db : Database} {userID : Int}
    {req : PaymentRequest} {r : PaymentResponse}
    (h : (PaymentService.ProcessPayment env db userID req).result = .ok r) :
    ∃ b m row db1 db2,
      BookingRepository.GetBookingByID env db req.BookingID = .ok (some b) ∧
      b.UserID = userID ∧ req.Amount = b.TotalPrice ∧
      PaymentRepository.GetPaymentMethodByName env db req.PaymentMethod = .ok (some m) ∧
      PaymentRepository.CreatePayment env db (newPayment userID req b) = .ok (row, db1) ∧
      BookingRepository.UpdateBookingPaymentStatus env db1 req.BookingID "paid" = .ok db2 ∧
      BookingRepository.UpdateBookingStatus env db2 req.BookingID "confirmed" =
        .ok (PaymentService.ProcessPayment env db userID req).db := by
  cases hb : BookingRepository.GetBookingByID env db req.BookingID with
  | error e => simp [PaymentService.ProcessPayment, hb] at h
  | ok ob =>
    cases ob with
    | none => simp [PaymentService.ProcessPayment, hb] at h
    | some b =>
      by_cases hu : b.UserID = userID
      · by_cases ha : req.Amount = b.TotalPrice
        · cases hm : PaymentRepository.GetPaymentMethodByName env db req.PaymentMethod with
          | error e => simp [PaymentService.ProcessPayment, hb, hu, ha, hm] at h
          | ok om =>
            cases om with
            | none => simp [PaymentService.ProcessPayment, hb, hu, ha, hm] at h
            | some m =>
              rw [processPayment_after_checks hb hu ha hm] at h ⊢
              cases hins : PaymentRepository.CreatePayment env db
                  (newPayment userID req b) with
              | error e => simp [hins] at h
              | ok pr =>
                obtain ⟨row, db1⟩ := pr
                cases hps : BookingRepository.UpdateBookingPaymentStatus env db1
                    req.BookingID "paid" with
                | error e => simp [hins, hps] at h
                | ok db2 =>
                  cases hst : BookingRepository.UpdateBookingStatus env db2 req.BookingID
                      "confirmed" with
                  | error e => simp [hins, hps, hst] at h
                  | ok db3 =>
                    exact ⟨b, m, row, db1, db2, rfl, hu, ha, rfl, hins, hps, by simp [hins, hps, hst]⟩
        · simp [PaymentService.ProcessPayment, hb, hu, ha] at h
      · simp [PaymentService.ProcessPayment, hb, hu] at h

/-- C15: `ProcessPayment` succeeds only if the booking id resolves to a booking
of the ledger, the caller owns it, the amount equals its total price and the
payment method name resolves to an active payment method.  A booking lookup
that finds nothing gives `booking not found`; with booking, owner and amount in
order, a method lookup that finds nothing (which, for a lookup that does not
fail, means no active method of that name) gives `invalid payment method`.  In
both cases the database is as before and the lookups are the only calls. -/
theorem processPayment_preconditions (env : Env) (db : Database) (userID : Int)
    (req : PaymentRequest) :
    (∀ r, (PaymentService.ProcessPayment env db userID req).result = .ok r →
      ∃ b m, b ∈ db.bookings ∧ b.ID = req.BookingID ∧ b.UserID = userID ∧
        req.Amount = b.TotalPrice ∧
        m ∈ db.paymentMethods ∧ m.Name = req.PaymentMethod ∧ m.IsActive = true) ∧
    (BookingRepository.GetBookingByID env db req.BookingID = .ok none →
      PaymentService.ProcessPayment env db userID req =
        ⟨db, [.getBookingByID req.BookingID], .error "booking not found"⟩) ∧
    (∀ b, BookingRepository.GetBookingByID env db req.BookingID = .ok (some b) →
      b.UserID = userID → req.Amount = b.TotalPrice →
      PaymentRepository.GetPaymentMethodByName env db req.PaymentMethod = .ok none →
      PaymentService.ProcessPayment env db userID req =
        ⟨db, [.getBookingByID req.BookingID, .getPaymentMethodByName req.PaymentMethod],
          .error "invalid payment method"⟩) ∧
    (env.fails (.getBookingByID req.BookingID) = false →
      (BookingRepository.GetBookingByID env db req.BookingID = .ok none ↔
        ∀ b ∈ db.bookings, b.ID ≠ req.BookingID)) ∧
    (env.fails (.getPaymentMethodByName req.PaymentMethod) = false →
      (PaymentRepository.GetPaymentMethodByName env db req.PaymentMethod = .ok none ↔
        ∀ m ∈ db.paymentMethods, m.Name = req.PaymentMethod → m.IsActive = false)) := by
  refine ⟨?_, ?_, ?_, ?_, ?_⟩
  · intro r h
    obtain ⟨b, m, _, _, _, hb, hu, ha, hm, _⟩ := processPayment_ok_inv h
    obtain ⟨hid, hmem⟩ := getBookingByID_some hb
    obtain ⟨hm1, hm2, hm3⟩ := getPaymentMethodByName_some hm
    exact ⟨b, m, hmem, hid, hu, ha, hm1, hm2, hm3⟩
  · intro hb
    simp [PaymentService.ProcessPayment, hb]
  · intro b hb hu ha hm
    simp [PaymentService.ProcessPayment, hb, hu, ha, hm]
  · intro hf
    simp [BookingRepository.GetBookingByID, hf]
  · intro hf
    simp [PaymentRepository.GetPaymentMethodByName, hf]

theorem processPayment_preconditions_witness :
    PaymentService.ProcessPayment okEnv bookedDb 1 { samplePayment with BookingID := 99 } =
      ⟨bookedDb, [.getBookingByID 99], .error "booking not found"⟩ ∧
    PaymentService.ProcessPayment okEnv voucherDb 1 voucherPayment =
      ⟨voucherDb, [.getBookingByID 1, .getPaymentMethodByName "voucher"],
        .error "invalid payment method"⟩ :=
  ⟨(processPayment_preconditions okEnv bookedDb 1 { samplePayment with BookingID := 99 }).2.1
      rfl,
   (processPayment_preconditions okEnv voucherDb 1 voucherPayment).2.2.1
      (voucherDb.bookings.head (by decide)) rfl rfl rfl rfl⟩

/-- C16: when the booking is found and owned by the caller, the amount equals
its total price, the payment method is found and none of the three writes
fails, `ProcessPayment` returns a payment with status `success`, the id of
the booking, the amount and the payment method of the request and the
transaction id built from the booking; the ledger afterwards is the ledger
before with `payment_status = paid` and `status = confirmed` (and the update
time) set on the bookings with that id, the found booking among them, and the
payments table has gained the `success` payment. -/
theorem processPayment_success (env : Env) (db : Database) (userID : Int)
    (req : PaymentRequest) (b : Booking) (m : PaymentMethod)
    (hb : BookingRepository.GetBookingByID env db req.BookingID = .ok (some b))
    (hu : b.UserID = userID) (ha : req.Amount = b.TotalPrice)
    (hm : PaymentRepository.GetPaymentMethodByName env db req.PaymentMethod = .ok (some m))
    (hw1 : env.fails (.createPayment (newPayment userID req b)) = false)
    (hw2 : env.fails (.updateBookingPaymentStatus req.BookingID "paid") = false)
    (hw3 : env.fails (.updateBookingStatus req.BookingID "confirmed") = false) :
    ∃ r, (PaymentService.ProcessPayment env db userID req).result = .ok r ∧
      r.Status = "success" ∧ r.BookingID = b.ID ∧ r.Amount = req.Amount ∧
      r.PaymentMethod = req.PaymentMethod ∧
      r.TransactionID = "TXN-" ++ fmtInt b.ID ++ "-" ++ fmtInt b.UserID ∧
      (PaymentService.ProcessPayment env db userID req).db.bookings =
        db.bookings.map (fun x =>
          if x.ID = b.ID then
            { x with PaymentStatus := "paid", Status := "confirmed", UpdatedAt := env.now }
          else x) ∧
      { b with PaymentStatus := "paid", Status := "confirmed", UpdatedAt := env.now } ∈
        (PaymentService.ProcessPayment env db userID req).db.bookings ∧
      (∀ x ∈ (PaymentService.ProcessPayment env db userID req).db.bookings, x.ID = b.ID →
        x.PaymentStatus = "paid" ∧ x.Status = "confirmed") ∧
      ∃ row, (PaymentService.ProcessPayment env db userID req).db.payments =
          db.payments ++ [row] ∧
        row.ID = r.ID ∧ row.BookingID = b.ID ∧ row.UserID = userID ∧ row.Status = "success" := by
  obtain ⟨hid, hmem⟩ := getBookingByID_some hb
  rw [processPayment_after_checks hb hu ha hm]
  simp only [PaymentRepository.CreatePayment, BookingRepository.UpdateBookingPaymentStatus,
    BookingRepository.UpdateBookingStatus, hw1, hw2, hw3, Bool.false_eq_true, ↓reduceIte]
  have hmap : (db.bookings.map (fun x =>
        if (x.ID == req.BookingID) = true then
          { x with PaymentStatus := "paid", UpdatedAt := env.now } else x)).map (fun x =>
        if (x.ID == req.BookingID) = true then
          { x with Status := "confirmed", UpdatedAt := env.now } else x) =
      db.bookings.map (fun x =>
        if x.ID = b.ID then
          { x with PaymentStatus := "paid", Status := "confirmed", UpdatedAt := env.now }
        else x) := by
    rw [List.map_map]
    apply List.map_congr_left
    intro x _
    simp only [Function.comp, hid, beq_iff_eq]
    by_cases hx : x.ID = req.BookingID
    · simp [hx]
    · simp [hx]
  refine ⟨_, rfl, rfl, hid.symm, rfl, rfl, rfl, hmap, ?_, ?_, _, rfl, rfl, hid.symm, rfl, rfl⟩
  · rw [hmap]
    exact List.mem_map.mpr ⟨b, hmem, by simp⟩
  · rw [hmap]
    intro x hx hxid
    obtain ⟨x0, _, rfl⟩ := List.mem_map.mp hx
    by_cases h0 : x0.ID = b.ID
    · simp [h0]
    · simp only [h0, ↓reduceIte] at hxid

theorem processPayment_success_witness :
    ∃ r, (PaymentService.ProcessPayment okEnv bookedDb 1 samplePayment).result = .ok r ∧
      r.Status = "success" ∧ r.BookingID = 1 ∧ r.Amount = 70000 ∧ r.PaymentMethod = "cash" ∧
      r.TransactionID = "TXN-1-1" ∧
      (PaymentService.ProcessPayment okEnv bookedDb 1 samplePayment).db.bookings.map
        (fun x => (x.ID, x.Status, x.PaymentStatus)) = [(1, "confirmed", "paid")] := by
  obtain ⟨r, h1, h2, h3, h4, h5, h6, _⟩ :=
    processPayment_success okEnv bookedDb 1 samplePayment (bookedDb.bookings.head (by decide))
      (bookedDb.paymentMethods.head (by decide)) rfl rfl rfl rfl rfl rfl rfl
  exact ⟨r, h1, h2, h3, h4, h5, by rw [h6]; decide, by decide⟩

/-! ## Pagination -/

theorem wrapInt_of_range {x : Int} (h1 : -9223372036854775808 ≤ x) (h2 : x ≤ maxInt) :
    wrapInt x = x := by
  unfold wrapInt
  unfold maxInt at h2
  omega

theorem effectivePage_ge_one (page : Int) : 1 ≤ effectivePage page := by
  unfold effectivePage
  split <;> omega

theorem effectiveLimit_range (limit : Int) :
    1 ≤ effectiveLimit limit ∧ effectiveLimit limit ≤ 100 := by
  unfold effectiveLimit
  by_cases h : limit < 1
  · simp [h]
  · by_cases h2 : limit > 100
    · simp [h2]
    · simp only [h, h2, decide_False, Bool.or_self, Bool.false_eq_true, ↓reduceIte]
      omega

/-- What a successful `GetUserBookings` returns, in terms of what its
repository calls returned. -/
theorem getUserBookings_ok_inv {env : Env} {db : Database} {userID page limit : Int}
    {resp : PaginatedResponse Booking}
    (h : (BookingService.GetUserBookings env db userID page limit).result = .ok resp) :
    ∃ bookings total,
      BookingRepository.GetUserBookings env db userID (effectivePage page)
        (effectiveLimit limit) = .ok (bookings, total) ∧
      (enrichBookings env db bookings).2 = .ok resp.Data ∧
      resp.Page = effectivePage page ∧ resp.Limit = effectiveLimit limit ∧
      resp.Total = total ∧ resp.TotalPages = totalPages total (effectiveLimit limit) := by
  unfold BookingService.GetUserBookings at h
  split at h
  · simp at h
  · rename_i bookings total hrepo
    split at h
    · simp at h
    · rename_i calls enriched henr
      simp only [Except.ok.injEq] at h
      subst h
      exact ⟨bookings, total, hrepo, by rw [henr], rfl, rfl, rfl, rfl⟩

/-- What a successful `GetAllCinemas` returns, in terms of what its repository
call returned. -/
theorem getAllCinemas_ok_inv {env : Env} {db : Database} {page limit : Int}
    {filters : CinemaFilters} {resp : PaginatedResponse Cinema}
    (h : (CinemaService.GetAllCinemas env db page limit filters).result = .ok resp) :
    ∃ total,
      CinemaRepository.GetAllCinemas env db (effectivePage page) (effectiveLimit limit)
        filters = .ok (resp.Data, total) ∧
      resp.Page = effectivePage page ∧ resp.Limit = effectiveLimit limit ∧
      resp.Total = total ∧ resp.TotalPages = totalPages total (effectiveLimit limit) := by
  unfold CinemaService.GetAllCinemas at h
  split at h
  · simp at h
  · rename_i cinemas total hrepo
    simp only [Except.ok.injEq] at h
    subst h
    exact ⟨total, hrepo, rfl, rfl, rfl, rfl⟩

theorem getUserBookings_trace (env : Env) (db : Database) (userID page limit : Int) :
    ∃ rest, (BookingService.GetUserBookings env db userID page limit).trace =
      .getUserBookings userID (effectivePage page) (effectiveLimit limit) :: rest := by
  unfold BookingService.GetUserBookings
  split
  · exact ⟨_, rfl⟩
  · split
    · exact ⟨_, rfl⟩
    · exact ⟨_, rfl⟩

theorem getAllCinemas_trace (env : Env) (db : Database) (page limit : Int)
    (filters : CinemaFilters) :
    (CinemaService.GetAllCinemas env db page limit filters).trace =
      [.getAllCinemas (effectivePage page) (effectiveLimit limit) filters] := by
  unfold CinemaService.GetAllCinemas
  split <;> rfl

/-- C18, as stated, fails in its last part: the offset can be negative.  For
page 9223372036854775807 and limit 100 the clamping keeps both values, and
`(page - 1) * limit` wraps around to -200; the database rejects the negative
offset and both listings return an error. -/
theorem pageOffset_wraps_around :
    effectivePage 9223372036854775807 = 9223372036854775807 ∧
    effectiveLimit 100 = 100 ∧
    pageOffset (effectivePage 9223372036854775807) (effectiveLimit 100) = -200 ∧
    (BookingService.GetUserBookings okEnv bookedDb 1 9223372036854775807 100).result =
      .error ("failed to get user bookings: failed to get user bookings: "
        ++ "LIMIT or OFFSET must not be negative") ∧
    (CinemaService.GetAllCinemas okEnv bookedDb 9223372036854775807 100 noFilters).result =
      .error ("failed to get cinemas: failed to get cinemas: "
        ++ "LIMIT or OFFSET must not be negative") :=
  ⟨by decide, by decide, by decide, rfl, rfl⟩

/-- C18, amended: for every page and limit, `GetUserBookings` and
`GetAllCinemas` call their repository with, and report, the effective page
(`page` if `page >= 1`, else 1) and the effective limit (`limit` if
`1 <= limit <= 100`, else 10); the effective limit lies in [1,100], so the
divisor of the total-pages computation is not zero, and the effective page is
at least 1; and the repository offset is `(page - 1) * limit`, which is not
negative, whenever that product does not exceed the largest `int`. -/
theorem pagination_clamping (env : Env) (db : Database) (userID page limit : Int)
    (filters : CinemaFilters) :
    effectivePage page = (if page ≥ 1 then page else 1) ∧
    effectiveLimit limit = (if 1 ≤ limit ∧ limit ≤ 100 then limit else 10) ∧
    1 ≤ effectivePage page ∧
    1 ≤ effectiveLimit limit ∧ effectiveLimit limit ≤ 100 ∧ effectiveLimit limit ≠ 0 ∧
    (∃ rest, (BookingService.GetUserBookings env db userID page limit).trace =
      .getUserBookings userID (effectivePage page) (effectiveLimit limit) :: rest) ∧
    (CinemaService.GetAllCinemas env db page limit filters).trace =
      [.getAllCinemas (effectivePage page) (effectiveLimit limit) filters] ∧
    (∀ resp, (BookingService.GetUserBookings env db userID page limit).result = .ok resp →
      resp.Page = effectivePage page ∧ resp.Limit = effectiveLimit limit) ∧
    (∀ resp, (CinemaService.GetAllCinemas env db page limit filters).result = .ok resp →
      resp.Page = effectivePage page ∧ resp.Limit = effectiveLimit limit) ∧
    ((effectivePage page - 1) * effectiveLimit limit ≤ maxInt →
      pageOffset (effectivePage page) (effectiveLimit limit) =
        (effectivePage page - 1) * effectiveLimit limit ∧
      0 ≤ pageOffset (effectivePage page) (effectiveLimit limit)) := by
  have hp := effectivePage_ge_one page
  obtain ⟨hl1, hl2⟩ := effectiveLimit_range limit
  refine ⟨?_, ?_, hp, hl1, hl2, by omega, getUserBookings_trace env db userID page limit,
    getAllCinemas_trace env db page limit filters, ?_, ?_, ?_⟩
  · unfold effectivePage
    by_cases h : page < 1
    · simp only [h, ↓reduceIte, ge_iff_le]
      rw [if_neg (by omega)]
    · simp only [h, ↓reduceIte, ge_iff_le]
      rw [if_pos (by omega)]
  · unfold effectiveLimit
    by_cases h : limit < 1
    · simp only [h, decide_True, Bool.true_or, ↓reduceIte]
      rw [if_neg (by omega)]
    · by_cases h2 : limit > 100
      · simp only [h2, decide_True, Bool.or_true, ↓reduceIte]
        rw [if_neg (by omega)]
      · simp only [h, h2, decide_False, Bool.or_self, Bool.false_eq_true, ↓reduceIte]
        rw [if_pos (by omega)]
  · intro resp h
    obtain ⟨_, _, _, _, h1, h2, _⟩ := getUserBookings_ok_inv h
    exact ⟨h1, h2⟩
  · intro resp h
    obtain ⟨_, _, h1, h2, _⟩ := getAllCinemas_ok_inv h
    exact ⟨h1, h2⟩
  · intro hb
    have hm : maxInt = 9223372036854775807 := rfl
    have hprod : 0 ≤ (effectivePage page - 1) * effectiveLimit limit :=
      mul_nonneg (by omega) (by omega)
    have hle : effectivePage page - 1 ≤ (effectivePage page - 1) * effectiveLimit limit := by
      nlinarith
    have e1 : wrapInt (effectivePage page - 1) = effectivePage page - 1 :=
      wrapInt_of_range (by omega) (by omega)
    have e2 : wrapInt ((effectivePage page - 1) * effectiveLimit limit) =
        (effectivePage page - 1) * effectiveLimit limit :=
      wrapInt_of_range (by omega) hb
    unfold pageOffset goMul goSub
    rw [e1, e2]
    exact ⟨rfl, hprod⟩

theorem pagination_clamping_witness :
    effectivePage 0 = 1 ∧ effectiveLimit 500 = 10 ∧
    pageOffset (effectivePage 3) (effectiveLimit 20) = 40 ∧
    0 ≤ pageOffset (effectivePage 3) (effectiveLimit 20) :=
  ⟨by decide, by decide,
    (((pagination_clamping okEnv sampleDb 1 3 20 noFilters).2.2.2.2.2.2.2.2.2.2
      (by decide)).1).trans (by decide),
    ((pagination_clamping okEnv sampleDb 1 3 20 noFilters).2.2.2.2.2.2.2.2.2.2
      (by decide)).2⟩

/-! ## Availability of a showing -/

theorem separateSeats_foldl (rows avail unavail : List SeatAvailability) :
    rows.foldl
      (fun acc sa => if sa.IsAvailable then (acc.1 ++ [sa], acc.2) else (acc.1, acc.2 ++ [sa]))
      (avail, unavail) =
      (avail ++ rows.filter (fun sa => sa.IsAvailable),
        unavail ++ rows.filter (fun sa => !sa.IsAvailable)) := by
  induction rows generalizing avail unavail with
  | nil => simp
  | cons sa rest ih =>
    simp only [List.foldl_cons]
    by_cases h : sa.IsAvailable = true
    · simp [h, ih]
    · simp [h, ih]

theorem separateSeats_eq (rows : List SeatAvailability) :
    separateSeats rows =
      (rows.filter (fun sa => sa.IsAvailable), rows.filter (fun sa => !sa.IsAvailable)) := by
  unfold separateSeats
  rw [separateSeats_foldl]
  simp

/-- C19: a date that `time.Parse` rejects gives an `invalid date format` error
with no repository call.  For a well-formed date and rows R returned by the
store, `GetSeatAvailability` returns the rows of R with `is_available = true`
as `AvailableSeats` and those with `is_available = false` as
`UnavailableSeats`, each in R's order; every row of R is in one of the two
lists and no row is in both; the two totals are the lengths of the two lists
and add up to the length of R. -/
theorem getSeatAvailability_partition (env : Env) (db : Database) (cinemaID : Int)
    (dateStr timeStr : String) :
    (parseDate dateStr = none →
      SeatService.GetSeatAvailability env db cinemaID dateStr timeStr =
        ⟨db, [], .error ("invalid date format: " ++ env.timeParseError dateStr)⟩) ∧
    (∀ date R, parseDate dateStr = some date →
      SeatRepository.GetSeatAvailability env db cinemaID date timeStr = .ok R →
      ∃ resp,
        SeatService.GetSeatAvailability env db cinemaID dateStr timeStr =
          ⟨db, [.getSeatAvailability cinemaID date timeStr], .ok resp⟩ ∧
        resp.CinemaID = cinemaID ∧ resp.Date = dateStr ∧ resp.Time = timeStr ∧
        resp.AvailableSeats = R.filter (fun sa => sa.IsAvailable) ∧
        resp.UnavailableSeats = R.filter (fun sa => !sa.IsAvailable) ∧
        (resp.AvailableSeats ++ resp.UnavailableSeats).Perm R ∧
        (∀ sa ∈ R, (sa ∈ resp.AvailableSeats ∧ sa ∉ resp.UnavailableSeats) ∨
          (sa ∉ resp.AvailableSeats ∧ sa ∈ resp.UnavailableSeats)) ∧
        resp.TotalAvailable = resp.AvailableSeats.length ∧
        resp.TotalUnavailable = resp.UnavailableSeats.length ∧
        resp.TotalAvailable + resp.TotalUnavailable = R.length) := by
  constructor
  · intro hd
    simp only [SeatService.GetSeatAvailability, hd]
  · intro date R hd hR
    have hperm : (R.filter (fun sa => sa.IsAvailable) ++
        R.filter (fun sa => !sa.IsAvailable)).Perm R :=
      List.filter_append_perm (fun sa => sa.IsAvailable) R
    refine ⟨{ CinemaID := cinemaID
              Date := dateStr
              Time := timeStr
              AvailableSeats := (separateSeats R).1
              UnavailableSeats := (separateSeats R).2
              TotalAvailable := ((separateSeats R).1.length : Nat)
              TotalUnavailable := ((separateSeats R).2.length : Nat) },
      by simp only [SeatService.GetSeatAvailability, hd, hR], rfl, rfl, rfl, ?_, ?_,
      ?_, ?_, rfl, rfl, ?_⟩
    · simp only [separateSeats_eq]
    · simp only [separateSeats_eq]
    · simp only [separateSeats_eq]
      exact hperm
    · intro sa hsa
      simp only [separateSeats_eq, List.mem_filter]
      by_cases h : sa.IsAvailable = true
      · left
        simp [h, hsa]
      · right
        simp [h, hsa]
    · simp only [separateSeats_eq]
      have := hperm.length_eq
      simp only [List.length_append] at this
      exact_mod_cast this

theorem getSeatAvailability_partition_witness :
    (∃ resp, (SeatService.GetSeatAvailability okEnv twoSeatDb 1 "2026-01-15" "19:00").result =
        .ok resp ∧
      resp.AvailableSeats.map (fun sa => sa.SeatID) = [1] ∧
      resp.UnavailableSeats.map (fun sa => sa.SeatID) = [2] ∧
      resp.TotalAvailable = 1 ∧ resp.TotalUnavailable = 1) ∧
    SeatService.GetSeatAvailability okEnv twoSeatDb 1 "15-01-2026" "19:00" =
      ⟨twoSeatDb, [], .error ("invalid date format: " ++ "cannot parse")⟩ :=
  ⟨⟨_, rfl, rfl, rfl, rfl, rfl⟩,
    (getSeatAvailability_partition okEnv twoSeatDb 1 "15-01-2026" "19:00").1 (by decide)⟩

/-! ## The booking lifecycle -/

theorem runOps_append (ops : List ServiceOp) (op : ServiceOp) (db : Database) :
    runOps (ops ++ [op]) db = ServiceOp.apply (runOps ops db) op := by
  simp [runOps, List.foldl_append]

/-- C20, as stated, fails: after `CreateBooking` and
`UpdateBookingStatus(1, "confirmed")` on the sample database, booking 1 is
`confirmed` although no `ProcessPayment` was made at all. -/
theorem confirmed_without_payment :
    ¬ ∀ (ops : List ServiceOp) (db : Database),
        (∀ b ∈ db.bookings, b.Status ≠ "confirmed" ∧ b.PaymentStatus ≠ "paid") →
        ∀ b ∈ (runOps ops db).bookings, b.Status = "confirmed" ∨ b.PaymentStatus = "paid" →
          PaidSuccessfully ops db b.ID := by
  intro hall
  have hmem : (runOps [.createBooking okEnv 1 sampleReq,
      .updateBookingStatus okEnv 1 "confirmed"] sampleDb).bookings.head (by decide) ∈
      (runOps [.createBooking okEnv 1 sampleReq,
        .updateBookingStatus okEnv 1 "confirmed"] sampleDb).bookings := List.head_mem _
  obtain ⟨before, env, userID, req, after, r, hops, _, _⟩ :=
    hall _ sampleDb (by intro b hb; simp [sampleDb] at hb) _ hmem (Or.inl (by decide))
  have hin : ServiceOp.processPayment env userID req ∈
      [ServiceOp.createBooking okEnv 1 sampleReq,
        ServiceOp.updateBookingStatus okEnv 1 "confirmed"] := by
    rw [hops]; simp
  simp at hin

/-- A booking can also be `paid` without any successful `ProcessPayment`: when
the last write of `ProcessPayment` fails, the call returns an error and the
booking stays `paid` and `pending`. -/
theorem paid_without_successful_payment :
    (runOps [.createBooking okEnv 1 sampleReq, .processPayment statusFailsEnv 1 samplePayment]
      sampleDb).bookings.map (fun b => (b.ID, b.Status, b.PaymentStatus)) =
      [(1, "pending", "paid")] ∧
    (PaymentService.ProcessPayment statusFailsEnv bookedDb 1 samplePayment).result =
      .error "failed to update booking status: failed to update booking status: connection refused" :=
  ⟨by decide, rfl⟩

/-- The ledger after `ProcessPayment`: as before; or, when the call made its
last write, with the bookings of the request's id marked paid; or, when the
call returned a response, with them marked paid and confirmed. -/
theorem processPayment_bookings_cases (env : Env) (db : Database) (userID : Int)
    (req : PaymentRequest) :
    (PaymentService.ProcessPayment env db userID req).db.bookings = db.bookings ∨
    (RepoCall.updateBookingStatus req.BookingID "confirmed" ∈
        (PaymentService.ProcessPayment env db userID req).trace ∧
      (PaymentService.ProcessPayment env db userID req).db.bookings =
        db.bookings.map (fun b =>
          if b.ID == req.BookingID then
            { b with PaymentStatus := "paid", UpdatedAt := env.now }
          else b)) ∨
    (RepoCall.updateBookingStatus req.BookingID "confirmed" ∈
        (PaymentService.ProcessPayment env db userID req).trace ∧
      (∃ r, (PaymentService.ProcessPayment env db userID req).result = .ok r) ∧
      (PaymentService.ProcessPayment env db userID req).db.bookings =
        (db.bookings.map (fun b =>
          if b.ID == req.BookingID then
            { b with PaymentStatus := "paid", UpdatedAt := env.now }
          else b)).map (fun b =>
          if b.ID == req.BookingID then
            { b with Status := "confirmed", UpdatedAt := env.now }
          else b)) := by
  cases hb : BookingRepository.GetBookingByID env db req.BookingID with
  | error e => simp [PaymentService.ProcessPayment, hb]
  | ok ob =>
    cases ob with
    | none => simp [PaymentService.ProcessPayment, hb]
    | some booking =>
      by_cases hu : booking.UserID = userID
      · by_cases ha : req.Amount = booking.TotalPrice
        · cases hm : PaymentRepository.GetPaymentMethodByName env db req.PaymentMethod with
          | error e => simp [PaymentService.ProcessPayment, hb, hu, ha, hm]
          | ok om =>
            cases om with
            | none => simp [PaymentService.ProcessPayment, hb, hu, ha, hm]
            | some method =>
              rw [processPayment_after_checks hb hu ha hm]
              simp only [PaymentRepository.CreatePayment,
                BookingRepository.UpdateBookingPaymentStatus,
                BookingRepository.UpdateBookingStatus]
              by_cases f1 : env.fails (.createPayment (newPayment userID req booking)) = true
              · simp [f1]
              · by_cases f2 : env.fails (.updateBookingPaymentStatus req.BookingID "paid") = true
                · simp [f1, f2]
                · by_cases f3 : env.fails (.updateBookingStatus req.BookingID "confirmed") = true
                  · right; left
                    simp [f1, f2, f3]
                  · right; right
                    simp [f1, f2, f3]
        · simp [PaymentService.ProcessPayment, hb, hu, ha]
      · simp [PaymentService.ProcessPayment, hb, hu]

theorem markedPaid_append {ops : List ServiceOp} {db : Database} {id : Int}
    (h : MarkedPaid ops db id) (op : ServiceOp) : MarkedPaid (ops ++ [op]) db id := by
  obtain ⟨before, env, userID, req, after, hops, hid, htr⟩ := h
  exact ⟨before, env, userID, req, after ++ [op], by simp [hops], hid, htr⟩

theorem paidSuccessfully_append {ops : List ServiceOp} {db : Database} {id : Int}
    (h : PaidSuccessfully ops db id) (op : ServiceOp) :
    PaidSuccessfully (ops ++ [op]) db id := by
  obtain ⟨before, env, userID, req, after, r, hops, hid, hr⟩ := h
  exact ⟨before, env, userID, req, after ++ [op], r, by simp [hops], hid, hr⟩

theorem confirmedByUpdate_append {ops : List ServiceOp} {id : Int}
    (h : ConfirmedByUpdate ops id) (op : ServiceOp) : ConfirmedByUpdate (ops ++ [op]) id := by
  obtain ⟨before, env, after, hops⟩ := h
  exact ⟨before, env, after ++ [op], by simp [hops]⟩
/-- `CreateBooking` leaves the ledger as it was or appends one booking, which is
`pending` with payment status `pending`. -/
theorem createBooking_bookings (env : Env) (db : Database) (userID : Int)
    (req : BookingRequest) :
    (BookingService.CreateBooking env db userID req).db.bookings = db.bookings ∨
    ∃ row, (BookingService.CreateBooking env db userID req).db.bookings =
        db.bookings ++ [row] ∧
      row.Status = "pending" ∧ row.PaymentStatus = "pending" := by
  rcases createBooking_cases env db userID req with ⟨hdb, _⟩ |
    ⟨d, seat, cinema, row, db1, hd, hs, hc, hb, hk, hins, hrest⟩
  · left; rw [hdb]
  · obtain ⟨hrow, hdb1⟩ := bookingRepo_createBooking_ok hins
    right
    refine ⟨row, ?_, by rw [hrow]; rfl, by rw [hrow]; rfl⟩
    rcases hrest with ⟨hdb, _⟩ | ⟨hupd, _⟩
    · rw [hdb, hdb1]
    · rw [updateSeatAvailability_ok hupd, hdb1]

/-- `UpdateBookingStatus` leaves the ledger as it was or sets the status (and
the update time) of the bookings with the given id. -/
theorem updateBookingStatus_bookings (env : Env) (db : Database) (id : Int)
    (status : String) :
    (BookingService.UpdateBookingStatus env db id status).db.bookings = db.bookings ∨
    (BookingService.UpdateBookingStatus env db id status).db.bookings =
      db.bookings.map (fun b =>
        if b.ID == id then { b with Status := status, UpdatedAt := env.now } else b) := by
  unfold BookingService.UpdateBookingStatus BookingRepository.UpdateBookingStatus
  by_cases f : env.fails (.updateBookingStatus id status) = true
  · left; simp [f]
  · right; simp [f]

/-- C20, amended: in every sequence of `CreateBooking`, `UpdateBookingStatus`
and `ProcessPayment` calls, a booking whose payment status is `paid` at the end
either has an id that was already paid at the start or has had a
`ProcessPayment` applied to its id that made its last write (it succeeded, or
failed only at that write); and a booking whose status is `confirmed` at the
end either has an id that was already confirmed at the start, or has had a
successful `ProcessPayment` applied to its id, or has had an
`UpdateBookingStatus(id, "confirmed")` applied to its id. -/
theorem lifecycle_paid_confirmed (ops : List ServiceOp) (db : Database) :
    ∀ b ∈ (runOps ops db).bookings,
      (b.PaymentStatus = "paid" →
        (∃ b0 ∈ db.bookings, b0.ID = b.ID ∧ b0.PaymentStatus = "paid") ∨
          MarkedPaid ops db b.ID) ∧
      (b.Status = "confirmed" →
        (∃ b0 ∈ db.bookings, b0.ID = b.ID ∧ b0.Status = "confirmed") ∨
          PaidSuccessfully ops db b.ID ∨ ConfirmedByUpdate ops b.ID) := by
  induction ops using List.reverseRecOn with
  | nil =>
    intro b hb
    exact ⟨fun h => Or.inl ⟨b, hb, rfl, h⟩, fun h => Or.inl ⟨b, hb, rfl, h⟩⟩
  | append_singleton ops op ih =>
    -- a booking that was in the ledger before the last operation with the same fields
    have keep : ∀ a ∈ (runOps ops db).bookings, ∀ b : Booking, a.ID = b.ID →
        (b.PaymentStatus = "paid" → a.PaymentStatus = "paid" ∨ MarkedPaid (ops ++ [op]) db b.ID) →
        (b.Status = "confirmed" → a.Status = "confirmed" ∨
          PaidSuccessfully (ops ++ [op]) db b.ID ∨ ConfirmedByUpdate (ops ++ [op]) b.ID) →
        (b.PaymentStatus = "paid" →
          (∃ b0 ∈ db.bookings, b0.ID = b.ID ∧ b0.PaymentStatus = "paid") ∨
            MarkedPaid (ops ++ [op]) db b.ID) ∧
        (b.Status = "confirmed" →
          (∃ b0 ∈ db.bookings, b0.ID = b.ID ∧ b0.Status = "confirmed") ∨
            PaidSuccessfully (ops ++ [op]) db b.ID ∨ ConfirmedByUpdate (ops ++ [op]) b.ID) := by
      intro a ha b hid hp hc
      obtain ⟨ihp, ihc⟩ := ih a ha
      constructor
      · intro hpaid
        rcases hp hpaid with h | h
        · rcases ihp h with ⟨b0, hb0, h1, h2⟩ | h
          · exact Or.inl ⟨b0, hb0, h1.trans hid, h2⟩
          · exact Or.inr (hid ▸ markedPaid_append h op)
        · exact Or.inr h
      · intro hconf
        rcases hc hconf with h | h
        · rcases ihc h with ⟨b0, hb0, h1, h2⟩ | h | h
          · exact Or.inl ⟨b0, hb0, h1.trans hid, h2⟩
          · exact Or.inr (Or.inl (hid ▸ paidSuccessfully_append h op))
          · exact Or.inr (Or.inr (hid ▸ confirmedByUpdate_append h op))
        · exact Or.inr h
    intro b hb
    rw [runOps_append] at hb
    cases op with
    | createBooking env userID req =>
      simp only [ServiceOp.apply] at hb
      rcases createBooking_bookings env (runOps ops db) userID req with h | ⟨row, h, hs, hp⟩
      · rw [h] at hb
        exact keep b hb b rfl (fun x => Or.inl x) (fun x => Or.inl x)
      · rw [h, List.mem_append, List.mem_singleton] at hb
        rcases hb with hb | hb
        · exact keep b hb b rfl (fun x => Or.inl x) (fun x => Or.inl x)
        · subst hb
          constructor
          · intro hx; rw [hp] at hx; exact absurd hx (by decide)
          · intro hx; rw [hs] at hx; exact absurd hx (by decide)
    | updateBookingStatus env id status =>
      simp only [ServiceOp.apply] at hb
      rcases updateBookingStatus_bookings env (runOps ops db) id status with h | h
      · rw [h] at hb
        exact keep b hb b rfl (fun x => Or.inl x) (fun x => Or.inl x)
      · rw [h, List.mem_map] at hb
        obtain ⟨a, ha, rfl⟩ := hb
        by_cases hid : a.ID = id
        · have hbeq : (a.ID == id) = true := by simp [hid]
          rw [if_pos hbeq]
          refine keep a ha _ rfl (fun x => Or.inl x) ?_
          intro hx
          have hst : status = "confirmed" := hx
          exact Or.inr (Or.inr ⟨ops, env, [], by rw [hst]; exact congrArg _ (by rw [← hid])⟩)
        · simp only [beq_iff_eq, hid, ↓reduceIte]
          exact keep a ha a rfl (fun x => Or.inl x) (fun x => Or.inl x)
    | processPayment env userID req =>
      simp only [ServiceOp.apply] at hb
      rcases processPayment_bookings_cases env (runOps ops db) userID req with
        h | ⟨htr, h⟩ | ⟨htr, ⟨r, hr⟩, h⟩
      · rw [h] at hb
        exact keep b hb b rfl (fun x => Or.inl x) (fun x => Or.inl x)
      · rw [h, List.mem_map] at hb
        obtain ⟨a, ha, rfl⟩ := hb
        by_cases hid : a.ID = req.BookingID
        · have hbeq : (a.ID == req.BookingID) = true := by simp [hid]
          rw [if_pos hbeq]
          refine keep a ha _ rfl ?_ (fun x => Or.inl x)
          intro _
          exact Or.inr ⟨ops, env, userID, req, [], rfl, hid.symm, by rw [hid]; exact htr⟩
        · simp only [beq_iff_eq, hid, ↓reduceIte]
          exact keep a ha a rfl (fun x => Or.inl x) (fun x => Or.inl x)
      · rw [h, List.map_map, List.mem_map] at hb
        obtain ⟨a, ha, rfl⟩ := hb
        by_cases hid : a.ID = req.BookingID
        · have hbeq : (a.ID == req.BookingID) = true := by simp [hid]
          simp only [Function.comp]
          rw [if_pos hbeq, if_pos hbeq]
          refine keep a ha _ rfl ?_ ?_
          · intro _
            exact Or.inr ⟨ops, env, userID, req, [], rfl, hid.symm, by rw [hid]; exact htr⟩
          · intro _
            exact Or.inr (Or.inl ⟨ops, env, userID, req, [], r, rfl, hid.symm, hr⟩)
        · simp only [Function.comp, beq_iff_eq, hid, ↓reduceIte]
          exact keep a ha a rfl (fun x => Or.inl x) (fun x => Or.inl x)

theorem lifecycle_paid_confirmed_witness :
    (runOps paidOps sampleDb).bookings.map (fun b => (b.ID, b.Status, b.PaymentStatus)) =
      [(1, "confirmed", "paid")] ∧
    ((∃ b0 ∈ sampleDb.bookings, b0.ID = 1 ∧ b0.PaymentStatus = "paid") ∨
      MarkedPaid paidOps sampleDb 1) ∧
    ((∃ b0 ∈ sampleDb.bookings, b0.ID = 1 ∧ b0.Status = "confirmed") ∨
      PaidSuccessfully paidOps sampleDb 1 ∨ ConfirmedByUpdate paidOps 1) :=
  ⟨by decide,
   (lifecycle_paid_confirmed paidOps sampleDb
      ((runOps paidOps sampleDb).bookings.head (by decide)) (List.head_mem _)).1 rfl,
   (lifecycle_paid_confirmed paidOps sampleDb
      ((runOps paidOps sampleDb).bookings.head (by decide)) (List.head_mem _)).2 rfl⟩

/-! ## Partial failures are not rolled back -/

/-- C22: when `CreateBooking` has passed its checks, the ledger insert returns
the stored booking and the availability update then returns an error,
`CreateBooking` returns `failed to update seat availability: <error>` and no
response; the database it leaves is the one after the insert: the ledger is
the ledger before followed by the new booking, whose status is `pending`, and
the `seat_availability` table (the flag of the showing included) is as it was
before the call. -/
theorem createBooking_no_rollback (env : Env) (db db1 : Database) (userID : Int)
    (req : BookingRequest) (d : Date) (seat : Seat) (cinema : Cinema) (row : Booking)
    (err : String)
    (hd : parseDate req.Date = some d)
    (hs : SeatRepository.GetSeatByID env db req.SeatID = .ok (some seat))
    (hc : CinemaRepository.GetCinemaByID env db req.CinemaID = .ok (some cinema))
    (hb : seat.CinemaID = req.CinemaID)
    (hk : BookingRepository.CheckSeatBooked env db req.SeatID d req.Time = .ok false)
    (hins : BookingRepository.CreateBooking env db (newBooking userID req d seat) =
      .ok (row, db1))
    (hupd : SeatRepository.UpdateSeatAvailability env db1 req.SeatID d req.Time false =
      .error err) :
    (BookingService.CreateBooking env db userID req).result =
      .error ("failed to update seat availability: " ++ err) ∧
    (BookingService.CreateBooking env db userID req).db = db1 ∧
    (BookingService.CreateBooking env db userID req).db.bookings = db.bookings ++ [row] ∧
    row.ID = db.nextBookingID ∧ row.UserID = userID ∧ row.SeatID = req.SeatID ∧
    row.ShowDate = d ∧ row.ShowTime = req.Time ∧
    row.Status = "pending" ∧ row.PaymentStatus = "pending" ∧
    (BookingService.CreateBooking env db userID req).db.seatAvailability =
      db.seatAvailability := by
  obtain ⟨hrow, hdb1⟩ := bookingRepo_createBooking_ok hins
  rw [createBooking_after_checks hd hs hc hb hk]
  simp only [hins, hupd]
  subst hrow
  subst hdb1
  refine ⟨?_, ?_, ?_, ?_, ?_, ?_, ?_, ?_, ?_, ?_, ?_⟩ <;> trivial

theorem createBooking_no_rollback_witness :
    (BookingService.CreateBooking availabilityFailsEnv sampleDb 1 sampleReq).result =
      .error ("failed to update seat availability: "
        ++ "failed to update seat availability: connection refused") ∧
    (BookingService.CreateBooking availabilityFailsEnv sampleDb 1 sampleReq).db.bookings.map
      (fun b => (b.ID, b.UserID, b.SeatID, b.Status)) = [(1, 1, 1, "pending")] ∧
    (BookingService.CreateBooking availabilityFailsEnv sampleDb 1 sampleReq).db.seatAvailability
      = sampleDb.seatAvailability := by
  obtain ⟨h1, _, _, _, _, _, _, _, _, _, h3⟩ :=
    createBooking_no_rollback availabilityFailsEnv sampleDb
      (BookingService.CreateBooking availabilityFailsEnv sampleDb 1 sampleReq).db 1 sampleReq
      jan15 seatA1 cinemaXXI
      { newBooking 1 sampleReq jan15 seatA1 with
        ID := 1, BookingDate := 100, CreatedAt := 100, UpdatedAt := 100 }
      "failed to update seat availability: connection refused"
      (by decide) rfl rfl rfl rfl rfl rfl
  exact ⟨h1, by decide, h3⟩

/-- C23, as stated, fails: "the booking is neither paid nor confirmed" does not
hold for a booking that was paid before.  On the sample database, user 1
books and pays; a second `ProcessPayment` for the same booking passes its
checks (the status is never looked at), inserts a second `success` payment
and fails at the payment-status update: it returns the error, both payments
are in the table, and booking 1 is `confirmed` and `paid`. -/
theorem processPayment_failed_update_still_paid :
    (PaymentService.ProcessPayment paymentStatusFailsEnv
        (PaymentService.ProcessPayment okEnv bookedDb 1 samplePayment).db 1
        samplePayment).result =
      .error ("failed to update booking payment status: "
        ++ "failed to update booking payment status: connection refused") ∧
    (PaymentService.ProcessPayment paymentStatusFailsEnv
        (PaymentService.ProcessPayment okEnv bookedDb 1 samplePayment).db 1
        samplePayment).trace =
      [.getBookingByID 1, .getPaymentMethodByName "cash",
        .createPayment (newPayment 1 samplePayment
          ((PaymentService.ProcessPayment okEnv bookedDb 1 samplePayment).db.bookings.head
            (by decide))),
        .updateBookingPaymentStatus 1 "paid"] ∧
    (PaymentService.ProcessPayment paymentStatusFailsEnv
        (PaymentService.ProcessPayment okEnv bookedDb 1 samplePayment).db 1
        samplePayment).db.payments.map (fun p => (p.ID, p.BookingID, p.Status)) =
      [(1, 1, "success"), (2, 1, "success")] ∧
    (PaymentService.ProcessPayment paymentStatusFailsEnv
        (PaymentService.ProcessPayment okEnv bookedDb 1 samplePayment).db 1
        samplePayment).db.bookings.map (fun x => (x.ID, x.Status, x.PaymentStatus)) =
      [(1, "confirmed", "paid")] ∧
    ¬ ∀ (env : Env) (db db1 : Database) (userID : Int) (req : PaymentRequest) (b : Booking)
        (m : PaymentMethod) (row : Payment) (err : String),
      BookingRepository.GetBookingByID env db req.BookingID = .ok (some b) →
      b.UserID = userID → req.Amount = b.TotalPrice →
      PaymentRepository.GetPaymentMethodByName env db req.PaymentMethod = .ok (some m) →
      PaymentRepository.CreatePayment env db (newPayment userID req b) = .ok (row, db1) →
      BookingRepository.UpdateBookingPaymentStatus env db1 req.BookingID "paid" = .error err →
      ∀ x ∈ (PaymentService.ProcessPayment env db userID req).db.bookings,
        x.ID = req.BookingID → x.PaymentStatus ≠ "paid" ∧ x.Status ≠ "confirmed" := by
  refine ⟨rfl, rfl, by decide, by decide, ?_⟩
  intro hall
  have hne : (PaymentService.ProcessPayment okEnv bookedDb 1 samplePayment).db.bookings ≠ [] := by
    decide
  have hmem : (PaymentService.ProcessPayment okEnv bookedDb 1 samplePayment).db.bookings.head hne ∈
      (PaymentService.ProcessPayment paymentStatusFailsEnv
        (PaymentService.ProcessPayment okEnv bookedDb 1 samplePayment).db 1
        samplePayment).db.bookings := List.Mem.head _
  have h := hall paymentStatusFailsEnv
    (PaymentService.ProcessPayment okEnv bookedDb 1 samplePayment).db
    { (PaymentService.ProcessPayment okEnv bookedDb 1 samplePayment).db with
      payments := (PaymentService.ProcessPayment okEnv bookedDb 1 samplePayment).db.payments ++
        [{ newPayment 1 samplePayment
            ((PaymentService.ProcessPayment okEnv bookedDb 1 samplePayment).db.bookings.head hne)
            with
          ID := 2, CreatedAt := 100, UpdatedAt := 100 }]
      nextPaymentID := 3 }
    1 samplePayment
    ((PaymentService.ProcessPayment okEnv bookedDb 1 samplePayment).db.bookings.head hne)
    (bookedDb.paymentMethods.head (by decide))
    { newPayment 1 samplePayment
        ((PaymentService.ProcessPayment okEnv bookedDb 1 samplePayment).db.bookings.head hne)
        with
      ID := 2, CreatedAt := 100, UpdatedAt := 100 }
    "failed to update booking payment status: connection refused"
    rfl rfl rfl rfl rfl rfl
    ((PaymentService.ProcessPayment okEnv bookedDb 1 samplePayment).db.bookings.head hne)
    hmem rfl
  exact h.1 rfl

/-- C23, amended: the three writes of `ProcessPayment` are made one after
another and none is undone.  Once the checks have passed and the payment
insert has returned the stored payment: if the payment-status update returns
an error, `ProcessPayment` returns `failed to update booking payment status:
<error>` and no response, the `success` payment stays in the payments table
and the ledger is exactly as before the call, so every booking has the status
and the payment status it had before; if the payment-status update goes
through and the status update returns an error, `ProcessPayment` returns
`failed to update booking status: <error>` and no response, the payment
stays, and the bookings with the given id have payment status `paid` and the
status they had before. -/
theorem processPayment_no_rollback (env : Env) (db db1 : Database) (userID : Int)
    (req : PaymentRequest) (b : Booking) (m : PaymentMethod) (row : Payment)
    (hb : BookingRepository.GetBookingByID env db req.BookingID = .ok (some b))
    (hu : b.UserID = userID) (ha : req.Amount = b.TotalPrice)
    (hm : PaymentRepository.GetPaymentMethodByName env db req.PaymentMethod = .ok (some m))
    (hins : PaymentRepository.CreatePayment env db (newPayment userID req b) =
      .ok (row, db1)) :
    row.Status = "success" ∧ row.BookingID = req.BookingID ∧
    (∀ err, BookingRepository.UpdateBookingPaymentStatus env db1 req.BookingID "paid" =
        .error err →
      (PaymentService.ProcessPayment env db userID req).result =
        .error ("failed to update booking payment status: " ++ err) ∧
      (PaymentService.ProcessPayment env db userID req).db.payments = db.payments ++ [row] ∧
      (PaymentService.ProcessPayment env db userID req).db.bookings = db.bookings) ∧
    (∀ db2 err, BookingRepository.UpdateBookingPaymentStatus env db1 req.BookingID "paid" =
        .ok db2 →
      BookingRepository.UpdateBookingStatus env db2 req.BookingID "confirmed" = .error err →
      (PaymentService.ProcessPayment env db userID req).result =
        .error ("failed to update booking status: " ++ err) ∧
      (PaymentService.ProcessPayment env db userID req).db.payments = db.payments ++ [row] ∧
      (PaymentService.ProcessPayment env db userID req).db.bookings =
        db.bookings.map (fun x =>
          if x.ID = req.BookingID then
            { x with PaymentStatus := "paid", UpdatedAt := env.now }
          else x) ∧
      { b with PaymentStatus := "paid", UpdatedAt := env.now } ∈
        (PaymentService.ProcessPayment env db userID req).db.bookings) := by
  obtain ⟨hrow, hdb1⟩ := paymentRepo_createPayment_ok hins
  obtain ⟨hid, hmem⟩ := getBookingByID_some hb
  refine ⟨by rw [hrow]; rfl, by rw [hrow]; rfl, ?_, ?_⟩
  · intro err hps
    rw [processPayment_after_checks hb hu ha hm]
    simp only [hins, hps]
    have hbk : db1.bookings = db.bookings := by rw [hdb1]
    have hpay : db1.payments = db.payments ++ [row] := by rw [hdb1]
    exact ⟨trivial, hpay, hbk⟩
  · intro db2 err hps hst
    rw [processPayment_after_checks hb hu ha hm]
    simp only [hins, hps, hst]
    unfold BookingRepository.UpdateBookingPaymentStatus at hps
    split at hps
    · simp at hps
    · simp only [Except.ok.injEq] at hps
      subst hps
      subst hdb1
      have hmap : (db.bookings.map (fun x =>
            if (x.ID == req.BookingID) = true then
              { x with PaymentStatus := "paid", UpdatedAt := env.now } else x)) =
          db.bookings.map (fun x =>
            if x.ID = req.BookingID then
              { x with PaymentStatus := "paid", UpdatedAt := env.now }
            else x) := by
        apply List.map_congr_left
        intro x _
        simp only [beq_iff_eq]
      refine ⟨trivial, rfl, hmap, ?_⟩
      show _ ∈ db.bookings.map _
      rw [hmap]
      exact List.mem_map.mpr ⟨b, hmem, by simp [hid]⟩

theorem processPayment_no_rollback_witness :
    ((PaymentService.ProcessPayment paymentStatusFailsEnv bookedDb 1 samplePayment).result =
        .error ("failed to update booking payment status: "
          ++ "failed to update booking payment status: connection refused") ∧
      (PaymentService.ProcessPayment paymentStatusFailsEnv bookedDb 1 samplePayment).db.payments.map
        (fun p => (p.BookingID, p.Status)) = [(1, "success")] ∧
      (PaymentService.ProcessPayment paymentStatusFailsEnv bookedDb 1 samplePayment).db.bookings.map
        (fun x => (x.ID, x.Status, x.PaymentStatus)) = [(1, "pending", "pending")]) ∧
    ((PaymentService.ProcessPayment statusFailsEnv bookedDb 1 samplePayment).result =
        .error ("failed to update booking status: "
          ++ "failed to update booking status: connection refused") ∧
      (PaymentService.ProcessPayment statusFailsEnv bookedDb 1 samplePayment).db.bookings.map
        (fun x => (x.ID, x.Status, x.PaymentStatus)) = [(1, "pending", "paid")]) := by
  have h1 := (processPayment_no_rollback paymentStatusFailsEnv bookedDb
      (PaymentService.ProcessPayment paymentStatusFailsEnv bookedDb 1 samplePayment).db 1
      samplePayment (bookedDb.bookings.head (by decide))
      (bookedDb.paymentMethods.head (by decide))
      { newPayment 1 samplePayment (bookedDb.bookings.head (by decide)) with
        ID := 1, CreatedAt := 100, UpdatedAt := 100 }
      rfl rfl rfl rfl rfl).2.2.1
      "failed to update booking payment status: connection refused" rfl
  have h2 := (processPayment_no_rollback statusFailsEnv bookedDb
      { bookedDb with
        payments := [{ newPayment 1 samplePayment (bookedDb.bookings.head (by decide)) with
          ID := 1, CreatedAt := 100, UpdatedAt := 100 }]
        nextPaymentID := 2 } 1
      samplePayment (bookedDb.bookings.head (by decide))
      (bookedDb.paymentMethods.head (by decide))
      { newPayment 1 samplePayment (bookedDb.bookings.head (by decide)) with
        ID := 1, CreatedAt := 100, UpdatedAt := 100 }
      rfl rfl rfl rfl rfl).2.2.2
      (PaymentService.ProcessPayment statusFailsEnv bookedDb 1 samplePayment).db
      "failed to update booking status: connection refused" rfl rfl
  exact ⟨⟨h1.1, by decide, by decide⟩, h2.1, by decide⟩

/-! ## Frame conditions -/

theorem forall₂_map_self {α : Type} {R : α → α → Prop} (l : List α) (f : α → α)
    (h : ∀ a, R a (f a)) : List.Forall₂ R l (l.map f) := by
  induction l with
  | nil => exact List.Forall₂.nil
  | cons a l ih => exact List.Forall₂.cons (h a) ih

theorem snapshotKept_refl (id : Int) (b : Booking) : SnapshotKept id b b :=
  ⟨rfl, rfl, rfl, rfl, rfl, rfl, rfl, rfl, rfl, rfl, rfl, rfl, fun _ => rfl⟩

theorem snapshotKept_trans {id : Int} {a b c : Booking} (h1 : SnapshotKept id a b)
    (h2 : SnapshotKept id b c) : SnapshotKept id a c := by
  obtain ⟨a1, a2, a3, a4, a5, a6, a7, a8, a9, a10, a11, a12, a13⟩ := h1
  obtain ⟨b1, b2, b3, b4, b5, b6, b7, b8, b9, b10, b11, b12, b13⟩ := h2
  refine ⟨b1.trans a1, b2.trans a2, b3.trans a3, b4.trans a4, b5.trans a5, b6.trans a6,
    b7.trans a7, b8.trans a8, b9.trans a9, b10.trans a10, b11.trans a11, b12.trans a12, ?_⟩
  intro h
  have hb : b = a := a13 h
  rw [b13 (by rw [hb]; exact h), hb]

theorem snapshotKept_setPaymentStatus (id : Int) (p : String) (t : Nat) (b : Booking) :
    SnapshotKept id b
      (if (b.ID == id) = true then { b with PaymentStatus := p, UpdatedAt := t } else b) := by
  by_cases h : (b.ID == id) = true
  · rw [if_pos h]
    exact ⟨rfl, rfl, rfl, rfl, rfl, rfl, rfl, rfl, rfl, rfl, rfl, rfl,
      fun hne => absurd (by simpa using h) hne⟩
  · rw [if_neg h]
    exact snapshotKept_refl id b

theorem snapshotKept_setStatus (id : Int) (s : String) (t : Nat) (b : Booking) :
    SnapshotKept id b
      (if (b.ID == id) = true then { b with Status := s, UpdatedAt := t } else b) := by
  by_cases h : (b.ID == id) = true
  · rw [if_pos h]
    exact ⟨rfl, rfl, rfl, rfl, rfl, rfl, rfl, rfl, rfl, rfl, rfl, rfl,
      fun hne => absurd (by simpa using h) hne⟩
  · rw [if_neg h]
    exact snapshotKept_refl id b

/-- The ledger after `ProcessPayment` holds the bookings of the ledger before,
in the same order, each kept up to status, payment status and update time. -/
theorem processPayment_snapshotKept (env : Env) (db : Database) (userID : Int)
    (req : PaymentRequest) :
    List.Forall₂ (SnapshotKept req.BookingID) db.bookings
      (PaymentService.ProcessPayment env db userID req).db.bookings := by
  rcases processPayment_bookings_cases env db userID req with h | ⟨_, h⟩ | ⟨_, _, h⟩
  · rw [h]
    exact List.forall₂_same.mpr (fun b _ => snapshotKept_refl _ b)
  · rw [h]
    exact forall₂_map_self _ _ (snapshotKept_setPaymentStatus _ _ _)
  · rw [h, List.map_map]
    apply forall₂_map_self
    intro b
    exact snapshotKept_trans (snapshotKept_setPaymentStatus req.BookingID "paid" env.now b)
      (by
        have hid : (if (b.ID == req.BookingID) = true then
            { b with PaymentStatus := "paid", UpdatedAt := env.now } else b).ID = b.ID := by
          split <;> rfl
        have := snapshotKept_setStatus req.BookingID "confirmed" env.now
          (if (b.ID == req.BookingID) = true then
            { b with PaymentStatus := "paid", UpdatedAt := env.now } else b)
        simpa only [Function.comp, hid] using this)

/-- The ledger after `UpdateBookingStatus`, likewise. -/
theorem updateBookingStatus_snapshotKept (env : Env) (db : Database) (id : Int)
    (status : String) :
    List.Forall₂ (SnapshotKept id) db.bookings
      (BookingService.UpdateBookingStatus env db id status).db.bookings := by
  rcases updateBookingStatus_bookings env db id status with h | h
  · rw [h]
    exact List.forall₂_same.mpr (fun b _ => snapshotKept_refl _ b)
  · rw [h]
    exact forall₂_map_self _ _ (snapshotKept_setStatus _ _ _)

/-- C26: `ProcessPayment` and `UpdateBookingStatus` keep the ledger row by row:
the ledger afterwards has the same bookings in the same order, each with the
id, user, cinema, seat, show date, show time, booking date, total price,
payment method and creation time it had before (only status, payment status
and update time may differ), and each booking whose id is not the given one
exactly as it was. -/
theorem booking_snapshot_not_recomputed (env : Env) (db : Database) :
    (∀ (userID : Int) (req : PaymentRequest),
      List.Forall₂
        (fun b b' =>
          b'.ID = b.ID ∧ b'.UserID = b.UserID ∧ b'.CinemaID = b.CinemaID ∧
          b'.SeatID = b.SeatID ∧ b'.ShowDate = b.ShowDate ∧ b'.ShowTime = b.ShowTime ∧
          b'.BookingDate = b.BookingDate ∧ b'.TotalPrice = b.TotalPrice ∧
          b'.PaymentMethod = b.PaymentMethod ∧ b'.CreatedAt = b.CreatedAt ∧
          b'.Cinema = b.Cinema ∧ b'.Seat = b.Seat ∧ (b.ID ≠ req.BookingID → b' = b))
        db.bookings (PaymentService.ProcessPayment env db userID req).db.bookings) ∧
    (∀ (id : Int) (status : String),
      List.Forall₂
        (fun b b' =>
          b'.ID = b.ID ∧ b'.UserID = b.UserID ∧ b'.CinemaID = b.CinemaID ∧
          b'.SeatID = b.SeatID ∧ b'.ShowDate = b.ShowDate ∧ b'.ShowTime = b.ShowTime ∧
          b'.BookingDate = b.BookingDate ∧ b'.TotalPrice = b.TotalPrice ∧
          b'.PaymentMethod = b.PaymentMethod ∧ b'.CreatedAt = b.CreatedAt ∧
          b'.Cinema = b.Cinema ∧ b'.Seat = b.Seat ∧ (b.ID ≠ id → b' = b))
        db.bookings (BookingService.UpdateBookingStatus env db id status).db.bookings) :=
  ⟨fun userID req => processPayment_snapshotKept env db userID req,
    fun id status => updateBookingStatus_snapshotKept env db id status⟩

theorem booking_snapshot_not_recomputed_witness :
    bookedDb.bookings.map (fun b => (b.ID, b.Status, b.PaymentStatus, b.TotalPrice)) =
      [(1, "pending", "pending", 70000)] ∧
    (PaymentService.ProcessPayment okEnv bookedDb 1 samplePayment).db.bookings.map
      (fun b => (b.ID, b.Status, b.PaymentStatus, b.TotalPrice)) =
      [(1, "confirmed", "paid", 70000)] ∧
    List.Forall₂
      (fun b b' =>
        b'.ID = b.ID ∧ b'.UserID = b.UserID ∧ b'.CinemaID = b.CinemaID ∧
        b'.SeatID = b.SeatID ∧ b'.ShowDate = b.ShowDate ∧ b'.ShowTime = b.ShowTime ∧
        b'.BookingDate = b.BookingDate ∧ b'.TotalPrice = b.TotalPrice ∧
        b'.PaymentMethod = b.PaymentMethod ∧ b'.CreatedAt = b.CreatedAt ∧
        b'.Cinema = b.Cinema ∧ b'.Seat = b.Seat ∧ (b.ID ≠ samplePayment.BookingID → b' = b))
      bookedDb.bookings
      (PaymentService.ProcessPayment okEnv bookedDb 1 samplePayment).db.bookings :=
  ⟨by decide, by decide, (booking_snapshot_not_recomputed okEnv bookedDb).1 1 samplePayment⟩

/-! ## The transaction id -/

theorem find_of_snapshotKept {i : Int} {l l' : List Booking}
    (hl : List.Forall₂ (SnapshotKept i) l l') (id : Int) (b : Booking)
    (h : l.find? (fun x => x.ID == id) = some b) :
    ∃ b', l'.find? (fun x => x.ID == id) = some b' ∧
      b'.ID = b.ID ∧ b'.UserID = b.UserID ∧ b'.TotalPrice = b.TotalPrice := by
  induction hl with
  | nil => simp at h
  | @cons a a' l l' ha _ ih =>
    obtain ⟨h1, h2, _, _, _, _, _, h8, _⟩ := ha
    simp only [List.find?_cons, h1] at h ⊢
    cases hid : (a.ID == id) with
    | true =>
      simp only [hid, Option.some.injEq] at h
      subst h
      exact ⟨a', rfl, h1, h2, h8⟩
    | false =>
      simp only [hid] at h
      exact ih h

/-- A service operation keeps the first booking with a given id in place, with
its owner and its total price. -/
theorem serviceOp_find_booking (op : ServiceOp) (db : Database) (id : Int) (b : Booking)
    (h : db.bookings.find? (fun x => x.ID == id) = some b) :
    ∃ b', (op.apply db).bookings.find? (fun x => x.ID == id) = some b' ∧
      b'.ID = b.ID ∧ b'.UserID = b.UserID ∧ b'.TotalPrice = b.TotalPrice := by
  cases op with
  | createBooking env userID req =>
    rcases createBooking_bookings env db userID req with hb | ⟨row, hb, _⟩
    · exact ⟨b, by simp only [ServiceOp.apply]; rw [hb, h], rfl, rfl, rfl⟩
    · exact ⟨b, by simp only [ServiceOp.apply]; rw [hb, List.find?_append, h]; rfl,
        rfl, rfl, rfl⟩
  | processPayment env userID req =>
    exact find_of_snapshotKept (processPayment_snapshotKept env db userID req) id b h
  | updateBookingStatus env id2 status =>
    exact find_of_snapshotKept (updateBookingStatus_snapshotKept env db id2 status) id b h

/-- The same over a history of service operations. -/
theorem runOps_find_booking (ops : List ServiceOp) (db : Database) (id : Int) (b : Booking)
    (h : db.bookings.find? (fun x => x.ID == id) = some b) :
    ∃ b', (runOps ops db).bookings.find? (fun x => x.ID == id) = some b' ∧
      b'.ID = b.ID ∧ b'.UserID = b.UserID ∧ b'.TotalPrice = b.TotalPrice := by
  induction ops generalizing db b with
  | nil => exact ⟨b, h, rfl, rfl, rfl⟩
  | cons op ops ih =>
    obtain ⟨b1, h1, e1, e2, e3⟩ := serviceOp_find_booking op db id b h
    obtain ⟨b2, h2, f1, f2, f3⟩ := ih (op.apply db) b1 h1
    exact ⟨b2, h2, f1.trans e1, f2.trans e2, f3.trans e3⟩

theorem getBookingByID_find {env : Env} {db : Database} {id : Int} {b : Booking}
    (h : BookingRepository.GetBookingByID env db id = .ok (some b)) :
    db.bookings.find? (fun x => x.ID == id) = some b := by
  unfold BookingRepository.GetBookingByID at h
  split at h
  · simp at h
  · simpa using h

/-- The transaction id of a successful `ProcessPayment`, in terms of the
booking it found. -/
theorem processPayment_ok_txn {env : Env} {db : Database} {userID : Int}
    {req : PaymentRequest} {r : PaymentResponse}
    (h : (PaymentService.ProcessPayment env db userID req).result = .ok r) :
    ∃ b, BookingRepository.GetBookingByID env db req.BookingID = .ok (some b) ∧
      b.ID = req.BookingID ∧ b.UserID = userID ∧
      r.TransactionID = "TXN-" ++ fmtInt b.ID ++ "-" ++ fmtInt b.UserID := by
  obtain ⟨b, m, row, db1, db2, hb, hu, ha, hm, hins, hps, hst⟩ := processPayment_ok_inv h
  obtain ⟨hrow, _⟩ := paymentRepo_createPayment_ok hins
  refine ⟨b, hb, (getBookingByID_some hb).1, hu, ?_⟩
  rw [processPayment_after_checks hb hu ha hm] at h
  simp only [hins, hps, hst, Except.ok.injEq] at h
  rw [← h, hrow]
  rfl

/-- C24: the transaction id of a successful `ProcessPayment` is
`TXN-<booking id>-<owner id>`, with both ids in decimal, where the booking is
the one found for the id of the request and its owner is the caller: nothing
else of the request, the environment (clock included) or the database enters
it.  So two successful calls by one caller for one booking id, in any two
environments and database states and with any amounts and payment methods,
return the same transaction id; and after a successful call, every later
successful call for the same booking id, after any history of service
operations and by whatever caller, returns the transaction id of the first. -/
theorem processPayment_transaction_id (env : Env) (db : Database) (userID : Int)
    (req : PaymentRequest) (r : PaymentResponse)
    (h : (PaymentService.ProcessPayment env db userID req).result = .ok r) :
    (∃ b, BookingRepository.GetBookingByID env db req.BookingID = .ok (some b) ∧
      b.ID = req.BookingID ∧ b.UserID = userID ∧
      r.TransactionID = "TXN-" ++ fmtInt b.ID ++ "-" ++ fmtInt b.UserID) ∧
    r.TransactionID = "TXN-" ++ fmtInt req.BookingID ++ "-" ++ fmtInt userID ∧
    (∀ (env2 : Env) (db2 : Database) (req2 : PaymentRequest) (r2 : PaymentResponse),
      req2.BookingID = req.BookingID →
      (PaymentService.ProcessPayment env2 db2 userID req2).result = .ok r2 →
      r2.TransactionID = r.TransactionID) ∧
    (∀ (ops : List ServiceOp) (env2 : Env) (userID2 : Int) (req2 : PaymentRequest)
        (r2 : PaymentResponse),
      req2.BookingID = req.BookingID →
      (PaymentService.ProcessPayment env2
        (runOps ops (PaymentService.ProcessPayment env db userID req).db) userID2 req2).result
          = .ok r2 →
      r2.TransactionID = r.TransactionID) := by
  obtain ⟨b, hb, hid, hu, htx⟩ := processPayment_ok_txn h
  have htx2 : r.TransactionID = "TXN-" ++ fmtInt req.BookingID ++ "-" ++ fmtInt userID := by
    rw [htx, hid, hu]
  refine ⟨⟨b, hb, hid, hu, htx⟩, htx2, ?_, ?_⟩
  · intro env2 db2 req2 r2 hreq h2
    obtain ⟨b2, _, hid2, hu2, htx3⟩ := processPayment_ok_txn h2
    rw [htx3, hid2, hu2, htx2, hreq]
  · intro ops env2 userID2 req2 r2 hreq h2
    obtain ⟨b2, hb2, hid2, hu2, htx3⟩ := processPayment_ok_txn h2
    have hfind := getBookingByID_find hb
    obtain ⟨b1, hf1, _, hu1, _⟩ :=
      runOps_find_booking (ServiceOp.processPayment env userID req :: ops) db req.BookingID b
        hfind
    have hf2 := getBookingByID_find hb2
    rw [hreq] at hf2
    have hrun : runOps (ServiceOp.processPayment env userID req :: ops) db =
        runOps ops (PaymentService.ProcessPayment env db userID req).db := rfl
    rw [hrun, hf2] at hf1
    have hb12 : b2 = b1 := by simpa using hf1
    rw [htx3, htx, hid2, hreq, hid, hb12, hu1]

theorem processPayment_transaction_id_witness :
    (PaymentService.ProcessPayment okEnv bookedDb 1 samplePayment).result =
      .ok { ID := 1, BookingID := 1, Amount := 70000, PaymentMethod := "cash"
            Status := "success", TransactionID := "TXN-1-1", CreatedAt := 100 } ∧
    ("TXN-1-1" : String) = "TXN-" ++ fmtInt 1 ++ "-" ++ fmtInt 1 :=
  ⟨rfl, (processPayment_transaction_id okEnv bookedDb 1 samplePayment
    { ID := 1, BookingID := 1, Amount := 70000, PaymentMethod := "cash"
      Status := "success", TransactionID := "TXN-1-1", CreatedAt := 100 } rfl).2.1⟩

/-! ## What a caller who is not the owner can learn -/

theorem find?_map_keepID (l : List Booking) (f : Booking → Booking)
    (hf : ∀ b, (f b).ID = b.ID) (id : Int) :
    (l.map f).find? (fun b => b.ID == id) = (l.find? (fun b => b.ID == id)).map f := by
  induction l with
  | nil => rfl
  | cons a l ih =>
    simp only [List.map_cons, List.find?_cons, hf]
    split
    · rfl
    · exact ih

/-- C28: when the booking exists and the caller is not its owner, the outcome
of `ProcessPayment` is the same for every amount and payment method of the
request, for every total price the bookings with that id could have and for
every content of the payment-methods table: the error `unauthorized to pay for
this booking`, no response, the database untouched, and the booking lookup as
the only repository call (so the payment-methods table is never queried). -/
theorem processPayment_unauthorized_leaks_nothing (env : Env) (db : Database) (userID : Int)
    (req : PaymentRequest) (b : Booking)
    (hb : BookingRepository.GetBookingByID env db req.BookingID = .ok (some b))
    (hu : b.UserID ≠ userID)
    (amount : Rat) (method : String) (price : Booking → Rat) (methods : List PaymentMethod) :
    (PaymentService.ProcessPayment env
        { db with
          bookings := db.bookings.map (fun x =>
            if x.ID = req.BookingID then { x with TotalPrice := price x } else x)
          paymentMethods := methods }
        userID { req with Amount := amount, PaymentMethod := method }).result =
      (PaymentService.ProcessPayment env db userID req).result ∧
    PaymentService.ProcessPayment env
        { db with
          bookings := db.bookings.map (fun x =>
            if x.ID = req.BookingID then { x with TotalPrice := price x } else x)
          paymentMethods := methods }
        userID { req with Amount := amount, PaymentMethod := method } =
      ⟨{ db with
          bookings := db.bookings.map (fun x =>
            if x.ID = req.BookingID then { x with TotalPrice := price x } else x)
          paymentMethods := methods },
        [.getBookingByID req.BookingID], .error "unauthorized to pay for this booking"⟩ ∧
    (∀ name, RepoCall.getPaymentMethodByName name ∉
      (PaymentService.ProcessPayment env
        { db with
          bookings := db.bookings.map (fun x =>
            if x.ID = req.BookingID then { x with TotalPrice := price x } else x)
          paymentMethods := methods }
        userID { req with Amount := amount, PaymentMethod := method }).trace) := by
  have hfind := getBookingByID_find hb
  have hfails : env.fails (.getBookingByID req.BookingID) = false := by
    unfold BookingRepository.GetBookingByID at hb
    split at hb
    · simp at hb
    · rename_i hf
      simpa using hf
  have hb2 : BookingRepository.GetBookingByID env
      { db with
        bookings := db.bookings.map (fun x =>
          if x.ID = req.BookingID then { x with TotalPrice := price x } else x)
        paymentMethods := methods } req.BookingID =
      .ok (some (if b.ID = req.BookingID then { b with TotalPrice := price b } else b)) := by
    unfold BookingRepository.GetBookingByID
    simp only [hfails, Bool.false_eq_true, ↓reduceIte]
    rw [find?_map_keepID _ _ (fun x => by split <;> rfl), hfind]
    rfl
  have hu2 : (if b.ID = req.BookingID then { b with TotalPrice := price b } else b).UserID
      ≠ userID := by
    split <;> exact hu
  have h1 : PaymentService.ProcessPayment env db userID req =
      ⟨db, [.getBookingByID req.BookingID], .error "unauthorized to pay for this booking"⟩ := by
    simp [PaymentService.ProcessPayment, hb, hu]
  have h2 : PaymentService.ProcessPayment env
        { db with
          bookings := db.bookings.map (fun x =>
            if x.ID = req.BookingID then { x with TotalPrice := price x } else x)
          paymentMethods := methods }
        userID { req with Amount := amount, PaymentMethod := method } =
      ⟨{ db with
          bookings := db.bookings.map (fun x =>
            if x.ID = req.BookingID then { x with TotalPrice := price x } else x)
          paymentMethods := methods },
        [.getBookingByID req.BookingID], .error "unauthorized to pay for this booking"⟩ := by
    simp only [PaymentService.ProcessPayment, hb2]
    simp [hu2]
  refine ⟨by rw [h2, h1], h2, ?_⟩
  intro name
  rw [h2]
  simp

theorem processPayment_unauthorized_leaks_nothing_witness :
    (PaymentService.ProcessPayment okEnv
        { bookedDb with
          bookings := bookedDb.bookings.map (fun x =>
            if x.ID = 1 then { x with TotalPrice := 5 } else x)
          paymentMethods := [] }
        2 { samplePayment with Amount := 5, PaymentMethod := "voucher" }).result =
      (PaymentService.ProcessPayment okEnv bookedDb 2 samplePayment).result ∧
    (PaymentService.ProcessPayment okEnv bookedDb 2 samplePayment).result =
      .error "unauthorized to pay for this booking" :=
  ⟨(processPayment_unauthorized_leaks_nothing okEnv bookedDb 2 samplePayment
      (bookedDb.bookings.head (by decide)) rfl (by decide) 5 "voucher" (fun _ => 5) []).1,
    rfl⟩

/-! ## The payment workflow does not look at the booking's state -/

theorem find_none_of_snapshotKept {i : Int} {l l' : List Booking}
    (hl : List.Forall₂ (SnapshotKept i) l l') (id : Int)
    (h : l.find? (fun x => x.ID == id) = none) :
    l'.find? (fun x => x.ID == id) = none := by
  induction hl with
  | nil => rfl
  | @cons a a' l l' ha _ ih =>
    obtain ⟨h1, _⟩ := ha
    simp only [List.find?_cons, h1] at h ⊢
    cases hid : (a.ID == id) with
    | true => simp [hid] at h
    | false =>
      simp only [hid] at h
      exact ih h

theorem snapshotKept_of_differs {id : Int} {l l' : List Booking}
    (hl : List.Forall₂ (fun b b' => SnapshotKept id b b' ∧ b'.UpdatedAt = b.UpdatedAt) l l') :
    List.Forall₂ (SnapshotKept id) l l' :=
  hl.imp (fun _ _ h => h.1)

theorem differs_map {id : Int} {l l' : List Booking} (f : Booking → Booking)
    (hf : ∀ b b', (SnapshotKept id b b' ∧ b'.UpdatedAt = b.UpdatedAt) →
      (SnapshotKept id (f b) (f b') ∧ (f b').UpdatedAt = (f b).UpdatedAt))
    (hl : List.Forall₂ (fun b b' => SnapshotKept id b b' ∧ b'.UpdatedAt = b.UpdatedAt) l l') :
    List.Forall₂ (fun b b' => SnapshotKept id b b' ∧ b'.UpdatedAt = b.UpdatedAt)
      (l.map f) (l'.map f) := by
  induction hl with
  | nil => exact List.Forall₂.nil
  | cons ha _ ih => exact List.Forall₂.cons (hf _ _ ha) ih

theorem differs_setPaymentStatus (id : Int) (p : String) (t : Nat) (b b' : Booking)
    (h : SnapshotKept id b b' ∧ b'.UpdatedAt = b.UpdatedAt) :
    SnapshotKept id
        (if (b.ID == id) = true then { b with PaymentStatus := p, UpdatedAt := t } else b)
        (if (b'.ID == id) = true then { b' with PaymentStatus := p, UpdatedAt := t } else b') ∧
      (if (b'.ID == id) = true then { b' with PaymentStatus := p, UpdatedAt := t }
        else b').UpdatedAt =
      (if (b.ID == id) = true then { b with PaymentStatus := p, UpdatedAt := t }
        else b).UpdatedAt := by
  obtain ⟨⟨h1, h2, h3, h4, h5, h6, h7, h8, h9, h10, h11, h12, h13⟩, h14⟩ := h
  have hc : (b'.ID == id) = (b.ID == id) := by rw [h1]
  rw [hc]
  by_cases hid : (b.ID == id) = true
  · rw [if_pos hid, if_pos hid]
    exact ⟨⟨h1, h2, h3, h4, h5, h6, h7, h8, h9, h10, h11, h12,
      fun hne => absurd (by simpa using hid) hne⟩, rfl⟩
  · rw [if_neg hid, if_neg hid]
    exact ⟨⟨h1, h2, h3, h4, h5, h6, h7, h8, h9, h10, h11, h12, h13⟩, h14⟩

theorem differs_setStatus (id : Int) (s : String) (t : Nat) (b b' : Booking)
    (h : SnapshotKept id b b' ∧ b'.UpdatedAt = b.UpdatedAt) :
    SnapshotKept id
        (if (b.ID == id) = true then { b with Status := s, UpdatedAt := t } else b)
        (if (b'.ID == id) = true then { b' with Status := s, UpdatedAt := t } else b') ∧
      (if (b'.ID == id) = true then { b' with Status := s, UpdatedAt := t }
        else b').UpdatedAt =
      (if (b.ID == id) = true then { b with Status := s, UpdatedAt := t }
        else b).UpdatedAt := by
  obtain ⟨⟨h1, h2, h3, h4, h5, h6, h7, h8, h9, h10, h11, h12, h13⟩, h14⟩ := h
  have hc : (b'.ID == id) = (b.ID == id) := by rw [h1]
  rw [hc]
  by_cases hid : (b.ID == id) = true
  · rw [if_pos hid, if_pos hid]
    exact ⟨⟨h1, h2, h3, h4, h5, h6, h7, h8, h9, h10, h11, h12,
      fun hne => absurd (by simpa using hid) hne⟩, rfl⟩
  · rw [if_neg hid, if_neg hid]
    exact ⟨⟨h1, h2, h3, h4, h5, h6, h7, h8, h9, h10, h11, h12, h13⟩, h14⟩

/-- Result, calls and final state of `ProcessPayment` on two databases that
differ only in the status and payment status of the target booking. -/
theorem processPayment_differs (env : Env) (db db' : Database) (userID : Int)
    (req : PaymentRequest) (h : DiffersOnlyInStatus req.BookingID db db') :
    (PaymentService.ProcessPayment env db' userID req).result =
      (PaymentService.ProcessPayment env db userID req).result ∧
    (PaymentService.ProcessPayment env db' userID req).trace =
      (PaymentService.ProcessPayment env db userID req).trace ∧
    DiffersOnlyInStatus req.BookingID (PaymentService.ProcessPayment env db userID req).db
      (PaymentService.ProcessPayment env db' userID req).db := by
  have h0 := h
  obtain ⟨e1, e2, e3, e4, e5, e6, e7, hbk⟩ := h
  cases hf : env.fails (.getBookingByID req.BookingID) with
  | true =>
    simp only [PaymentService.ProcessPayment, BookingRepository.GetBookingByID, hf, ↓reduceIte]
    exact ⟨trivial, trivial, h0⟩
  | false =>
    cases hfind : db.bookings.find? (fun x => x.ID == req.BookingID) with
    | none =>
      have hfind2 := find_none_of_snapshotKept (snapshotKept_of_differs hbk) _ hfind
      simp only [PaymentService.ProcessPayment, BookingRepository.GetBookingByID, hf, hfind,
        hfind2, Bool.false_eq_true, ↓reduceIte]
      exact ⟨trivial, trivial, h0⟩
    | some b =>
      obtain ⟨b', hfind2, hid, hown, hprice⟩ :=
        find_of_snapshotKept (snapshotKept_of_differs hbk) _ b hfind
      have hb : BookingRepository.GetBookingByID env db req.BookingID = .ok (some b) := by
        simp [BookingRepository.GetBookingByID, hf, hfind]
      have hb2 : BookingRepository.GetBookingByID env db' req.BookingID = .ok (some b') := by
        simp [BookingRepository.GetBookingByID, hf, hfind2]
      by_cases hu : b.UserID = userID
      · have hu2 : b'.UserID = userID := hown.trans hu
        by_cases ha : req.Amount = b.TotalPrice
        · have ha2 : req.Amount = b'.TotalPrice := ha.trans hprice.symm
          have hmeq : PaymentRepository.GetPaymentMethodByName env db' req.PaymentMethod =
              PaymentRepository.GetPaymentMethodByName env db req.PaymentMethod := by
            simp only [PaymentRepository.GetPaymentMethodByName, e5]
          cases hm : PaymentRepository.GetPaymentMethodByName env db req.PaymentMethod with
          | error e =>
            have hm2 := hmeq.trans hm
            simp only [PaymentService.ProcessPayment, hb, hb2, hown, hprice, hu, ha, hm, hm2,
              bne_self_eq_false, Bool.false_eq_true, ↓reduceIte]
            exact ⟨trivial, trivial, h0⟩
          | ok om =>
            cases om with
            | none =>
              have hm2 := hmeq.trans hm
              simp only [PaymentService.ProcessPayment, hb, hb2, hown, hprice, hu, ha, hm, hm2,
                bne_self_eq_false, Bool.false_eq_true, ↓reduceIte]
              exact ⟨trivial, trivial, h0⟩
            | some m =>
              have hm2 := hmeq.trans hm
              have hnew : newPayment userID req b' = newPayment userID req b := by
                simp only [newPayment, hid, hown]
              rw [processPayment_after_checks hb hu ha hm,
                processPayment_after_checks hb2 hu2 ha2 hm2, hnew]
              simp only [PaymentRepository.CreatePayment,
                BookingRepository.UpdateBookingPaymentStatus,
                BookingRepository.UpdateBookingStatus, e4, e7]
              by_cases f1 : env.fails (.createPayment (newPayment userID req b)) = true
              · simp only [f1, ↓reduceIte]
                exact ⟨trivial, trivial, h0⟩
              · by_cases f2 : env.fails (.updateBookingPaymentStatus req.BookingID "paid") = true
                · simp only [f1, f2, Bool.false_eq_true, ↓reduceIte]
                  exact ⟨trivial, trivial, e1, e2, e3, by simp only [e4], e5, e6,
                    by simp only [e7], hbk⟩
                · by_cases f3 : env.fails (.updateBookingStatus req.BookingID "confirmed") = true
                  · simp only [f1, f2, f3, Bool.false_eq_true, ↓reduceIte]
                    exact ⟨trivial, trivial, e1, e2, e3, by simp only [e4], e5, e6,
                      by simp only [e7],
                      differs_map _ (differs_setPaymentStatus _ _ _) hbk⟩
                  · simp only [f1, f2, f3, Bool.false_eq_true, ↓reduceIte]
                    exact ⟨trivial, trivial, e1, e2, e3, by simp only [e4], e5, e6,
                      by simp only [e7],
                      differs_map _ (differs_setStatus _ _ _)
                        (differs_map _ (differs_setPaymentStatus _ _ _) hbk)⟩
        · have ha2 : ¬ req.Amount = b'.TotalPrice := fun h' => ha (h'.trans hprice)
          simp only [PaymentService.ProcessPayment, hb, hb2, hu, hu2, hprice,
            bne_self_eq_false, Bool.false_eq_true, ↓reduceIte, bne_iff_ne, ne_eq, ha,
            not_false_eq_true]
          exact ⟨trivial, trivial, h0⟩
      · have hu2 : ¬ b'.UserID = userID := fun h' => hu (hown.symm.trans h')
        simp only [PaymentService.ProcessPayment, hb, hb2, bne_iff_ne, ne_eq, hu, hu2,
          not_false_eq_true, ↓reduceIte]
        exact ⟨trivial, trivial, h0⟩

/-- After a successful `ProcessPayment` the payments table has gained a
`success` payment for the booking id and every booking with that id is
`confirmed` and `paid`. -/
theorem processPayment_ok_effect {env : Env} {db : Database} {userID : Int}
    {req : PaymentRequest} {r : PaymentResponse}
    (h : (PaymentService.ProcessPayment env db userID req).result = .ok r) :
    (∃ row, (PaymentService.ProcessPayment env db userID req).db.payments =
        db.payments ++ [row] ∧ row.Status = "success" ∧ row.BookingID = req.BookingID) ∧
    ∀ x ∈ (PaymentService.ProcessPayment env db userID req).db.bookings,
      x.ID = req.BookingID → x.Status = "confirmed" ∧ x.PaymentStatus = "paid" := by
  obtain ⟨b, m, row, db1, db2, hb, hu, ha, hm, hins, hps, hst⟩ := processPayment_ok_inv h
  obtain ⟨hrow, hdb1⟩ := paymentRepo_createPayment_ok hins
  unfold BookingRepository.UpdateBookingPaymentStatus at hps
  unfold BookingRepository.UpdateBookingStatus at hst
  split at hps
  · simp at hps
  · split at hst
    · simp at hst
    · simp only [Except.ok.injEq] at hps hst
      rw [← hst, ← hps, hdb1]
      refine ⟨⟨row, rfl, by rw [hrow]; rfl, by rw [hrow]; rfl⟩, ?_⟩
      intro x hx hxid
      simp only [List.mem_map] at hx
      obtain ⟨y, ⟨z, _, hz⟩, hy⟩ := hx
      subst hz
      subst hy
      by_cases hzid : (z.ID == req.BookingID) = true
      · simp [hzid]
      · simp only [hzid, Bool.false_eq_true, ↓reduceIte] at hxid
        exact absurd (by simpa using hxid) hzid

/-- C27: `ProcessPayment` does not look at the status or the payment status of
the booking.  On two databases that differ only in those two fields of the
bookings with the id of the request, the same call returns the same result
(the same response or the same error), makes the same repository calls and
leaves databases that again differ only in those two fields; and if the call
succeeds on one of them it succeeds on the other, whatever status and payment
status the booking has there (`paid` already, or `cancelled`): the payments
table gains one more `success` payment for the booking and the bookings with
that id end `confirmed` and `paid`. -/
theorem processPayment_ignores_status (env : Env) (db db' : Database) (userID : Int)
    (req : PaymentRequest) (h : DiffersOnlyInStatus req.BookingID db db') :
    (PaymentService.ProcessPayment env db' userID req).result =
      (PaymentService.ProcessPayment env db userID req).result ∧
    (PaymentService.ProcessPayment env db' userID req).trace =
      (PaymentService.ProcessPayment env db userID req).trace ∧
    DiffersOnlyInStatus req.BookingID (PaymentService.ProcessPayment env db userID req).db
      (PaymentService.ProcessPayment env db' userID req).db ∧
    (∀ r, (PaymentService.ProcessPayment env db userID req).result = .ok r →
      (PaymentService.ProcessPayment env db' userID req).result = .ok r ∧
      (∃ row, (PaymentService.ProcessPayment env db' userID req).db.payments =
          db'.payments ++ [row] ∧ row.Status = "success" ∧ row.BookingID = req.BookingID) ∧
      ∀ x ∈ (PaymentService.ProcessPayment env db' userID req).db.bookings,
        x.ID = req.BookingID → x.Status = "confirmed" ∧ x.PaymentStatus = "paid") := by
  obtain ⟨h1, h2, h3⟩ := processPayment_differs env db db' userID req h
  refine ⟨h1, h2, h3, ?_⟩
  intro r hr
  have hr2 : (PaymentService.ProcessPayment env db' userID req).result = .ok r := by
    rw [h1, hr]
  exact ⟨hr2, processPayment_ok_effect hr2⟩

theorem processPayment_ignores_status_witness :
    ((PaymentService.ProcessPayment okEnv alreadyPaidDb 1 samplePayment).result =
        (PaymentService.ProcessPayment okEnv bookedDb 1 samplePayment).result ∧
      (PaymentService.ProcessPayment okEnv alreadyPaidDb 1 samplePayment).db.payments.map
        (fun p => (p.BookingID, p.Status)) = [(1, "success")]) ∧
    ((PaymentService.ProcessPayment okEnv cancelledOnlyDb 1 samplePayment).result =
        (PaymentService.ProcessPayment okEnv bookedDb 1 samplePayment).result ∧
      cancelledOnlyDb.bookings.map (fun x => (x.ID, x.Status, x.PaymentStatus)) =
        [(1, "cancelled", "pending")] ∧
      (PaymentService.ProcessPayment okEnv cancelledOnlyDb 1 samplePayment).db.bookings.map
        (fun x => (x.ID, x.Status, x.PaymentStatus)) = [(1, "confirmed", "paid")]) ∧
    (PaymentService.ProcessPayment okEnv
        (PaymentService.ProcessPayment okEnv bookedDb 1 samplePayment).db 1
        samplePayment).db.payments.map
      (fun p => (p.ID, p.BookingID, p.Status, p.TransactionID)) =
        [(1, 1, "success", "TXN-1-1"), (2, 1, "success", "TXN-1-1")] :=
  ⟨⟨(processPayment_ignores_status okEnv bookedDb alreadyPaidDb 1 samplePayment
        ⟨rfl, rfl, rfl, rfl, rfl, rfl, rfl,
          List.Forall₂.cons
            ⟨⟨rfl, rfl, rfl, rfl, rfl, rfl, rfl, rfl, rfl, rfl, rfl, rfl,
              fun hne => absurd rfl hne⟩, rfl⟩
            List.Forall₂.nil⟩).1,
      by decide⟩,
    ⟨(processPayment_differs okEnv bookedDb cancelledOnlyDb 1 samplePayment
        ⟨rfl, rfl, rfl, rfl, rfl, rfl, rfl,
          List.Forall₂.cons
            ⟨⟨rfl, rfl, rfl, rfl, rfl, rfl, rfl, rfl, rfl, rfl, rfl, rfl,
              fun hne => absurd rfl hne⟩, rfl⟩
            List.Forall₂.nil⟩).1,
      by decide, by decide⟩,
    by decide⟩

/-! ## Availability over histories -/

theorem processPayment_seatAvailability (env : Env) (db : Database) (userID : Int)
    (req : PaymentRequest) :
    (PaymentService.ProcessPayment env db userID req).db.seatAvailability =
      db.seatAvailability := by
  rcases processPayment_db_cases env db userID req with h | ⟨p, row, db1, hins, hrest⟩
  · rw [h]
  · obtain ⟨_, hdb1⟩ := paymentRepo_createPayment_ok hins
    have h1 : db1.seatAvailability = db.seatAvailability := by rw [hdb1]
    rcases hrest with h | ⟨db2, hps, hrest2⟩
    · rw [h, h1]
    · have h2 : db2.seatAvailability = db1.seatAvailability := by
        unfold BookingRepository.UpdateBookingPaymentStatus at hps
        split at hps
        · simp at hps
        · simp only [Except.ok.injEq] at hps
          rw [← hps]
      rcases hrest2 with h | hst
      · rw [h, h2, h1]
      · unfold BookingRepository.UpdateBookingStatus at hst
        split at hst
        · simp at hst
        · simp only [Except.ok.injEq] at hst
          rw [← hst]
          exact h2.trans h1

theorem updateBookingStatus_seatAvailability (env : Env) (db : Database) (id : Int)
    (status : String) :
    (BookingService.UpdateBookingStatus env db id status).db.seatAvailability =
      db.seatAvailability := by
  unfold BookingService.UpdateBookingStatus BookingRepository.UpdateBookingStatus
  by_cases f : env.fails (.updateBookingStatus id status) = true
  · simp [f]
  · simp [f]

/-- `CreateBooking` leaves the availability table as it was, or (when it
returns a response) with the flag of the rows of its own seat, date and time
set to false. -/
theorem createBooking_seatAvailability (env : Env) (db : Database) (userID : Int)
    (req : BookingRequest) :
    (BookingService.CreateBooking env db userID req).db.seatAvailability =
        db.seatAvailability ∨
    ∃ d, parseDate req.Date = some d ∧
      (∃ r, (BookingService.CreateBooking env db userID req).result = .ok r) ∧
      (BookingService.CreateBooking env db userID req).db.seatAvailability =
        db.seatAvailability.map (fun r =>
          if availabilityRow req.SeatID d req.Time r then
            { r with IsAvailable := false, UpdatedAt := env.now }
          else r) := by
  rcases createBooking_cases env db userID req with ⟨hdb, _⟩ |
    ⟨d, seat, cinema, row, db1, hd, hs, hc, hb, hk, hins, hrest⟩
  · left; rw [hdb]
  · obtain ⟨_, hdb1⟩ := bookingRepo_createBooking_ok hins
    have h1 : db1.seatAvailability = db.seatAvailability := by rw [hdb1]
    rcases hrest with ⟨hdb, _⟩ | ⟨hupd, hr⟩
    · left; rw [hdb, h1]
    · right
      refine ⟨d, hd, hr, ?_⟩
      rw [updateSeatAvailability_ok hupd, h1]

theorem forall₂_trans_of {α : Type} {R : α → α → Prop}
    (hR : ∀ a b c, R a b → R b c → R a c) {l1 l2 l3 : List α}
    (h12 : List.Forall₂ R l1 l2) (h23 : List.Forall₂ R l2 l3) : List.Forall₂ R l1 l3 := by
  induction h12 generalizing l3 with
  | nil =>
    cases h23
    exact List.Forall₂.nil
  | cons hab _ ih =>
    cases h23 with
    | cons hbc hrest => exact List.Forall₂.cons (hR _ _ _ hab hbc) (ih hrest)

/-- C25: over every history of `CreateBooking`, `ProcessPayment` and
`UpdateBookingStatus` calls, the `seat_availability` table keeps its rows, in
the same order and with the same id, cinema, seat, show date, show time and
creation time, and a row whose flag is false at the start has it false at the
end: a flag is never set back to true.  Step by step: `ProcessPayment` and
`UpdateBookingStatus` leave the table exactly as it was, and `CreateBooking`
leaves it as it was or, when it returns a response, sets the flag (and the
update time) of the rows of its own seat, date and time to false. -/
theorem availability_never_reopened (ops : List ServiceOp) (db : Database) :
    List.Forall₂
      (fun r r' =>
        r'.ID = r.ID ∧ r'.CinemaID = r.CinemaID ∧ r'.SeatID = r.SeatID ∧
        r'.ShowDate = r.ShowDate ∧ r'.ShowTime = r.ShowTime ∧ r'.CreatedAt = r.CreatedAt ∧
        r'.Seat = r.Seat ∧ (r.IsAvailable = false → r'.IsAvailable = false))
      db.seatAvailability (runOps ops db).seatAvailability ∧
    (∀ (env : Env) (db0 : Database) (userID : Int) (req : PaymentRequest),
      (PaymentService.ProcessPayment env db0 userID req).db.seatAvailability =
        db0.seatAvailability) ∧
    (∀ (env : Env) (db0 : Database) (id : Int) (status : String),
      (BookingService.UpdateBookingStatus env db0 id status).db.seatAvailability =
        db0.seatAvailability) ∧
    (∀ (env : Env) (db0 : Database) (userID : Int) (req : BookingRequest),
      (BookingService.CreateBooking env db0 userID req).db.seatAvailability =
          db0.seatAvailability ∨
      ∃ d, parseDate req.Date = some d ∧
        (∃ r, (BookingService.CreateBooking env db0 userID req).result = .ok r) ∧
        (BookingService.CreateBooking env db0 userID req).db.seatAvailability =
          db0.seatAvailability.map (fun r =>
            if availabilityRow req.SeatID d req.Time r then
              { r with IsAvailable := false, UpdatedAt := env.now }
            else r)) := by
  refine ⟨?_, processPayment_seatAvailability, updateBookingStatus_seatAvailability,
    createBooking_seatAvailability⟩
  induction ops generalizing db with
  | nil =>
    exact List.forall₂_same.mpr
      (fun r _ => ⟨rfl, rfl, rfl, rfl, rfl, rfl, rfl, fun h => h⟩)
  | cons op ops ih =>
    have hstep : List.Forall₂
        (fun (r r' : SeatAvailability) =>
          r'.ID = r.ID ∧ r'.CinemaID = r.CinemaID ∧ r'.SeatID = r.SeatID ∧
          r'.ShowDate = r.ShowDate ∧ r'.ShowTime = r.ShowTime ∧ r'.CreatedAt = r.CreatedAt ∧
          r'.Seat = r.Seat ∧ (r.IsAvailable = false → r'.IsAvailable = false))
        db.seatAvailability (op.apply db).seatAvailability := by
      have hrefl : List.Forall₂
          (fun (r r' : SeatAvailability) =>
            r'.ID = r.ID ∧ r'.CinemaID = r.CinemaID ∧ r'.SeatID = r.SeatID ∧
            r'.ShowDate = r.ShowDate ∧ r'.ShowTime = r.ShowTime ∧
            r'.CreatedAt = r.CreatedAt ∧
            r'.Seat = r.Seat ∧ (r.IsAvailable = false → r'.IsAvailable = false))
          db.seatAvailability db.seatAvailability :=
        List.forall₂_same.mpr
          (fun r _ => ⟨rfl, rfl, rfl, rfl, rfl, rfl, rfl, fun h => h⟩)
      cases op with
      | createBooking env userID req =>
        simp only [ServiceOp.apply]
        rcases createBooking_seatAvailability env db userID req with h | ⟨d, _, _, h⟩
        · rw [h]; exact hrefl
        · rw [h]
          apply forall₂_map_self
          intro r
          by_cases hrow : availabilityRow req.SeatID d req.Time r = true
          · rw [if_pos hrow]
            exact ⟨rfl, rfl, rfl, rfl, rfl, rfl, rfl, fun _ => rfl⟩
          · rw [if_neg hrow]
            exact ⟨rfl, rfl, rfl, rfl, rfl, rfl, rfl, fun h => h⟩
      | processPayment env userID req =>
        simp only [ServiceOp.apply]
        rw [processPayment_seatAvailability]; exact hrefl
      | updateBookingStatus env id status =>
        simp only [ServiceOp.apply]
        rw [updateBookingStatus_seatAvailability]; exact hrefl
    refine forall₂_trans_of ?_ hstep (ih (op.apply db))
    intro a b c hab hbc
    obtain ⟨a1, a2, a3, a4, a5, a6, a7, a8⟩ := hab
    obtain ⟨b1, b2, b3, b4, b5, b6, b7, b8⟩ := hbc
    exact ⟨b1.trans a1, b2.trans a2, b3.trans a3, b4.trans a4, b5.trans a5, b6.trans a6,
      b7.trans a7, fun h => b8 (a8 h)⟩

theorem availability_never_reopened_witness :
    sampleDb.seatAvailability.map (fun r => (r.SeatID, r.IsAvailable)) = [(1, true)] ∧
    (runOps (paidOps ++ [.updateBookingStatus okEnv 1 "cancelled"]) sampleDb).seatAvailability.map
      (fun r => (r.SeatID, r.IsAvailable)) = [(1, false)] ∧
    List.Forall₂
      (fun r r' =>
        r'.ID = r.ID ∧ r'.CinemaID = r.CinemaID ∧ r'.SeatID = r.SeatID ∧
        r'.ShowDate = r.ShowDate ∧ r'.ShowTime = r.ShowTime ∧ r'.CreatedAt = r.CreatedAt ∧
        r'.Seat = r.Seat ∧ (r.IsAvailable = false → r'.IsAvailable = false))
      sampleDb.seatAvailability
      (runOps (paidOps ++ [.updateBookingStatus okEnv 1 "cancelled"]) sampleDb).seatAvailability :=
  ⟨by decide, by decide,
    (availability_never_reopened (paidOps ++ [.updateBookingStatus okEnv 1 "cancelled"])
      sampleDb).1⟩

/-! ## Enrichment of the bookings listing -/

/-- The enrichment loop either gets an answer for every booking and returns
the bookings found, in order, or meets a lookup that fails and returns its
error. -/
theorem enrichBookings_spec (env : Env) (db : Database) (bookings : List Booking) :
    (∃ details,
      List.Forall₂ (fun b d => BookingRepository.GetBookingWithDetails env db b.ID = .ok d)
        bookings details ∧
      (enrichBookings env db bookings).2 = .ok details.reduceOption) ∨
    (∃ b ∈ bookings, ∃ e,
      BookingRepository.GetBookingWithDetails env db b.ID = .error e ∧
      (enrichBookings env db bookings).2 = .error ("failed to get booking details: " ++ e)) := by
  induction bookings with
  | nil => exact Or.inl ⟨[], List.Forall₂.nil, rfl⟩
  | cons b rest ih =>
    cases hb : BookingRepository.GetBookingWithDetails env db b.ID with
    | error e =>
      right
      exact ⟨b, List.mem_cons_self _ _, e, hb, by simp [enrichBookings, hb]⟩
    | ok d =>
      rcases ih with ⟨details, hall, hok⟩ | ⟨b2, hmem, e, herr, hres⟩
      · left
        refine ⟨d :: details, List.Forall₂.cons hb hall, ?_⟩
        cases hrest : enrichBookings env db rest with
        | mk calls res =>
          rw [hrest] at hok
          simp only at hok
          subst hok
          cases d with
          | none => simp [enrichBookings, hb, hrest, List.reduceOption_cons_of_none]
          | some full => simp [enrichBookings, hb, hrest, List.reduceOption_cons_of_some]
      · right
        refine ⟨b2, List.mem_cons_of_mem _ hmem, e, herr, ?_⟩
        cases hrest : enrichBookings env db rest with
        | mk calls res =>
          rw [hrest] at hres
          simp only at hres
          subst hres
          simp [enrichBookings, hb, hrest]

theorem getUserBookings_after_repo {env : Env} {db : Database} {userID page limit : Int}
    {bookings : List Booking} {total : Int}
    (hrepo : BookingRepository.GetUserBookings env db userID (effectivePage page)
      (effectiveLimit limit) = .ok (bookings, total)) :
    (BookingService.GetUserBookings env db userID page limit).db = db ∧
    (BookingService.GetUserBookings env db userID page limit).result =
      match (enrichBookings env db bookings).2 with
      | .error err => .error err
      | .ok enriched =>
        .ok { Data := enriched
              Page := effectivePage page
              Limit := effectiveLimit limit
              Total := total
              TotalPages := totalPages total (effectiveLimit limit) } := by
  unfold BookingService.GetUserBookings
  rw [hrepo]
  cases henr : enrichBookings env db bookings with
  | mk calls res =>
    cases res with
    | error e => simp only [henr, and_self]
    | ok enriched => simp only [henr, and_self]

/-- C30: when the page query of `GetUserBookings` returns the bookings
`b1..bn` and the total `T`: if no detail lookup fails, the call returns a
response whose `Data` is the list of the `GetBookingWithDetails(bi.ID)`
results in the same order with the absent ones left out, so it has at most
`n` entries, while `Total` is `T` and `TotalPages` is `(T + limit - 1) / limit`
whatever was left out; if a detail lookup fails, the call returns no response
but the error `failed to get booking details: <error>` of a failing lookup.
The database is untouched either way. -/
theorem getUserBookings_enrichment (env : Env) (db : Database) (userID page limit : Int)
    (bookings : List Booking) (total : Int)
    (hrepo : BookingRepository.GetUserBookings env db userID (effectivePage page)
      (effectiveLimit limit) = .ok (bookings, total)) :
    ((∀ b ∈ bookings, ∀ e, BookingRepository.GetBookingWithDetails env db b.ID ≠ .error e) →
      ∃ details,
        List.Forall₂ (fun b d => BookingRepository.GetBookingWithDetails env db b.ID = .ok d)
          bookings details ∧
        (BookingService.GetUserBookings env db userID page limit).result =
          .ok { Data := details.reduceOption
                Page := effectivePage page
                Limit := effectiveLimit limit
                Total := total
                TotalPages := totalPages total (effectiveLimit limit) } ∧
        details.reduceOption.length ≤ bookings.length) ∧
    ((∃ b ∈ bookings, ∃ e, BookingRepository.GetBookingWithDetails env db b.ID = .error e) →
      ∃ b ∈ bookings, ∃ e,
        BookingRepository.GetBookingWithDetails env db b.ID = .error e ∧
        (BookingService.GetUserBookings env db userID page limit).result =
          .error ("failed to get booking details: " ++ e)) ∧
    (BookingService.GetUserBookings env db userID page limit).db = db := by
  obtain ⟨hdb, hres⟩ := getUserBookings_after_repo hrepo
  refine ⟨?_, ?_, hdb⟩
  · intro hno
    rcases enrichBookings_spec env db bookings with ⟨details, hall, hok⟩ |
      ⟨b, hmem, e, herr, _⟩
    · refine ⟨details, hall, ?_, ?_⟩
      · rw [hres, hok]
      · have hlen := List.Forall₂.length_eq hall
        rw [hlen]
        exact List.reduceOption_length_le details
    · exact absurd herr (hno b hmem e)
  · rintro ⟨b0, hmem0, e0, herr0⟩
    rcases enrichBookings_spec env db bookings with ⟨details, hall, _⟩ |
      ⟨b, hmem, e, herr, hfail⟩
    · exfalso
      have : ∀ (l : List Booking) (ds : List (Option Booking)),
          List.Forall₂
            (fun b d => BookingRepository.GetBookingWithDetails env db b.ID = .ok d) l ds →
          b0 ∈ l → False := by
        intro l ds hl
        induction hl with
        | nil => intro h; simp at h
        | cons hhead _ ih =>
          intro h
          rcases List.mem_cons.mp h with rfl | h
          · rw [herr0] at hhead
            exact Except.noConfusion hhead
          · exact ih h
      exact this bookings details hall hmem0
    · exact ⟨b, hmem, e, herr, by rw [hres, hfail]⟩

theorem getUserBookings_enrichment_witness :
    BookingRepository.GetUserBookings okEnv orphanBookingDb 1 (effectivePage 1)
      (effectiveLimit 10) = .ok (bookedDb.bookings, 1) ∧
    (∃ details,
      List.Forall₂
        (fun b d => BookingRepository.GetBookingWithDetails okEnv orphanBookingDb b.ID = .ok d)
        bookedDb.bookings details ∧
      (BookingService.GetUserBookings okEnv orphanBookingDb 1 1 10).result =
        .ok { Data := details.reduceOption
              Page := effectivePage 1
              Limit := effectiveLimit 10
              Total := 1
              TotalPages := totalPages 1 (effectiveLimit 10) } ∧
      details.reduceOption.length ≤ bookedDb.bookings.length) ∧
    (BookingService.GetUserBookings okEnv orphanBookingDb 1 1 10).result =
      .ok { Data := [], Page := 1, Limit := 10, Total := 1, TotalPages := 1 } ∧
    (BookingService.GetUserBookings okEnv bookedDb 1 1 10).result =
      .ok { Data := [{ bookedDb.bookings.head (by decide) with
                       Cinema := some cinemaXXI, Seat := some seatA1 }]
            Page := 1, Limit := 10, Total := 1, TotalPages := 1 } ∧
    (BookingService.GetUserBookings detailsFailEnv bookedDb 1 1 10).result =
      .error ("failed to get booking details: "
        ++ "failed to get booking with details: connection refused") :=
  ⟨rfl,
    (getUserBookings_enrichment okEnv orphanBookingDb 1 1 10 bookedDb.bookings 1 rfl).1 (by
      intro b hb e
      simp only [BookingRepository.GetBookingWithDetails, okEnv]
      simp),
    rfl, rfl, rfl⟩

/-! ## Decimal rendering of ids -/

theorem digitChar_val {k : Nat} (h : k < 10) : (Nat.digitChar k).toNat - 48 = k := by
  interval_cases k <;> rfl

theorem digitChar_ne_minus {k : Nat} (h : k < 10) : Nat.digitChar k ≠ '-' := by
  interval_cases k <;> decide

/-- Reading the digits back: folding `acc * 10 + digit` over what
`Nat.toDigitsCore` produces in front of `ds` gives the same as starting the
fold over `ds` from the number itself. -/
theorem toDigitsCore_decode (fuel n : Nat) (ds : List Char) (h : n < fuel) :
    List.foldl (fun acc c => acc * 10 + (c.toNat - 48)) 0 (Nat.toDigitsCore 10 fuel n ds) =
      List.foldl (fun acc c => acc * 10 + (c.toNat - 48)) n ds := by
  induction fuel generalizing n ds with
  | zero => omega
  | succ fuel ih =>
    simp only [Nat.toDigitsCore]
    have hd := digitChar_val (Nat.mod_lt n (by decide : 10 > 0))
    split
    · rename_i h0
      simp only [List.foldl_cons, Nat.zero_mul, Nat.zero_add, hd]
      have : n % 10 = n := by omega
      rw [this]
    · rename_i h0
      rw [ih (n / 10) _ (by omega)]
      simp only [List.foldl_cons, hd]
      have : n / 10 * 10 + n % 10 = n := by omega
      rw [this]

theorem toDigits_injective {m n : Nat} (h : Nat.toDigits 10 m = Nat.toDigits 10 n) : m = n := by
  have hm := toDigitsCore_decode (m + 1) m [] (Nat.lt_succ_self m)
  have hn := toDigitsCore_decode (n + 1) n [] (Nat.lt_succ_self n)
  simp only [List.foldl_nil] at hm hn
  unfold Nat.toDigits at h
  rw [← hm, ← hn, h]

theorem toDigitsCore_no_minus (fuel n : Nat) (ds : List Char) (h : '-' ∉ ds) :
    '-' ∉ Nat.toDigitsCore 10 fuel n ds := by
  induction fuel generalizing n ds with
  | zero => simpa [Nat.toDigitsCore] using h
  | succ fuel ih =>
    simp only [Nat.toDigitsCore]
    have hd := digitChar_ne_minus (Nat.mod_lt n (by decide : 10 > 0))
    split
    · simp only [List.mem_cons, not_or]
      exact ⟨fun h' => hd h'.symm, h⟩
    · apply ih
      simp only [List.mem_cons, not_or]
      exact ⟨fun h' => hd h'.symm, h⟩

theorem toDigitsCore_ne_nil (fuel n : Nat) (ds : List Char) :
    Nat.toDigitsCore 10 (fuel + 1) n ds ≠ [] := by
  induction fuel generalizing n ds with
  | zero =>
    simp only [Nat.toDigitsCore]
    split <;> simp
  | succ fuel ih =>
    rw [Nat.toDigitsCore]
    split
    · simp
    · exact ih _ _

theorem toDigits_no_minus (n : Nat) : '-' ∉ Nat.toDigits 10 n :=
  toDigitsCore_no_minus _ _ _ (by simp)

theorem toDigits_ne_nil (n : Nat) : Nat.toDigits 10 n ≠ [] :=
  toDigitsCore_ne_nil _ _ _

theorem toDigits_head_ne_minus (n : Nat) (rest : List Char) :
    Nat.toDigits 10 n ≠ '-' :: rest := by
  intro h
  have := toDigits_no_minus n
  rw [h] at this
  simp at this

/-- The characters of `fmtInt`: a minus sign for a negative number, then the
digits of the absolute value. -/
theorem fmtInt_data (i : Int) :
    (fmtInt i).data =
      if i < 0 then '-' :: Nat.toDigits 10 i.natAbs else Nat.toDigits 10 i.natAbs := by
  unfold fmtInt
  split
  · rfl
  · rfl

theorem fmtInt_injective {i j : Int} (h : (fmtInt i).data = (fmtInt j).data) : i = j := by
  rw [fmtInt_data, fmtInt_data] at h
  by_cases hi : i < 0
  · by_cases hj : j < 0
    · simp only [hi, hj, ↓reduceIte, List.cons.injEq, true_and] at h
      have := toDigits_injective h
      omega
    · simp only [hi, hj, ↓reduceIte] at h
      exact absurd h.symm (toDigits_head_ne_minus _ _)
  · by_cases hj : j < 0
    · simp only [hi, hj, ↓reduceIte] at h
      exact absurd h (toDigits_head_ne_minus _ _)
    · simp only [hi, hj, ↓reduceIte] at h
      have := toDigits_injective h
      omega

/-- A text is cut at its first minus sign in one way only. -/
theorem split_at_minus {x1 x2 y1 y2 : List Char} (h1 : '-' ∉ x1) (h2 : '-' ∉ x2)
    (h : x1 ++ '-' :: y1 = x2 ++ '-' :: y2) : x1 = x2 ∧ y1 = y2 := by
  induction x1 generalizing x2 with
  | nil =>
    cases x2 with
    | nil => simpa using h
    | cons c x2 =>
      simp only [List.nil_append, List.cons_append, List.cons.injEq] at h
      simp only [List.mem_cons, not_or] at h2
      exact absurd h.1 h2.1
  | cons c x1 ih =>
    cases x2 with
    | nil =>
      simp only [List.nil_append, List.cons_append, List.cons.injEq] at h
      simp only [List.mem_cons, not_or] at h1
      exact absurd h.1.symm h1.1
    | cons c2 x2 =>
      simp only [List.cons_append, List.cons.injEq] at h
      simp only [List.mem_cons, not_or] at h1 h2
      obtain ⟨e1, e2⟩ := ih h1.2 h2.2 h.2
      exact ⟨by rw [h.1, e1], e2⟩

/-- The text `TXN-<b>-<u>` determines `b` and `u`. -/
theorem txn_text_injective {b1 u1 b2 u2 : Int}
    (h : "TXN-" ++ fmtInt b1 ++ "-" ++ fmtInt u1 = "TXN-" ++ fmtInt b2 ++ "-" ++ fmtInt u2) :
    b1 = b2 ∧ u1 = u2 := by
  have hd := congrArg String.data h
  simp only [String.data_append, List.append_assoc] at hd
  have hd2 : (fmtInt b1).data ++ '-' :: (fmtInt u1).data =
      (fmtInt b2).data ++ '-' :: (fmtInt u2).data := by
    have := List.append_cancel_left hd
    simpa using this
  rw [fmtInt_data b1, fmtInt_data b2] at hd2
  by_cases hb1 : b1 < 0
  · by_cases hb2 : b2 < 0
    · simp only [hb1, hb2, ↓reduceIte, List.cons_append, List.cons.injEq, true_and] at hd2
      obtain ⟨e1, e2⟩ := split_at_minus (toDigits_no_minus _) (toDigits_no_minus _) hd2
      have := toDigits_injective e1
      exact ⟨by omega, fmtInt_injective e2⟩
    · simp only [hb1, hb2, ↓reduceIte, List.cons_append] at hd2
      exfalso
      cases hx : Nat.toDigits 10 b2.natAbs with
      | nil => exact toDigits_ne_nil _ hx
      | cons c rest =>
        rw [hx] at hd2
        simp only [List.cons_append, List.cons.injEq] at hd2
        exact toDigits_head_ne_minus _ rest (by rw [hx, ← hd2.1])
  · by_cases hb2 : b2 < 0
    · simp only [hb1, hb2, ↓reduceIte, List.cons_append] at hd2
      exfalso
      cases hx : Nat.toDigits 10 b1.natAbs with
      | nil => exact toDigits_ne_nil _ hx
      | cons c rest =>
        rw [hx] at hd2
        simp only [List.cons_append, List.cons.injEq] at hd2
        exact toDigits_head_ne_minus _ rest (by rw [hx, hd2.1])
    · simp only [hb1, hb2, ↓reduceIte] at hd2
      obtain ⟨e1, e2⟩ := split_at_minus (toDigits_no_minus _) (toDigits_no_minus _) hd2
      have := toDigits_injective e1
      exact ⟨by omega, fmtInt_injective e2⟩

/-- C29: the transaction id determines the pair (booking id, user id).  For
all integers, negative ones included, two different pairs give different
texts `TXN-<booking id>-<user id>`; so the payments `ProcessPayment` builds
for bookings that differ in id or owner carry different transaction ids, and
two successful `ProcessPayment` calls whose (booking id, caller) pairs differ
return different transaction ids. -/
theorem transactionID_injective (b1 u1 b2 u2 : Int) (h : (b1, u1) ≠ (b2, u2)) :
    "TXN-" ++ fmtInt b1 ++ "-" ++ fmtInt u1 ≠ "TXN-" ++ fmtInt b2 ++ "-" ++ fmtInt u2 ∧
    (∀ (userID1 userID2 : Int) (req1 req2 : PaymentRequest) (k1 k2 : Booking),
      k1.ID = b1 → k1.UserID = u1 → k2.ID = b2 → k2.UserID = u2 →
      (newPayment userID1 req1 k1).TransactionID ≠
        (newPayment userID2 req2 k2).TransactionID) ∧
    (∀ (env1 env2 : Env) (db1 db2 : Database) (req1 req2 : PaymentRequest)
        (r1 r2 : PaymentResponse),
      req1.BookingID = b1 → req2.BookingID = b2 →
      (PaymentService.ProcessPayment env1 db1 u1 req1).result = .ok r1 →
      (PaymentService.ProcessPayment env2 db2 u2 req2).result = .ok r2 →
      r1.TransactionID ≠ r2.TransactionID) := by
  have hne : "TXN-" ++ fmtInt b1 ++ "-" ++ fmtInt u1 ≠
      "TXN-" ++ fmtInt b2 ++ "-" ++ fmtInt u2 := by
    intro heq
    obtain ⟨e1, e2⟩ := txn_text_injective heq
    exact h (by rw [e1, e2])
  refine ⟨hne, ?_, ?_⟩
  · intro userID1 userID2 req1 req2 k1 k2 h1 h2 h3 h4
    simp only [newPayment, h1, h2, h3, h4]
    exact hne
  · intro env1 env2 db1 db2 req1 req2 r1 r2 hq1 hq2 hr1 hr2
    obtain ⟨k1, _, hid1, hu1, ht1⟩ := processPayment_ok_txn hr1
    obtain ⟨k2, _, hid2, hu2, ht2⟩ := processPayment_ok_txn hr2
    rw [ht1, ht2, hid1, hu1, hid2, hu2, hq1, hq2]
    exact hne

theorem transactionID_injective_witness :
    ((1 : Int), (-2 : Int)) ≠ (-1, 2) ∧
    "TXN-" ++ fmtInt 1 ++ "-" ++ fmtInt (-2) = "TXN-1--2" ∧
    "TXN-" ++ fmtInt (-1) ++ "-" ++ fmtInt 2 = "TXN--1-2" ∧
    "TXN-" ++ fmtInt 1 ++ "-" ++ fmtInt (-2) ≠ "TXN-" ++ fmtInt (-1) ++ "-" ++ fmtInt 2 :=
  ⟨by decide, by decide, by decide, (transactionID_injective 1 (-2) (-1) 2 (by decide)).1⟩

/-! ## The user service -/

theorem userRepo_createUser_ok {env : UserEnv} {store store1 : UserStore} {user u : User}
    (h : UserRepository.CreateUser env store user = .ok (u, store1)) :
    u = { user with ID := store.nextUserID, CreatedAt := env.now, UpdatedAt := env.now } ∧
    store1 = { store with
      users := store.users ++ [{ user with
        ID := store.nextUserID, IsVerified := false, CreatedAt := env.now,
        UpdatedAt := env.now }]
      nextUserID := store.nextUserID + 1 } := by
  unfold UserRepository.CreateUser at h
  split at h
  · simp at h
  · simp only [Except.ok.injEq, Prod.mk.injEq] at h
    exact ⟨h.1.symm, h.2.symm⟩

/-- What a successful `RegisterUser` returns and stores. -/
theorem registerUser_ok_inv {env : UserEnv} {store : UserStore} {req : UserRegisterRequest}
    {u : User} (h : (UserService.RegisterUser env store req).result = .ok u) :
    ∃ hash,
      UserRepository.GetUserByUsername env store req.Username = .ok none ∧
      UserRepository.GetUserByEmail env store req.Email = .ok none ∧
      env.hashPassword req.Password = .ok hash ∧
      u = { newUser req hash with
        ID := store.nextUserID, Password := "", CreatedAt := env.now, UpdatedAt := env.now } ∧
      (UserService.RegisterUser env store req).store =
        { store with
          users := store.users ++ [{ newUser req hash with
            ID := store.nextUserID, CreatedAt := env.now, UpdatedAt := env.now }]
          nextUserID := store.nextUserID + 1 } := by
  cases h1 : UserRepository.GetUserByUsername env store req.Username with
  | error e => simp [UserService.RegisterUser, h1] at h
  | ok o1 =>
    cases o1 with
    | some x => simp [UserService.RegisterUser, h1] at h
    | none =>
      cases h2 : UserRepository.GetUserByEmail env store req.Email with
      | error e => simp [UserService.RegisterUser, h1, h2] at h
      | ok o2 =>
        cases o2 with
        | some x => simp [UserService.RegisterUser, h1, h2] at h
        | none =>
          cases h3 : env.hashPassword req.Password with
          | error e => simp [UserService.RegisterUser, h1, h2, h3] at h
          | ok hash =>
            cases h4 : UserRepository.CreateUser env store (newUser req hash) with
            | error e => simp [UserService.RegisterUser, h1, h2, h3, h4] at h
            | ok p =>
              obtain ⟨u1, store1⟩ := p
              obtain ⟨hu1, hs1⟩ := userRepo_createUser_ok h4
              refine ⟨hash, rfl, rfl, rfl, ?_, ?_⟩
              · simp only [UserService.RegisterUser, h1, h2, h3, h4, Except.ok.injEq] at h
                rw [← h, hu1]
              · simp only [UserService.RegisterUser, h1, h2, h3, h4]
                rw [hs1]
                rfl

/-- In a table with unique ids, two rows with the same id are the same row. -/
theorem eq_of_pairwise_id {l : List User} (h : l.Pairwise (fun a b => a.ID ≠ b.ID))
    {a b : User} (ha : a ∈ l) (hb : b ∈ l) (hid : a.ID = b.ID) : a = b := by
  induction l with
  | nil => simp at ha
  | cons x l ih =>
    rw [List.pairwise_cons] at h
    rcases List.mem_cons.mp ha with rfl | ha'
    · rcases List.mem_cons.mp hb with rfl | hb'
      · rfl
      · exact absurd hid (h.1 b hb')
    · rcases List.mem_cons.mp hb with rfl | hb'
      · exact absurd hid.symm (h.1 a ha')
      · exact ih h.2 ha' hb'

/-- C21: the user service never returns a password.  A user that `GetUserByID`
returns is a row of the `users` table with that id and with the `Password`
field emptied; when the lookup does not fail, every id of the table gets its
row back with the password emptied (the row itself when ids are unique), and
an id that is not in the table gets no user and no error.  A user that
`RegisterUser` returns has an empty `Password` and the username and email of
the request, while the row added to the table holds the password hash.
`GetUserByID` leaves the table as it was. -/
theorem userService_never_returns_password (env : UserEnv) (store : UserStore) :
    (∀ (id : Int) (u : User),
      (UserService.GetUserByID env store id).result = .ok (some u) →
      u.Password = "" ∧ ∃ row ∈ store.users, row.ID = id ∧ u = { row with Password := "" }) ∧
    (∀ row ∈ store.users, env.fails (.getUserByID row.ID) = false →
      ∃ row' ∈ store.users, row'.ID = row.ID ∧
        (UserService.GetUserByID env store row.ID).result =
          .ok (some { row' with Password := "" }) ∧
        (store.users.Pairwise (fun a b => a.ID ≠ b.ID) → row' = row)) ∧
    (∀ (id : Int), env.fails (.getUserByID id) = false →
      (∀ row ∈ store.users, row.ID ≠ id) →
      (UserService.GetUserByID env store id).result = .ok none) ∧
    (∀ (id : Int), (UserService.GetUserByID env store id).store = store) ∧
    (∀ (req : UserRegisterRequest) (u : User),
      (UserService.RegisterUser env store req).result = .ok u →
      u.Password = "" ∧ u.Username = req.Username ∧ u.Email = req.Email ∧
      ∃ hash, env.hashPassword req.Password = .ok hash ∧
        (UserService.RegisterUser env store req).store.users =
          store.users ++ [{ u with Password := hash }]) := by
  refine ⟨?_, ?_, ?_, ?_, ?_⟩
  · intro id u h
    unfold UserService.GetUserByID UserRepository.GetUserByID at h
    by_cases hf : env.fails (.getUserByID id) = true
    · simp [hf] at h
    · cases hfind : store.users.find? (fun x => x.ID == id) with
      | none => simp [hf, hfind] at h
      | some row =>
        simp only [hf, hfind, Bool.false_eq_true, ↓reduceIte, Except.ok.injEq,
          Option.some.injEq] at h
        refine ⟨by rw [← h], row, List.mem_of_find?_eq_some hfind, ?_, h.symm⟩
        simpa using List.find?_some hfind
  · intro row hrow hf
    cases hfind : store.users.find? (fun x => x.ID == row.ID) with
    | none =>
      have := List.find?_eq_none.mp hfind row hrow
      simp at this
    | some row' =>
      have hid : row'.ID = row.ID := by simpa using List.find?_some hfind
      refine ⟨row', List.mem_of_find?_eq_some hfind, hid, ?_, ?_⟩
      · simp [UserService.GetUserByID, UserRepository.GetUserByID, hf, hfind]
      · intro hpw
        exact eq_of_pairwise_id hpw (List.mem_of_find?_eq_some hfind) hrow hid
  · intro id hf hno
    have hfind : store.users.find? (fun x => x.ID == id) = none := by
      apply List.find?_eq_none.mpr
      intro x hx
      simpa using hno x hx
    simp [UserService.GetUserByID, UserRepository.GetUserByID, hf, hfind]
  · intro id
    unfold UserService.GetUserByID
    split <;> rfl
  · intro req u h
    obtain ⟨hash, _, _, hh, hu, hs⟩ := registerUser_ok_inv h
    refine ⟨by rw [hu], by rw [hu]; rfl, by rw [hu]; rfl, hash, hh, ?_⟩
    rw [hs, hu]
    rfl

theorem userService_never_returns_password_witness :
    (UserService.GetUserByID okUserEnv sampleUsers 1).result =
      .ok (some { ID := 1, Username := "alice", Email := "alice@example.com", Password := ""
                  IsVerified := true, CreatedAt := 0, UpdatedAt := 0 }) ∧
    (UserService.GetUserByID okUserEnv sampleUsers 7).result = .ok none ∧
    (UserService.RegisterUser okUserEnv sampleUsers bobRequest).result =
      .ok { ID := 2, Username := "bob", Email := "bob@example.com", Password := ""
            IsVerified := false, CreatedAt := 100, UpdatedAt := 100 } ∧
    ((UserService.RegisterUser okUserEnv sampleUsers bobRequest).store.users.map
      (fun u => (u.ID, u.Username, u.Password)) =
        [(1, "alice", "$2a$10$secret"), (2, "bob", "$2a$10$hunter22")]) ∧
    (∀ (id : Int) (u : User),
      (UserService.GetUserByID okUserEnv sampleUsers id).result = .ok (some u) →
      u.Password = "" ∧
        ∃ row ∈ sampleUsers.users, row.ID = id ∧ u = { row with Password := "" }) :=
  ⟨rfl, (userService_never_returns_password okUserEnv sampleUsers).2.2.1 7 rfl (by decide),
    rfl, by decide, (userService_never_returns_password okUserEnv sampleUsers).1⟩

end Bioskop
